import Mathlib

/-!
GameEngineFromScratch: the frame pipeline of the graphics manager.

A shallow embedding of `Framework/Common/GraphicsManager.cpp` and of the scene
life cycle in `RHI/OpenGL/OpenGLGraphicsManagerCommonBase.cpp`.

Conventions of the embedding:

* `float` values are rationals (`Scalar`); rounding is outside the model.
* OpenGL object names are natural numbers, `0` being "no object".  The driver is
  a record of three name counters and the list of generate/delete calls made so
  far; a generated name is the successor of the number of names issued before.
* `std::vector<Frame> m_Frames`, the per-slot handle arrays and the `lights`
  array are total functions of the index.  Only the indices below
  `kMaxInFlightFrameCount` are slots, and an index at or beyond the capacity of
  `lights` is a write past the end of the array in the source.
* A `shared_ptr<DrawBatchContext>` is an index into `batchObjects`; the same
  index stored in several slots is the same object.
* A null dereference or a failed `assert` ends the run: `Outcome.fault` carries
  the state reached at that point.
* Functions of this repository whose bodies are not in the two source files
  (the geometry helpers, the physics manager, the pass objects) are fields of
  `Env`.
-/

namespace My

/-! ## Scalars, vectors, matrices -/

abbrev Scalar := ℚ
abbrev Vector2f := Fin 2 → Scalar
abbrev Vector3f := Fin 3 → Scalar
abbrev Vector4f := Fin 4 → Scalar
abbrev Matrix4X4f := Fin 4 → Fin 4 → Scalar

/-- The first three components of a four-vector: `memcpy(&v3, &v4, sizeof v3)`. -/
def Vector4f.xyz (v : Vector4f) : Vector3f := ![v 0, v 1, v 2]

/-! ## Scene snapshot (read only) -/

inductive AttenCurveType where
  | kNone
  | kOther (code : Nat)
  deriving DecidableEq, Repr

/-- An attenuation curve: its type and the floats of its parameter union `u`. -/
structure AttenCurve where
  type : AttenCurveType
  u : List Scalar

/-- The dynamic type of a light object, with the members only that type has. -/
inductive SceneObjectLightType where
  | kSceneObjectTypeLightInfi
  | kSceneObjectTypeLightSpot (angleAttenuation : AttenCurve)
  | kSceneObjectTypeLightArea (dimension : Vector2f)
  | kSceneObjectTypeLightOmni

structure SceneObjectLight where
  guid : Nat
  color : Vector4f
  intensity : Scalar
  castShadow : Bool
  distanceAttenuation : AttenCurve
  type : SceneObjectLightType

structure SceneLightNode where
  calculatedTransform : Matrix4X4f
  sceneObjectRef : String

/-- A camera object; `perspective` tells whether the
`dynamic_pointer_cast<SceneObjectPerspectiveCamera>` succeeds. -/
structure SceneObjectCamera where
  perspective : Bool
  fov : Scalar
  nearClipDistance : Scalar
  farClipDistance : Scalar

structure SceneCameraNode where
  calculatedTransform : Matrix4X4f
  sceneObjectRef : String

inductive VertexDataType where
  | kVertexDataTypeFloat1 | kVertexDataTypeFloat2 | kVertexDataTypeFloat3 | kVertexDataTypeFloat4
  | kVertexDataTypeDouble1 | kVertexDataTypeDouble2 | kVertexDataTypeDouble3 | kVertexDataTypeDouble4
  deriving DecidableEq, Repr

inductive PrimitiveType where
  | kPrimitiveTypePointList
  | kPrimitiveTypeLineList
  | kPrimitiveTypeLineStrip
  | kPrimitiveTypeTriList
  | kPrimitiveTypeTriStrip
  | kPrimitiveTypeTriFan
  | kPrimitiveTypeOther (code : Nat)
  deriving DecidableEq, Repr

inductive IndexDataType where
  | kIndexDataTypeInt8
  | kIndexDataTypeInt16
  | kIndexDataTypeInt32
  | kIndexDataTypeOther (code : Nat)
  deriving DecidableEq, Repr

structure SceneObjectIndexArray where
  indexType : IndexDataType
  indexCount : Nat
  materialIndex : Nat
  deriving DecidableEq, Repr

structure SceneObjectMesh where
  vertexProperties : List VertexDataType
  primitiveType : PrimitiveType
  indexArrays : List SceneObjectIndexArray
  deriving DecidableEq, Repr

/-- A geometry object; `mesh` is `none` when `GetMesh().lock()` yields null. -/
structure SceneObjectGeometry where
  mesh : Option SceneObjectMesh
  deriving DecidableEq, Repr

/-- A material: for each of the six parameters the name of its texture, when
the parameter has a `ValueMap`. -/
structure SceneObjectMaterial where
  baseColor : Option String
  normal : Option String
  metallic : Option String
  roughness : Option String
  ao : Option String
  height : Option String
  deriving DecidableEq, Repr

/-- A geometry node: `rigidBody` is the `void*` of `RigidBody()`, `none` being
null; `materialRef` is `GetMaterialRef`. -/
structure SceneGeometryNode where
  visible : Bool
  sceneObjectRef : String
  materialRef : Nat → String
  rigidBody : Option Nat
  calculatedTransform : Matrix4X4f

/-- The scene.  The node maps are listed in iteration order, each entry being
the result of locking the stored weak pointer (`none`: expired).  The object
maps are association lists read by `GetLight`, `GetCamera`, `GetGeometry`,
`GetMaterial`. -/
structure Scene where
  GeometryNodes : List (Option SceneGeometryNode)
  LightNodes : List (Option SceneLightNode)
  CameraNodes : List SceneCameraNode
  Geometries : List (String × SceneObjectGeometry)
  Lights : List (String × SceneObjectLight)
  Cameras : List (String × SceneObjectCamera)
  Materials : List (String × SceneObjectMaterial)
  SkyBox : Bool
  Terrain : Bool

def Scene.GetFirstCameraNode (scene : Scene) : Option SceneCameraNode := scene.CameraNodes.head?

def Scene.GetCamera (scene : Scene) (key : String) : Option SceneObjectCamera := scene.Cameras.lookup key

def Scene.GetLight (scene : Scene) (key : String) : Option SceneObjectLight := scene.Lights.lookup key

def Scene.GetGeometry (scene : Scene) (key : String) : Option SceneObjectGeometry :=
  scene.Geometries.lookup key

def Scene.GetMaterial (scene : Scene) (key : String) : Option SceneObjectMaterial :=
  scene.Materials.lookup key

/-! ## Frame state -/

inductive LightType where
  | Omni | Spot | Infinity | Area
  deriving DecidableEq, Repr

/-- One entry of `LightInfo::lights`.  The two parameter arrays are flat float
arrays: `params[0][1]` is the float at offset `1`. -/
structure Light where
  lightIntensity : Scalar
  lightType : LightType
  lightCastShadow : Bool
  lightAngleAttenCurveType : AttenCurveType
  lightDistAttenCurveType : AttenCurveType
  lightSize : Vector2f
  lightGuid : Nat
  lightPosition : Vector4f
  lightColor : Vector4f
  lightDirection : Vector4f
  lightDistAttenCurveParams : Nat → Scalar
  lightAngleAttenCurveParams : Nat → Scalar
  lightVP : Matrix4X4f

/-- The struct `LightInfo` of a frame slot.  The array `lights` has a fixed
capacity, `MaxLights` elements, whose declaration is not among the source
files; `lights n` for `n` below the capacity is the element `lights[n]`, and
for `n` at or above it the memory that `lights[n]` addresses past the end of
the array, outside the struct. -/
structure LightInfo where
  lights : Nat → Light

structure DrawFrameContext where
  camPos : Vector3f
  viewMatrix : Matrix4X4f
  projectionMatrix : Matrix4X4f
  numLights : Nat
  shadowMap : Int
  globalShadowMap : Int
  cubeShadowMap : Int
  skybox : Int
  terrainHeightMap : Int

/-- One slot of the ring; `batchContexts` holds the shared pointers. -/
structure Frame where
  frameContext : DrawFrameContext
  lightInfo : LightInfo
  batchContexts : List Nat

structure MaterialTextures where
  diffuseMap : Int
  normalMap : Int
  metallicMap : Int
  roughnessMap : Int
  aoMap : Int
  heightMap : Int
  deriving DecidableEq, Repr

inductive GLMode where
  | GL_POINTS | GL_LINES | GL_LINE_STRIP | GL_TRIANGLES | GL_TRIANGLE_STRIP | GL_TRIANGLE_FAN
  | GL_PATCHES
  deriving DecidableEq, Repr

inductive GLType where
  | GL_UNSIGNED_BYTE | GL_UNSIGNED_SHORT | GL_UNSIGNED_INT
  deriving DecidableEq, Repr

/-- The conversion `static_cast<int32_t>` of an unsigned value: the value
modulo 2^32, read as a 32-bit two's-complement integer. -/
def static_cast_int32 (n : Nat) : Int :=
  if n % 4294967296 < 2147483648 then ((n % 4294967296 : Nat) : Int)
  else ((n % 4294967296 : Nat) : Int) - 4294967296

/-- The batch object (`OpenGLDrawBatchContext`); `node` is the scene node it
points back to, `count` the 32-bit signed element count handed to the draw
call. -/
structure OpenGLDrawBatchContext where
  batchIndex : Nat
  node : Option SceneGeometryNode
  modelMatrix : Matrix4X4f
  material : MaterialTextures
  vao : Nat
  mode : GLMode
  type : GLType
  count : Int

/-! ## OpenGL driver -/

inductive GLCall where
  | glGenBuffers (name : Nat)
  | glGenVertexArrays (name : Nat)
  | glGenTextures (name : Nat)
  | glDeleteBuffers (name : Nat)
  | glDeleteVertexArrays (name : Nat)
  | glDeleteTextures (name : Nat)
  deriving DecidableEq, Repr

structure GLContext where
  buffersIssued : Nat
  vertexArraysIssued : Nat
  texturesIssued : Nat
  calls : List GLCall
  deriving DecidableEq, Repr

/-! ## Manager state -/

/-- The members of `GraphicsManager` and `OpenGLGraphicsManagerCommonBase`
that the frame pipeline reads or writes, the store of batch objects
(`batchObjects`, of which the first `batchObjectCount` are allocated), and the
OpenGL driver. -/
structure Manager where
  m_nFrameIndex : Nat
  m_Frames : Nat → Frame
  batchObjects : Nat → OpenGLDrawBatchContext
  batchObjectCount : Nat
  m_Buffers : List Nat
  m_Textures : List (String × Nat)
  m_uboDrawFrameConstant : Nat → Nat
  m_uboLightInfo : Nat → Nat
  m_uboDrawBatchConstant : Nat → Nat
  m_uboShadowMatricesConstant : Nat → Nat
  m_uboDebugConstant : Nat → Nat
  m_TerrainDrawBatchContext : OpenGLDrawBatchContext
  m_SkyBoxDrawBatchContext : OpenGLDrawBatchContext
  m_DebugDrawBatchContext : List Nat
  m_DebugBuffers : List Nat
  gl : GLContext

/-- The result of running a piece of code: it finished with a value, or it
stopped at a null dereference or failed assertion in the manager state given. -/
inductive Outcome (α : Type) where
  | done (a : α)
  | fault (m : Manager)

def Outcome.state : Outcome Manager → Manager
  | .done m => m
  | .fault m => m

def Outcome.andThen {α β : Type} (o : Outcome α) (f : α → Outcome β) : Outcome β :=
  match o with
  | .done a => f a
  | .fault m => .fault m

def Outcome.completes {α : Type} : Outcome α → Bool
  | .done _ => true
  | .fault _ => false

/-- What the source files use but do not define: configuration constants, the
build macros `DEBUG` and `NDEBUG` (with `NDEBUG` defined, `assert` expands to
nothing), the geometry helpers of `geommath`, the physics manager, the default
constructor of the batch object, and the registered passes (`Dispatch` of the
init passes, `Draw` of the draw passes, in registration order). -/
structure Env where
  kMaxInFlightFrameCount : Nat
  DEBUG : Bool
  NDEBUG : Bool
  screenWidth : Nat
  screenHeight : Nat
  PI : Scalar
  BuildIdentityMatrix : Matrix4X4f
  BuildViewRHMatrix : Vector3f → Vector3f → Vector3f → Matrix4X4f
  BuildPerspectiveFovRHMatrix : Scalar → Scalar → Scalar → Scalar → Matrix4X4f
  BuildOrthographicMatrix : Scalar → Scalar → Scalar → Scalar → Scalar → Scalar → Matrix4X4f
  InverseMatrix4X4f : Matrix4X4f → Matrix4X4f
  Transform : Vector4f → Matrix4X4f → Vector4f
  Normalize : Vector4f → Vector4f
  MatrixMultiply : Matrix4X4f → Matrix4X4f → Matrix4X4f
  GetRigidBodyTransform : Nat → Matrix4X4f
  newDrawBatchContext : OpenGLDrawBatchContext
  initPasses : List (Manager → Manager)
  drawPasses : List (Manager → Manager)

/-! ## Driver calls -/

def Manager.record (m : Manager) (c : GLCall) : Manager :=
  { m with gl := { m.gl with calls := m.gl.calls ++ [c] } }

def Manager.glDeleteBuffers (m : Manager) (name : Nat) : Manager := m.record (.glDeleteBuffers name)

def Manager.glDeleteVertexArrays (m : Manager) (name : Nat) : Manager :=
  m.record (.glDeleteVertexArrays name)

def Manager.glDeleteTextures (m : Manager) (name : Nat) : Manager := m.record (.glDeleteTextures name)

def Manager.glGenBuffers (m : Manager) : Nat × Manager :=
  let name := m.gl.buffersIssued + 1
  (name, { m with gl := { m.gl with buffersIssued := name, calls := m.gl.calls ++ [.glGenBuffers name] } })

def Manager.glGenVertexArrays (m : Manager) : Nat × Manager :=
  let name := m.gl.vertexArraysIssued + 1
  (name, { m with gl := { m.gl with vertexArraysIssued := name,
                                    calls := m.gl.calls ++ [.glGenVertexArrays name] } })

def Manager.glGenTextures (m : Manager) : Nat × Manager :=
  let name := m.gl.texturesIssued + 1
  (name, { m with gl := { m.gl with texturesIssued := name, calls := m.gl.calls ++ [.glGenTextures name] } })

/-- Assignment to `m_Frames[i]`. -/
def Manager.setFrame (m : Manager) (i : Nat) (f : Frame) : Manager :=
  { m with m_Frames := Function.update m.m_Frames i f }

/-- Assignment `m_Textures[key] = id` of the map. -/
def setTexture (textures : List (String × Nat)) (key : String) (id : Nat) : List (String × Nat) :=
  match textures with
  | [] => [(key, id)]
  | (k, v) :: rest => if k = key then (k, id) :: rest else (k, v) :: setTexture rest key id

/-! ## Scene teardown -/

/-- Modelled from the spec: the base class `GraphicsManager::EndScene`, called
last by the OpenGL one, has no body in `GraphicsManager.cpp`; the spec gives
the release of resources to the backend and nothing to the base class, so it
changes nothing. -/
def GraphicsManager.EndScene (m : Manager) : Manager := m

/-- The body of the slot loop of `EndScene` for slot `i`. -/
def EndScene.slot (m : Manager) (i : Nat) : Manager :=
  let m := (m.m_Frames i).batchContexts.foldl
    (fun acc dbc => acc.glDeleteVertexArrays (acc.batchObjects dbc).vao) m
  let m := m.setFrame i { m.m_Frames i with batchContexts := [] }
  let m := if m.m_uboDrawFrameConstant i ≠ 0 then m.glDeleteBuffers (m.m_uboDrawFrameConstant i) else m
  let m := if m.m_uboDrawBatchConstant i ≠ 0 then m.glDeleteBuffers (m.m_uboDrawBatchConstant i) else m
  let m := if m.m_uboShadowMatricesConstant i ≠ 0 then
    m.glDeleteBuffers (m.m_uboShadowMatricesConstant i) else m
  if m.m_uboDebugConstant i ≠ 0 then m.glDeleteBuffers (m.m_uboDebugConstant i) else m

/-- The function `OpenGLGraphicsManagerCommonBase::EndScene`. -/
def EndScene (env : Env) (m : Manager) : Manager :=
  let m := (List.range env.kMaxInFlightFrameCount).foldl EndScene.slot m
  let m := if m.m_TerrainDrawBatchContext.vao ≠ 0 then
    m.glDeleteVertexArrays m.m_TerrainDrawBatchContext.vao else m
  let m := if m.m_SkyBoxDrawBatchContext.vao ≠ 0 then
    m.glDeleteVertexArrays m.m_SkyBoxDrawBatchContext.vao else m
  let m := m.m_Buffers.foldl (fun acc buf => acc.glDeleteBuffers buf) m
  let m := m.m_Textures.foldl (fun acc it => acc.glDeleteTextures it.2) m
  let m := { m with m_Buffers := [] }
  let m := { m with m_Textures := [] }
  GraphicsManager.EndScene m

/-! ## Scene build -/

/-- Modelled from the spec: the call `pPass->Dispatch()` of an init pass, whose
class is not among the source files.  `Dispatch()` receives no slot and reaches
the manager through its public interface only, so the frame index, the slots
and the batch objects are kept. -/
def runInitPass (m : Manager) (Dispatch : Manager → Manager) : Manager :=
  { Dispatch m with
    m_nFrameIndex := m.m_nFrameIndex
    m_Frames := m.m_Frames
    batchObjects := m.batchObjects
    batchObjectCount := m.batchObjectCount }

/-- The function `GraphicsManager::BeginScene`: every init pass is dispatched. -/
def GraphicsManager.BeginScene (env : Env) (m : Manager) : Manager :=
  env.initPasses.foldl runInitPass m

/-- The lambda `upload_texture` of `initializeGeometries`. -/
def upload_texture (m : Manager) (texture_key : String) : Nat × Manager :=
  match m.m_Textures.lookup texture_key with
  | none =>
    let (texture_id, m) := m.glGenTextures
    (texture_id, { m with m_Textures := setTexture m.m_Textures texture_key texture_id })
  | some texture_id => (texture_id, m)

/-- One `if (x.ValueMap)` block: upload and store the name in the batch. -/
def uploadMap (valueMap : Option String) (store : MaterialTextures → Int → MaterialTextures)
    (st : OpenGLDrawBatchContext × Manager) : OpenGLDrawBatchContext × Manager :=
  match valueMap with
  | some texture_key =>
    let (texture_id, m) := upload_texture st.2 texture_key
    ({ st.1 with material := store st.1.material (texture_id : Int) }, m)
  | none => st

/-- The body of `if (material)`. -/
def uploadMaterial (material : SceneObjectMaterial) (st : OpenGLDrawBatchContext × Manager) :
    OpenGLDrawBatchContext × Manager :=
  let st := uploadMap material.baseColor (fun t id => { t with diffuseMap := id }) st
  let st := uploadMap material.normal (fun t id => { t with normalMap := id }) st
  let st := uploadMap material.metallic (fun t id => { t with metallicMap := id }) st
  let st := uploadMap material.roughness (fun t id => { t with roughnessMap := id }) st
  let st := uploadMap material.ao (fun t id => { t with aoMap := id }) st
  uploadMap material.height (fun t id => { t with heightMap := id }) st

/-- The switch on the primitive type; `none` is the `default: continue`. -/
def glMode : PrimitiveType → Option GLMode
  | .kPrimitiveTypePointList => some .GL_POINTS
  | .kPrimitiveTypeLineList => some .GL_LINES
  | .kPrimitiveTypeLineStrip => some .GL_LINE_STRIP
  | .kPrimitiveTypeTriList => some .GL_TRIANGLES
  | .kPrimitiveTypeTriStrip => some .GL_TRIANGLE_STRIP
  | .kPrimitiveTypeTriFan => some .GL_TRIANGLE_FAN
  | .kPrimitiveTypeOther _ => none

/-- The switch on the index type; `none` is the `default: continue`. -/
def glIndexType : IndexDataType → Option GLType
  | .kIndexDataTypeInt8 => some .GL_UNSIGNED_BYTE
  | .kIndexDataTypeInt16 => some .GL_UNSIGNED_SHORT
  | .kIndexDataTypeInt32 => some .GL_UNSIGNED_INT
  | .kIndexDataTypeOther _ => none

/-- The loop `for n < kMaxInFlightFrameCount: m_Frames[n].batchContexts.push_back(dbc)`. -/
def pushBatch (N : Nat) (dbc : Nat) (m : Manager) : Manager :=
  (List.range N).foldl
    (fun acc n => acc.setFrame n
      { acc.m_Frames n with batchContexts := (acc.m_Frames n).batchContexts ++ [dbc] }) m

/-- The material block of the index-group loop: a new batch object, with the
texture names of the material when the scene has it. -/
def initializeGeometries.material (env : Env) (scene : Scene) (pGeometryNode : SceneGeometryNode)
    (index_array : SceneObjectIndexArray) (m : Manager) : OpenGLDrawBatchContext × Manager :=
  match scene.GetMaterial (pGeometryNode.materialRef index_array.materialIndex) with
  | some material => uploadMaterial material (env.newDrawBatchContext, m)
  | none => (env.newDrawBatchContext, m)

/-- The allocation of the batch object made by `make_shared`: it is stored at
the next free index, which is the pointer. -/
def Manager.allocBatch (m : Manager) (dbc : OpenGLDrawBatchContext) : Manager :=
  { m with
    batchObjects := Function.update m.batchObjects m.batchObjectCount dbc
    batchObjectCount := m.batchObjectCount + 1 }

/-- The body of the index-group loop of `initializeGeometries`; the state is
the local `batch_index` and the manager.  The element count of the batch is
the local `int32_t indexCount = static_cast<int32_t>(GetIndexCount())`. -/
def initializeGeometries.indexGroup (env : Env) (scene : Scene) (pGeometryNode : SceneGeometryNode)
    (vao : Nat) (mode : GLMode) (st : Nat × Manager) (index_array : SceneObjectIndexArray) :
    Nat × Manager :=
  let batch_index := st.1
  let gen := st.2.glGenBuffers
  let buffer_id := gen.1
  let indexCount := static_cast_int32 index_array.indexCount
  match glIndexType index_array.indexType with
  | none => (batch_index, gen.2)
  | some type =>
    let m := { gen.2 with m_Buffers := gen.2.m_Buffers ++ [buffer_id] }
    let built := initializeGeometries.material env scene pGeometryNode index_array m
    let dbc := { built.1 with
      batchIndex := batch_index
      vao := vao
      mode := mode
      type := type
      count := indexCount
      node := some pGeometryNode }
    let ptr := built.2.batchObjectCount
    (batch_index + 1, pushBatch env.kMaxInFlightFrameCount ptr (built.2.allocBatch dbc))

/-- The loop over the vertex properties: one buffer each, kept in `m_Buffers`. -/
def initializeGeometries.vertexBuffers (properties : List VertexDataType) (m : Manager) : Manager :=
  properties.foldl
    (fun acc _ =>
      let (buffer_id, acc) := acc.glGenBuffers
      { acc with m_Buffers := acc.m_Buffers ++ [buffer_id] }) m

/-- The body of the node loop of `initializeGeometries`. -/
def initializeGeometries.node (env : Env) (scene : Scene) (st : Nat × Manager)
    (entry : Option SceneGeometryNode) : Outcome (Nat × Manager) :=
  match entry with
  | none => .done st
  | some pGeometryNode =>
    if pGeometryNode.visible then
      match scene.GetGeometry pGeometryNode.sceneObjectRef with
      | none => .fault st.2
      | some pGeometry =>
        match pGeometry.mesh with
        | none => .done st
        | some pMesh =>
          let (vao, m) := st.2.glGenVertexArrays
          let m := initializeGeometries.vertexBuffers pMesh.vertexProperties m
          match glMode pMesh.primitiveType with
          | none => .done (st.1, m)
          | some mode =>
            .done (pMesh.indexArrays.foldl
              (initializeGeometries.indexGroup env scene pGeometryNode vao mode) (st.1, m))
    else .done st

/-- The function `OpenGLGraphicsManagerCommonBase::initializeGeometries`. -/
def initializeGeometries (env : Env) (scene : Scene) (m : Manager) : Outcome Manager :=
  (scene.GeometryNodes.foldl
    (fun (o : Outcome (Nat × Manager)) entry =>
      o.andThen (fun st => initializeGeometries.node env scene st entry))
    (Outcome.done (0, m))).andThen (fun st => Outcome.done st.2)

/-- The loop storing a texture name in a field of every slot's frame context. -/
def setFrameContexts (N : Nat) (set : DrawFrameContext → DrawFrameContext) (m : Manager) : Manager :=
  (List.range N).foldl
    (fun acc i => acc.setFrame i { acc.m_Frames i with frameContext := set (acc.m_Frames i).frameContext }) m

/-- The function `OpenGLGraphicsManagerCommonBase::initializeTerrain`. -/
def initializeTerrain (env : Env) (scene : Scene) (m : Manager) : Outcome Manager :=
  let (terrainVAO, m) := m.glGenVertexArrays
  let (terrainVBO0, m) := m.glGenBuffers
  let (terrainVBO1, m) := m.glGenBuffers
  let m := { m with m_Buffers := m.m_Buffers ++ [terrainVBO0] }
  let m := { m with m_Buffers := m.m_Buffers ++ [terrainVBO1] }
  let m := { m with m_TerrainDrawBatchContext :=
    { m.m_TerrainDrawBatchContext with
      vao := terrainVAO, mode := .GL_PATCHES, type := .GL_UNSIGNED_BYTE, count := 4 } }
  let (texture_id, m) := m.glGenTextures
  if scene.Terrain then
    let m := { m with m_Textures := setTexture m.m_Textures "Terrain" texture_id }
    .done (setFrameContexts env.kMaxInFlightFrameCount
      (fun c => { c with terrainHeightMap := (texture_id : Int) }) m)
  else .fault m

/-- The function `OpenGLGraphicsManagerCommonBase::initializeSkyBox`. -/
def initializeSkyBox (env : Env) (scene : Scene) (m : Manager) : Outcome Manager :=
  let (texture_id, m) := m.glGenTextures
  if scene.SkyBox then
    let m := { m with m_Textures := setTexture m.m_Textures "SkyBox" texture_id }
    let m := setFrameContexts env.kMaxInFlightFrameCount
      (fun c => { c with skybox := (texture_id : Int) }) m
    let (skyboxVAO, m) := m.glGenVertexArrays
    let (skyboxVBO0, m) := m.glGenBuffers
    let (skyboxVBO1, m) := m.glGenBuffers
    let m := { m with m_Buffers := m.m_Buffers ++ [skyboxVBO0] }
    let m := { m with m_Buffers := m.m_Buffers ++ [skyboxVBO1] }
    .done { m with m_SkyBoxDrawBatchContext :=
      { m.m_SkyBoxDrawBatchContext with
        vao := skyboxVAO, mode := .GL_TRIANGLES, type := .GL_UNSIGNED_BYTE, count := 36 } }
  else .fault m

/-- The function `OpenGLGraphicsManagerCommonBase::BeginScene`. -/
def BeginScene (env : Env) (scene : Scene) (m : Manager) : Outcome Manager :=
  ((initializeGeometries env scene (GraphicsManager.BeginScene env m)).andThen
    (initializeTerrain env scene)).andThen (initializeSkyBox env scene)

/-! ## Constant upload -/

/-- The function `OpenGLGraphicsManagerCommonBase::SetPerFrameConstants`. -/
def SetPerFrameConstants (m : Manager) : Manager :=
  if m.m_uboDrawFrameConstant m.m_nFrameIndex = 0 then
    let (name, m) := m.glGenBuffers
    { m with m_uboDrawFrameConstant := Function.update m.m_uboDrawFrameConstant m.m_nFrameIndex name }
  else m

/-- The function `OpenGLGraphicsManagerCommonBase::SetLightInfo`. -/
def SetLightInfo (m : Manager) : Manager :=
  if m.m_uboLightInfo m.m_nFrameIndex = 0 then
    let (name, m) := m.glGenBuffers
    { m with m_uboLightInfo := Function.update m.m_uboLightInfo m.m_nFrameIndex name }
  else m

/-- The function `OpenGLGraphicsManagerCommonBase::SetPerBatchConstants`. -/
def SetPerBatchConstants (m : Manager) : Manager :=
  if m.m_uboDrawBatchConstant m.m_nFrameIndex = 0 then
    let (name, m) := m.glGenBuffers
    { m with m_uboDrawBatchConstant := Function.update m.m_uboDrawBatchConstant m.m_nFrameIndex name }
  else m

/-- The buffer name that `SetPerFrameConstants` binds after its optional
generate: the content of `m_uboDrawFrameConstant[m_nFrameIndex]`. -/
def SetPerFrameConstants.bound (m : Manager) : Nat :=
  (SetPerFrameConstants m).m_uboDrawFrameConstant m.m_nFrameIndex

/-- The buffer name that `SetPerBatchConstants` binds. -/
def SetPerBatchConstants.bound (m : Manager) : Nat :=
  (SetPerBatchConstants m).m_uboDrawBatchConstant m.m_nFrameIndex


/-! ## Per-tick constants -/

/-- The copy `memcpy(dst[r], src[r], sizeof(float) * 3)` of a matrix row. -/
def memcpyRow3 (dst src : Matrix4X4f) (r : Fin 4) : Matrix4X4f :=
  fun i j => if i = r ∧ j.val < 3 then src i j else dst i j

/-- Assignment to `pDbc->modelMatrix`. -/
def Manager.setModelMatrix (m : Manager) (pDbc : Nat) (trans : Matrix4X4f) : Manager :=
  { m with batchObjects :=
      Function.update m.batchObjects pDbc { m.batchObjects pDbc with modelMatrix := trans } }

/-- The body of the batch loop of `UpdateConstants`. -/
def UpdateConstants.batch (env : Env) (m : Manager) (pDbc : Nat) : Outcome Manager :=
  match (m.batchObjects pDbc).node with
  | none => .fault m
  | some node =>
    match node.rigidBody with
    | some rigidBody =>
      let simulated_result := env.GetRigidBodyTransform rigidBody
      let trans := env.BuildIdentityMatrix
      let trans := memcpyRow3 trans simulated_result 0
      let trans := memcpyRow3 trans simulated_result 1
      let trans := memcpyRow3 trans simulated_result 2
      let trans := memcpyRow3 trans simulated_result 3
      .done (m.setModelMatrix pDbc trans)
    | none => .done (m.setModelMatrix pDbc node.calculatedTransform)

/-- The batch loop of `UpdateConstants` over the current slot. -/
def UpdateConstants.batches (env : Env) (m : Manager) : Outcome Manager :=
  (m.m_Frames m.m_nFrameIndex).batchContexts.foldl
    (fun (o : Outcome Manager) pDbc => o.andThen (fun m => UpdateConstants.batch env m pDbc))
    (Outcome.done m)

/-- Assignment through the reference `m_Frames[m_nFrameIndex].frameContext`. -/
def Manager.setFrameContext (m : Manager) (c : DrawFrameContext) : Manager :=
  m.setFrame m.m_nFrameIndex { m.m_Frames m.m_nFrameIndex with frameContext := c }

/-- The first half of `CalculateCameraMatrix`: view matrix and camera position. -/
def CalculateCameraMatrix.view (env : Env) (scene : Scene) (m : Manager) : Manager :=
  let frameContext := (m.m_Frames m.m_nFrameIndex).frameContext
  match scene.GetFirstCameraNode with
  | some pCameraNode =>
    let transform := pCameraNode.calculatedTransform
    let frameContext := { frameContext with camPos := ![transform 3 0, transform 3 1, transform 3 2] }
    let transform := env.InverseMatrix4X4f transform
    m.setFrameContext { frameContext with viewMatrix := transform }
  | none =>
    let position : Vector3f := ![0, -5, 0]
    let lookAt : Vector3f := ![0, 0, 0]
    let up : Vector3f := ![0, 0, 1]
    m.setFrameContext { frameContext with viewMatrix := env.BuildViewRHMatrix position lookAt up }

/-- The last statement of `CalculateCameraMatrix`. -/
def CalculateCameraMatrix.projection (env : Env) (m : Manager)
    (fieldOfView nearClipDistance farClipDistance : Scalar) : Manager :=
  let screenAspect : Scalar := (env.screenWidth : Scalar) / (env.screenHeight : Scalar)
  m.setFrameContext
    { (m.m_Frames m.m_nFrameIndex).frameContext with
      projectionMatrix :=
        env.BuildPerspectiveFovRHMatrix fieldOfView screenAspect nearClipDistance farClipDistance }

/-- The function `GraphicsManager::CalculateCameraMatrix`. -/
def CalculateCameraMatrix (env : Env) (scene : Scene) (m : Manager) : Outcome Manager :=
  let m := CalculateCameraMatrix.view env scene m
  match scene.GetFirstCameraNode with
  | some pCameraNode =>
    match scene.GetCamera pCameraNode.sceneObjectRef with
    | none => .fault m
    | some pCamera =>
      if pCamera.perspective then
        .done (CalculateCameraMatrix.projection env m pCamera.fov
          pCamera.nearClipDistance pCamera.farClipDistance)
      else .fault m
  | none => .done (CalculateCameraMatrix.projection env m (env.PI / 3) 1 100)

/-- The copy `memcpy(params, &curve.u, sizeof(curve.u))` into a flat float array. -/
def memcpyParams (params : Nat → Scalar) (u : List Scalar) : Nat → Scalar :=
  fun k => u.getD k (params k)

/-- Assignment through the reference `light_info.lights[n]` of the current slot.
The index is not compared with the capacity of the array: for `n` at or above
it the assignment writes past the end of the array. -/
def Manager.setLight (m : Manager) (n : Nat) (light : Light) : Manager :=
  let frame := m.m_Frames m.m_nFrameIndex
  m.setFrame m.m_nFrameIndex
    { frame with lightInfo := { frame.lightInfo with lights := Function.update frame.lightInfo.lights n light } }

/-- The end of the loop body of `CalculateLights`: `light.lightVP = view * projection`
and `frameContext.numLights++`, the light being `lights[n]`. -/
def CalculateLights.finish (env : Env) (m : Manager) (n : Nat) (light : Light)
    (view projection : Matrix4X4f) : Manager :=
  let m := m.setLight n { light with lightVP := env.MatrixMultiply view projection }
  let frameContext := (m.m_Frames m.m_nFrameIndex).frameContext
  m.setFrameContext { frameContext with numLights := frameContext.numLights + 1 }

/-- The directional-light branch after the camera lookup.  The comparison is
with the float literal `0.2f`, whose value is 13421773 / 2^26. -/
def CalculateLights.infinity (env : Env) (m : Manager) (n : Nat) (light : Light)
    (nearClipDistance farClipDistance : Scalar) (target : Vector4f) : Manager :=
  let light := { light with
    lightPosition := fun k => target k - light.lightDirection k * farClipDistance }
  let position := light.lightPosition.xyz
  let lookAt := target.xyz
  let up : Vector3f :=
    if abs (light.lightDirection 0) ≤ 13421773 / 67108864 ∧
        abs (light.lightDirection 1) ≤ 13421773 / 67108864 then ![0.1, 0.1, 1]
    else ![0, 0, 1]
  let view := env.BuildViewRHMatrix position lookAt up
  let sm_half_dist : Scalar := min (farClipDistance * 0.25) 800
  let projection := env.BuildOrthographicMatrix (- sm_half_dist) sm_half_dist sm_half_dist
    (- sm_half_dist) nearClipDistance (farClipDistance + sm_half_dist)
  let light := { light with lightPosition := Function.update light.lightPosition 3 0 }
  CalculateLights.finish env m n light view projection

/-- The branch of the spot, area and omni lights.  The comparison is with the
float literal `0.1f`, whose value is 13421773 / 2^27. -/
def CalculateLights.local (env : Env) (m : Manager) (n : Nat) (light : Light)
    (type : SceneObjectLightType) : Manager :=
  let nearClipDistance : Scalar := 1
  let farClipDistance : Scalar := 100
  let position := light.lightPosition.xyz
  let tmp : Vector4f := fun k => light.lightPosition k + light.lightDirection k
  let lookAt := tmp.xyz
  let up : Vector3f :=
    if abs (light.lightDirection 0) ≤ 13421773 / 134217728 ∧
        abs (light.lightDirection 1) ≤ 13421773 / 134217728 then ![0, 0.707, 0.707]
    else ![0, 0, 1]
  let view := env.BuildViewRHMatrix position lookAt up
  match type with
  | .kSceneObjectTypeLightSpot angle_atten_curve =>
    let light := { light with
      lightType := .Spot
      lightAngleAttenCurveType := angle_atten_curve.type
      lightAngleAttenCurveParams := memcpyParams light.lightAngleAttenCurveParams angle_atten_curve.u }
    let fieldOfView := light.lightAngleAttenCurveParams 1 * 2
    let screenAspect : Scalar := 1
    CalculateLights.finish env m n light view
      (env.BuildPerspectiveFovRHMatrix fieldOfView screenAspect nearClipDistance farClipDistance)
  | .kSceneObjectTypeLightArea dimension =>
    let light := { light with lightType := .Area, lightSize := dimension }
    CalculateLights.finish env m n light view env.BuildIdentityMatrix
  | _ =>
    let light := { light with lightType := .Omni }
    let fieldOfView := env.PI / 2
    let screenAspect : Scalar := 1
    CalculateLights.finish env m n light view
      (env.BuildPerspectiveFovRHMatrix fieldOfView screenAspect nearClipDistance farClipDistance)

/-- The loop body of `CalculateLights` for one entry of `scene.LightNodes`.  When
the light object does not resolve the body is `assert(0)`: a fault, and with
`NDEBUG` nothing, so that the loop goes on to the next entry with the position
and direction written to `lights[numLights]` and the count as it was. -/
def CalculateLights.node (env : Env) (scene : Scene) (m : Manager)
    (entry : Option SceneLightNode) : Outcome Manager :=
  let n := (m.m_Frames m.m_nFrameIndex).frameContext.numLights
  let light := (m.m_Frames m.m_nFrameIndex).lightInfo.lights n
  match entry with
  | none => .done m
  | some pLightNode =>
    let trans := pLightNode.calculatedTransform
    let light := { light with
      lightPosition := env.Transform ![0, 0, 0, 1] trans
      lightDirection := env.Normalize (env.Transform ![0, 0, -1, 0] trans) }
    match scene.GetLight pLightNode.sceneObjectRef with
    | some pLight =>
      let light := { light with
        lightGuid := pLight.guid
        lightColor := pLight.color
        lightIntensity := pLight.intensity
        lightCastShadow := pLight.castShadow
        lightDistAttenCurveType := pLight.distanceAttenuation.type
        lightDistAttenCurveParams :=
          memcpyParams light.lightDistAttenCurveParams pLight.distanceAttenuation.u
        lightAngleAttenCurveType := .kNone }
      match pLight.type with
      | .kSceneObjectTypeLightInfi =>
        let light := { light with lightType := .Infinity }
        match scene.GetFirstCameraNode with
        | some pCameraNode =>
          match scene.GetCamera pCameraNode.sceneObjectRef with
          | none => .fault (m.setLight n light)
          | some pCamera =>
            let nearClipDistance := pCamera.nearClipDistance
            let farClipDistance := pCamera.farClipDistance
            let target : Vector4f := ![0, 0, - (0.75 * nearClipDistance + 0.25 * farClipDistance), 1]
            let target := env.Transform target pCameraNode.calculatedTransform
            .done (CalculateLights.infinity env m n light nearClipDistance farClipDistance target)
        | none => .done (CalculateLights.infinity env m n light 1 100 ![0, 0, 0, 1])
      | type => .done (CalculateLights.local env m n light type)
    | none => if env.NDEBUG then .done (m.setLight n light) else .fault (m.setLight n light)

/-- The function `GraphicsManager::CalculateLights`. -/
def CalculateLights (env : Env) (scene : Scene) (m : Manager) : Outcome Manager :=
  let frameContext := (m.m_Frames m.m_nFrameIndex).frameContext
  let m := m.setFrameContext { frameContext with numLights := 0 }
  scene.LightNodes.foldl
    (fun (o : Outcome Manager) LightNode => o.andThen (fun m => CalculateLights.node env scene m LightNode))
    (Outcome.done m)

/-! ## Runs: the state together with the calls made -/

/-- A call that `Tick` makes, directly or through `UpdateConstants` and `Draw`;
`modelMatrix` is one pass of the batch loop of `UpdateConstants`, `Draw` is
`pDrawPass->Draw(m_Frames[slot])` for the pass at position `pDrawPass` of
`m_DrawPasses`, and `setFrameIndex` is the assignment to `m_nFrameIndex` that
ends `Tick`. -/
inductive Call where
  | EndScene
  | BeginScene
  | NotifySceneIsRenderingQueued
  | modelMatrix (pDbc : Nat)
  | CalculateCameraMatrix
  | CalculateLights
  | SetPerFrameConstants
  | SetPerBatchConstants
  | SetLightInfo
  | BeginFrame
  | BeginPass
  | Draw (pDrawPass : Nat) (slot : Nat)
  | EndPass
  | EndFrame
  | Present
  | setFrameIndex (value : Nat)
  deriving DecidableEq, Repr

/-- A run of the manager: the outcome reached and the calls made to reach it,
in the order in which they were made. -/
structure Run where
  outcome : Outcome Manager
  calls : List Call

/-- The run that has made no call. -/
def Run.start (m : Manager) : Run := { outcome := .done m, calls := [] }

/-- The run of one call `c` with outcome `o`. -/
def Run.step (c : Call) (o : Outcome Manager) : Run := { outcome := o, calls := [c] }

/-- Sequencing of runs: the statements `f` follow only when the run has not
stopped at a fault; their calls come after those made so far. -/
def Run.andThen (r : Run) (f : Manager → Run) : Run :=
  match r.outcome with
  | .done m => { outcome := (f m).outcome, calls := r.calls ++ (f m).calls }
  | .fault _ => r

/-- The run continued by the call `c`, whose effect on the state is `f`. -/
def Run.call (r : Run) (c : Call) (f : Manager → Outcome Manager) : Run :=
  r.andThen (fun m => Run.step c (f m))

/-- The function `GraphicsManager::UpdateConstants` as a run: the batch loop
over the current slot, then the five calls. -/
def UpdateConstants.run (env : Env) (scene : Scene) (m : Manager) : Run :=
  let r := (m.m_Frames m.m_nFrameIndex).batchContexts.foldl
    (fun (r : Run) pDbc => r.call (.modelMatrix pDbc) (fun m => UpdateConstants.batch env m pDbc))
    (Run.start m)
  let r := r.call .CalculateCameraMatrix (CalculateCameraMatrix env scene)
  let r := r.call .CalculateLights (CalculateLights env scene)
  let r := r.call .SetPerFrameConstants (fun m => .done (SetPerFrameConstants m))
  let r := r.call .SetPerBatchConstants (fun m => .done (SetPerBatchConstants m))
  r.call .SetLightInfo (fun m => .done (SetLightInfo m))

/-- The function `GraphicsManager::UpdateConstants`. -/
def UpdateConstants (env : Env) (scene : Scene) (m : Manager) : Outcome Manager :=
  (UpdateConstants.run env scene m).outcome

/-! ## The frame loop -/

/-- Modelled from the spec: the call `pDrawPass->Draw(frame)` of a draw pass,
whose class is not among the source files.  By the spec a pass is granted
access to exactly one slot, the current one, whose batch list is shared
read-only across the passes, and it issues backend calls; so the frame index,
the other slots, the batch list of the current slot and the batch objects are
kept as they were. -/
def runDrawPass (m : Manager) (Draw : Manager → Manager) : Manager :=
  let after := Draw m
  { after with
    m_nFrameIndex := m.m_nFrameIndex
    m_Frames := fun j =>
      if j = m.m_nFrameIndex then
        { after.m_Frames j with batchContexts := (m.m_Frames j).batchContexts }
      else m.m_Frames j
    batchObjects := m.batchObjects
    batchObjectCount := m.batchObjectCount }

/-- The function `GraphicsManager::Draw` as a run.  The reference
`frame = m_Frames[m_nFrameIndex]` is taken once, before the loop over
`m_DrawPasses`; each pass is bracketed by `BeginPass` and `EndPass`, which
touch no member. -/
def Draw.run (env : Env) (m : Manager) : Run :=
  let frame := m.m_nFrameIndex
  env.drawPasses.enum.foldl
    (fun (r : Run) pDrawPass =>
      ((r.call .BeginPass (fun m => .done m)).call (.Draw pDrawPass.1 frame)
        (fun m => .done (runDrawPass m pDrawPass.2))).call .EndPass (fun m => .done m))
    (Run.start m)

/-- The function `GraphicsManager::Draw`. -/
def Draw (env : Env) (m : Manager) : Manager := (Draw.run env m).outcome.state

/-- The function `GraphicsManager::Tick` as a run.  `IsSceneChanged` and
`scene` are what the scene manager answers during this tick.  `BeginFrame`,
`EndFrame`, `Present` and the pass hooks generate and release no object and
touch no member, and the acknowledgement goes to the scene manager. -/
def Tick.run (env : Env) (IsSceneChanged : Bool) (scene : Scene) (m : Manager) : Run :=
  let r : Run :=
    if IsSceneChanged then
      (((Run.start m).call .EndScene (fun m => .done (EndScene env m))).call .BeginScene
        (BeginScene env scene)).call .NotifySceneIsRenderingQueued (fun m => .done m)
    else Run.start m
  let r := r.andThen (UpdateConstants.run env scene)
  let r := r.call .BeginFrame (fun m => .done m)
  let r := r.andThen (Draw.run env)
  let r := r.call .EndFrame (fun m => .done m)
  let r := r.call .Present (fun m => .done m)
  r.andThen (fun m =>
    let value := (m.m_nFrameIndex + 1) % env.kMaxInFlightFrameCount
    Run.step (.setFrameIndex value) (.done { m with m_nFrameIndex := value }))

/-- The function `GraphicsManager::Tick`. -/
def Tick (env : Env) (IsSceneChanged : Bool) (scene : Scene) (m : Manager) : Outcome Manager :=
  (Tick.run env IsSceneChanged scene m).outcome

/-- Consecutive calls of `Tick`, one per entry of `ticks`. -/
def runTicks (env : Env) (ticks : List (Bool × Scene)) (m : Manager) : Outcome Manager :=
  ticks.foldl (fun (o : Outcome Manager) t => o.andThen (Tick env t.1 t.2)) (Outcome.done m)

/-- The function `OpenGLGraphicsManagerCommonBase::ClearDebugBuffers`. -/
def ClearDebugBuffers (m : Manager) : Manager :=
  let m := m.m_DebugDrawBatchContext.foldl (fun acc vao => acc.glDeleteVertexArrays vao) m
  let m := { m with m_DebugDrawBatchContext := [] }
  let m := m.m_DebugBuffers.foldl (fun acc buf => acc.glDeleteBuffers buf) m
  { m with m_DebugBuffers := [] }

/-- The function `GraphicsManager::Finalize`. -/
def Finalize (env : Env) (m : Manager) : Manager :=
  let m := if env.DEBUG then ClearDebugBuffers m else m
  EndScene env m


/-! ## Reference states and closed forms -/

/-- Modelled from the spec: the state of a manager that was constructed and
initialised and has allocated nothing.  The member initialisers are in the
class declarations, which are not among the source files; the spec has all
slots allocated at initialisation with their batch lists empty until a scene is
loaded, and no object held (every handle `0`). -/
def Manager.fresh : Manager :=
  let dbc : OpenGLDrawBatchContext :=
    { batchIndex := 0, node := none, modelMatrix := fun _ _ => 0,
      material := { diffuseMap := 0, normalMap := 0, metallicMap := 0, roughnessMap := 0,
                    aoMap := 0, heightMap := 0 },
      vao := 0, mode := .GL_TRIANGLES, type := .GL_UNSIGNED_BYTE, count := 0 }
  let light : Light :=
    { lightIntensity := 0, lightType := .Omni, lightCastShadow := false,
      lightAngleAttenCurveType := .kNone, lightDistAttenCurveType := .kNone,
      lightSize := fun _ => 0, lightGuid := 0, lightPosition := fun _ => 0,
      lightColor := fun _ => 0, lightDirection := fun _ => 0,
      lightDistAttenCurveParams := fun _ => 0, lightAngleAttenCurveParams := fun _ => 0,
      lightVP := fun _ _ => 0 }
  let frame : Frame :=
    { frameContext :=
        { camPos := fun _ => 0, viewMatrix := fun _ _ => 0, projectionMatrix := fun _ _ => 0,
          numLights := 0, shadowMap := 0, globalShadowMap := 0, cubeShadowMap := 0, skybox := 0,
          terrainHeightMap := 0 },
      lightInfo := { lights := fun _ => light },
      batchContexts := [] }
  { m_nFrameIndex := 0, m_Frames := fun _ => frame, batchObjects := fun _ => dbc,
    batchObjectCount := 0, m_Buffers := [], m_Textures := [],
    m_uboDrawFrameConstant := fun _ => 0, m_uboLightInfo := fun _ => 0,
    m_uboDrawBatchConstant := fun _ => 0, m_uboShadowMatricesConstant := fun _ => 0,
    m_uboDebugConstant := fun _ => 0, m_TerrainDrawBatchContext := dbc,
    m_SkyBoxDrawBatchContext := dbc, m_DebugDrawBatchContext := [], m_DebugBuffers := [],
    gl := { buffersIssued := 0, vertexArraysIssued := 0, texturesIssued := 0, calls := [] } }

/-- A manager holds nothing that `EndScene` releases. -/
def NothingAllocated (env : Env) (m : Manager) : Prop :=
  (∀ i, i < env.kMaxInFlightFrameCount →
    (m.m_Frames i).batchContexts = [] ∧ m.m_uboDrawFrameConstant i = 0 ∧
    m.m_uboDrawBatchConstant i = 0 ∧ m.m_uboShadowMatricesConstant i = 0 ∧
    m.m_uboDebugConstant i = 0) ∧
  m.m_TerrainDrawBatchContext.vao = 0 ∧ m.m_SkyBoxDrawBatchContext.vao = 0 ∧
  m.m_Buffers = [] ∧ m.m_Textures = []

/-- Appending driver calls to the record, all members unchanged. -/
def Manager.logCalls (m : Manager) (cs : List GLCall) : Manager :=
  { m with gl := { m.gl with calls := m.gl.calls ++ cs } }

/-- The manager with the batch lists of the slots below `k` emptied. -/
def clearSlots (k : Nat) (m : Manager) : Manager :=
  { m with m_Frames := fun i =>
      if i < k then { m.m_Frames i with batchContexts := [] } else m.m_Frames i }

/-- The delete call for a handle field, made when the field is not `0`. -/
def deleteIfSet (call : Nat → GLCall) (name : Nat) : List GLCall :=
  if name ≠ 0 then [call name] else []

/-- The driver calls of the slot loop of `EndScene` for slot `i`. -/
def EndScene.slotCalls (m : Manager) (i : Nat) : List GLCall :=
  (m.m_Frames i).batchContexts.map (fun dbc => GLCall.glDeleteVertexArrays (m.batchObjects dbc).vao) ++
  deleteIfSet .glDeleteBuffers (m.m_uboDrawFrameConstant i) ++
  deleteIfSet .glDeleteBuffers (m.m_uboDrawBatchConstant i) ++
  deleteIfSet .glDeleteBuffers (m.m_uboShadowMatricesConstant i) ++
  deleteIfSet .glDeleteBuffers (m.m_uboDebugConstant i)

/-- The driver calls of one `EndScene`, in call order. -/
def EndScene.calls (env : Env) (m : Manager) : List GLCall :=
  (List.range env.kMaxInFlightFrameCount).flatMap (EndScene.slotCalls m) ++
  deleteIfSet .glDeleteVertexArrays m.m_TerrainDrawBatchContext.vao ++
  deleteIfSet .glDeleteVertexArrays m.m_SkyBoxDrawBatchContext.vao ++
  m.m_Buffers.map GLCall.glDeleteBuffers ++
  m.m_Textures.map (fun it => GLCall.glDeleteTextures it.2)

/-- The members after `EndScene`: batch lists of the slots, buffer list and
texture map emptied, everything else as before. -/
def tornDown (env : Env) (m : Manager) : Manager :=
  { clearSlots env.kMaxInFlightFrameCount m with m_Buffers := [], m_Textures := [] }

/-- The batch indices carried by slot `i`, in list order. -/
def Manager.batchIndices (m : Manager) (i : Nat) : List Nat :=
  (m.m_Frames i).batchContexts.map (fun dbc => (m.batchObjects dbc).batchIndex)

/-- The identity matrix. -/
def identityMatrix : Matrix4X4f := fun r c => if r = c then 1 else 0

/-- The environment of the viewer application (`ViewerConfig.cpp`: a 960 by 540
screen), built with neither `DEBUG` nor `NDEBUG` defined (no debug drawing,
`assert` active), two slots in flight, no pass registered.  The geometry
helpers are stand-ins that serve to evaluate the code on examples: row-vector
times matrix, the matrix product, the identity for `Normalize` and
`InverseMatrix4X4f`, and constant matrices for the builders. -/
def Env.viewer : Env :=
  { kMaxInFlightFrameCount := 2, DEBUG := false, NDEBUG := false, screenWidth := 960,
    screenHeight := 540,
    PI := 355 / 113, BuildIdentityMatrix := identityMatrix,
    BuildViewRHMatrix := fun _ _ _ => identityMatrix,
    BuildPerspectiveFovRHMatrix := fun _ _ _ _ => identityMatrix,
    BuildOrthographicMatrix := fun _ _ _ _ _ _ => identityMatrix,
    InverseMatrix4X4f := fun t => t,
    Transform := fun v t => fun j => v 0 * t 0 j + v 1 * t 1 j + v 2 * t 2 j + v 3 * t 3 j,
    Normalize := fun v => v,
    MatrixMultiply := fun a b => fun i j => a i 0 * b 0 j + a i 1 * b 1 j + a i 2 * b 2 j + a i 3 * b 3 j,
    GetRigidBodyTransform := fun _ => identityMatrix,
    newDrawBatchContext := Manager.fresh.m_SkyBoxDrawBatchContext,
    initPasses := [], drawPasses := [] }

/-- A scene with terrain and sky box and nothing else. -/
def Scene.empty : Scene :=
  { GeometryNodes := [], LightNodes := [], CameraNodes := [], Geometries := [], Lights := [],
    Cameras := [], Materials := [], SkyBox := true, Terrain := true }

/-- The model matrix that `UpdateConstants` computes for a batch of the given
node: the blend of the simulation result, or the scene-graph transform. -/
def UpdateConstants.blend (env : Env) (node : SceneGeometryNode) : Matrix4X4f :=
  match node.rigidBody with
  | some rigidBody =>
    memcpyRow3 (memcpyRow3 (memcpyRow3 (memcpyRow3 env.BuildIdentityMatrix
      (env.GetRigidBodyTransform rigidBody) 0) (env.GetRigidBodyTransform rigidBody) 1)
      (env.GetRigidBodyTransform rigidBody) 2) (env.GetRigidBodyTransform rigidBody) 3
  | none => node.calculatedTransform

/-- A perspective camera object with the default parameters. -/
def SceneObjectCamera.sample : SceneObjectCamera :=
  { perspective := true, fov := 1, nearClipDistance := 1, farClipDistance := 100 }

/-- A translation matrix (row-vector convention: the translation is row 3). -/
def translationMatrix (x y z : Scalar) : Matrix4X4f :=
  ![![1, 0, 0, 0], ![0, 1, 0, 0], ![0, 0, 1, 0], ![x, y, z, 1]]

/-- A scene with one perspective camera placed at (1, 2, 3). -/
def Scene.withCamera : Scene :=
  { Scene.empty with
    CameraNodes := [{ calculatedTransform := translationMatrix 1 2 3, sceneObjectRef := "camera" }]
    Cameras := [("camera", SceneObjectCamera.sample)] }

/-- Two managers with the same frame index, the same batch objects and the
same batch lists in every slot. -/
def SameBatches (a b : Manager) : Prop :=
  a.m_nFrameIndex = b.m_nFrameIndex ∧ a.batchObjects = b.batchObjects ∧
  a.batchObjectCount = b.batchObjectCount ∧
  ∀ i, (a.m_Frames i).batchContexts = (b.m_Frames i).batchContexts

/-- A visible geometry node "box" with rigid body 7, scene-graph transform a
translation by (4, 5, 6). -/
def SceneGeometryNode.box : SceneGeometryNode :=
  { visible := true, sceneObjectRef := "box", materialRef := fun _ => "default",
    rigidBody := some 7, calculatedTransform := translationMatrix 4 5 6 }

/-- A scene with the node "box": one mesh of one vertex property and one
16-bit index group of a triangle list. -/
def Scene.oneBox : Scene :=
  { Scene.empty with
    GeometryNodes := [some SceneGeometryNode.box]
    Geometries := [("box",
      { mesh := some { vertexProperties := [.kVertexDataTypeFloat3],
                       primitiveType := .kPrimitiveTypeTriList,
                       indexArrays := [{ indexType := .kIndexDataTypeInt16, indexCount := 36,
                                         materialIndex := 0 }] } })] }

/-- The viewer after loading the scene with the node "box". -/
def Manager.oneBox : Manager := (BeginScene Env.viewer Scene.oneBox Manager.fresh).state

/-- Every pointer in the batch lists of the slots is an allocated object that
points to its node. -/
def BatchesWF (N : Nat) (m : Manager) : Prop :=
  ∀ i, i < N → ∀ p ∈ (m.m_Frames i).batchContexts,
    p < m.batchObjectCount ∧ ((m.batchObjects p).node).isSome = true

/-- The manager with pointer `p` appended to the batch lists of the slots below `k`. -/
def appendSlots (k : Nat) (p : Nat) (m : Manager) : Manager :=
  { m with m_Frames := fun i =>
      if i < k then { m.m_Frames i with batchContexts := (m.m_Frames i).batchContexts ++ [p] }
      else m.m_Frames i }

/-- The number of batches that the index groups of a mesh yield: the groups
whose index type has 8, 16 or 32 bits. -/
def indexGroupBatches (indexArrays : List SceneObjectIndexArray) : Nat :=
  (indexArrays.filter (fun index_array => (glIndexType index_array.indexType).isSome)).length

/-- The number of batches that one entry of `scene.GeometryNodes` yields;
`none` when the loop body stops at `assert(pGeometry)`. -/
def nodeBatches (scene : Scene) (entry : Option SceneGeometryNode) : Option Nat :=
  match entry with
  | none => some 0
  | some pGeometryNode =>
    if pGeometryNode.visible then
      match scene.GetGeometry pGeometryNode.sceneObjectRef with
      | none => none
      | some pGeometry =>
        match pGeometry.mesh with
        | none => some 0
        | some pMesh =>
          match glMode pMesh.primitiveType with
          | none => some 0
          | some _ => some (indexGroupBatches pMesh.indexArrays)
    else some 0

/-- The number of batches built from a list of node entries, and whether the
node loop reaches the end of the list. -/
def sceneBatches (scene : Scene) : List (Option SceneGeometryNode) → Nat × Bool
  | [] => (0, true)
  | entry :: rest =>
    match nodeBatches scene entry with
    | none => (0, false)
    | some k => (k + (sceneBatches scene rest).1, (sceneBatches scene rest).2)

/-- Manager `m'` is `m` with `k` batches of indices `b`, `b + 1`, ... added to
each of the `N` slots. -/
def Built (N : Nat) (m m' : Manager) (b k : Nat) : Prop :=
  m'.m_nFrameIndex = m.m_nFrameIndex ∧ BatchesWF N m' ∧
  ∀ i, i < N → m'.batchIndices i = m.batchIndices i ++ List.range' b k

/-- The outcome of the stated kind. -/
def Outcome.ofFlag {α : Type} (finished : Bool) (a : α) (m : Manager) : Outcome α :=
  if finished then .done a else .fault m

/-- Whether `BeginScene` returns on the scene: the node loop reaches its end,
and the terrain and the sky box exist. -/
def sceneBuilds (scene : Scene) : Bool :=
  (sceneBatches scene scene.GeometryNodes).2 && scene.Terrain && scene.SkyBox

/-- The active light count of the current slot. -/
def Manager.numLights (m : Manager) : Nat := (m.m_Frames m.m_nFrameIndex).frameContext.numLights

/-- Entry `j` of the `lights` array of the current slot. -/
def Manager.lights (m : Manager) (j : Nat) : Light := (m.m_Frames m.m_nFrameIndex).lightInfo.lights j

/-- Whether `CalculateCameraMatrix` returns on the scene: there is no camera
node, or the camera object of the first one resolves to a perspective camera. -/
def cameraOk (scene : Scene) : Bool :=
  match scene.GetFirstCameraNode with
  | none => true
  | some pCameraNode =>
    match scene.GetCamera pCameraNode.sceneObjectRef with
    | some pCamera => pCamera.perspective
    | none => false

/-- Whether the loop body of `CalculateLights` returns on the entry: the node
has expired, or its light object resolves and, for a directional light in a
scene with a camera node, the camera object resolves. -/
def lightNodeOk (scene : Scene) (entry : Option SceneLightNode) : Bool :=
  match entry with
  | none => true
  | some pLightNode =>
    match scene.GetLight pLightNode.sceneObjectRef with
    | none => false
    | some pLight =>
      match pLight.type with
      | .kSceneObjectTypeLightInfi =>
        match scene.GetFirstCameraNode with
        | none => true
        | some pCameraNode => (scene.GetCamera pCameraNode.sceneObjectRef).isSome
      | _ => true

/-- Whether one `Tick` returns, given what the scene manager answers. -/
def TickOk (t : Bool × Scene) : Bool :=
  (!t.1 || sceneBuilds t.2) && cameraOk t.2 && t.2.LightNodes.all (lightNodeOk t.2)

/-- An omni light object of guid 42. -/
def SceneObjectLight.lamp : SceneObjectLight :=
  { guid := 42, color := ![1, 1, 1, 1], intensity := 1, castShadow := true,
    distanceAttenuation := { type := .kNone, u := [] }, type := .kSceneObjectTypeLightOmni }

/-- A scene with `count` live light nodes, each referring to the light "lamp". -/
def Scene.manyLights (count : Nat) : Scene :=
  { Scene.empty with
    LightNodes := List.replicate count (some { calculatedTransform := identityMatrix,
                                               sceneObjectRef := "lamp" })
    Lights := [("lamp", SceneObjectLight.lamp)] }

/-- A scene with the node "box" whose mesh has one vertex property and one
index group of an index type that OpenGL does not support. -/
def Scene.unsupportedIndex : Scene :=
  { Scene.empty with
    GeometryNodes := [some SceneGeometryNode.box]
    Geometries := [("box",
      { mesh := some { vertexProperties := [.kVertexDataTypeFloat3],
                       primitiveType := .kPrimitiveTypeTriList,
                       indexArrays := [{ indexType := .kIndexDataTypeOther 64, indexCount := 36,
                                         materialIndex := 0 }] } })] }

/-- The viewer after two ticks, the first of which sees the scene change to
`Scene.unsupportedIndex`: both slots have been used once and the frame index
is 0 again. -/
def Manager.afterTwoTicks : Manager :=
  (runTicks Env.viewer [(true, Scene.unsupportedIndex), (false, Scene.unsupportedIndex)]
    Manager.fresh).state

/-- The viewer after two ticks and `EndScene`. -/
def Manager.afterTeardown : Manager := EndScene Env.viewer Manager.afterTwoTicks

/-! ## Camera and light parameters: closed forms and examples -/

/-- The camera position stored in the current slot. -/
def Manager.camPos (m : Manager) : Vector3f := (m.m_Frames m.m_nFrameIndex).frameContext.camPos

/-- The projection matrix stored in the current slot. -/
def Manager.projectionMatrix (m : Manager) : Matrix4X4f :=
  (m.m_Frames m.m_nFrameIndex).frameContext.projectionMatrix

/-- The up vector chosen in the directional-light branch of `CalculateLights`,
from the first two components of the light direction; written over any
ordered field.  The threshold is the value of the float literal `0.2f`,
13421773 / 2^26, so that the branch taken is that of the code on every float. -/
def CalculateLights.infinityUp {K : Type} [LinearOrderedField K] (dx dy : K) : Fin 3 → K :=
  if abs dx ≤ 13421773 / 67108864 ∧ abs dy ≤ 13421773 / 67108864 then ![0.1, 0.1, 1]
  else ![0, 0, 1]

/-- The up vector chosen in the branch of the spot, area and omni lights.  The
threshold is the value of the float literal `0.1f`, 13421773 / 2^27. -/
def CalculateLights.localUp {K : Type} [LinearOrderedField K] (dx dy : K) : Fin 3 → K :=
  if abs dx ≤ 13421773 / 134217728 ∧ abs dy ≤ 13421773 / 134217728 then ![0, 0.707, 0.707]
  else ![0, 0, 1]

/-- The local `sm_half_dist` of the directional-light branch. -/
def sm_half_dist (farClipDistance : Scalar) : Scalar := min (farClipDistance * 0.25) 800

/-- The value `target - light.lightDirection * farClipDistance`. -/
def CalculateLights.infinityPosition (target direction : Vector4f) (farClipDistance : Scalar) :
    Vector4f :=
  fun k => target k - direction k * farClipDistance

/-- Modelled from the spec: the cross product, whose vanishing is the
degeneracy of the look-at construction (the construction itself is in
`geommath`, which is not among the source files). -/
def cross {K : Type} [Ring K] (a b : Fin 3 → K) : Fin 3 → K :=
  ![a 1 * b 2 - a 2 * b 1, a 2 * b 0 - a 0 * b 2, a 0 * b 1 - a 1 * b 0]

/-- The light `lights[numLights]` after the first writes of the loop body of
`CalculateLights`: world position and normalized world direction. -/
def CalculateLights.placed (env : Env) (m : Manager) (pLightNode : SceneLightNode) : Light :=
  { m.lights m.numLights with
    lightPosition := env.Transform ![0, 0, 0, 1] pLightNode.calculatedTransform
    lightDirection := env.Normalize (env.Transform ![0, 0, -1, 0] pLightNode.calculatedTransform) }

/-- The light after the members common to all types are copied from the light
object. -/
def CalculateLights.copied (env : Env) (m : Manager) (pLightNode : SceneLightNode)
    (pLight : SceneObjectLight) : Light :=
  { CalculateLights.placed env m pLightNode with
    lightGuid := pLight.guid
    lightColor := pLight.color
    lightIntensity := pLight.intensity
    lightCastShadow := pLight.castShadow
    lightDistAttenCurveType := pLight.distanceAttenuation.type
    lightDistAttenCurveParams :=
      memcpyParams (m.lights m.numLights).lightDistAttenCurveParams pLight.distanceAttenuation.u
    lightAngleAttenCurveType := .kNone }

/-- The clip distances and the target that the directional branch of
`CalculateLights` works with on the scene: those of the camera when there is a
camera node (`none` when its camera object does not resolve, where the branch
stops), and 1, 100 and the origin when there is no camera node. -/
def CalculateLights.cameraTarget (env : Env) (scene : Scene) : Option (Scalar × Scalar × Vector4f) :=
  match scene.GetFirstCameraNode with
  | some pCameraNode =>
    match scene.GetCamera pCameraNode.sceneObjectRef with
    | none => none
    | some pCamera =>
      some (pCamera.nearClipDistance, pCamera.farClipDistance,
        env.Transform
          ![0, 0, - (0.75 * pCamera.nearClipDistance + 0.25 * pCamera.farClipDistance), 1]
          pCameraNode.calculatedTransform)
  | none => some (1, 100, ![0, 0, 0, 1])

/-- The viewer environment with projection builders that record their
arguments: the perspective builder puts (fov, aspect, near, far) in row 0 of an
identity matrix, the orthographic builder puts (left, right, top, bottom) in
row 0 and (near, far) in row 1, and the product keeps its second factor, so that
`lightVP` shows what the code passed to the projection builder. -/
def Env.probe : Env :=
  { Env.viewer with
    BuildPerspectiveFovRHMatrix := fun fov aspect near far =>
      ![![fov, aspect, near, far], ![0, 1, 0, 0], ![0, 0, 1, 0], ![0, 0, 0, 1]]
    BuildOrthographicMatrix := fun left right top bottom near far =>
      ![![left, right, top, bottom], ![near, far, 0, 0], ![0, 0, 1, 0], ![0, 0, 0, 1]]
    MatrixMultiply := fun _ projection => projection }

/-- The viewer environment built with `NDEBUG` defined: `assert` expands to
nothing. -/
def Env.release : Env := { Env.viewer with NDEBUG := true }

/-- A spot light object whose angle-attenuation parameters are 30 and 45. -/
def SceneObjectLight.spot : SceneObjectLight :=
  { guid := 7, color := ![1, 1, 1, 1], intensity := 1, castShadow := true,
    distanceAttenuation := { type := .kNone, u := [] },
    type := .kSceneObjectTypeLightSpot { type := .kOther 1, u := [30, 45] } }

/-- A scene with a perspective camera of clip distances 2 and 500 and one
spot light. -/
def Scene.spotWithCamera : Scene :=
  { Scene.empty with
    CameraNodes := [{ calculatedTransform := identityMatrix, sceneObjectRef := "camera" }]
    Cameras := [("camera", { perspective := true, fov := 1, nearClipDistance := 2,
                             farClipDistance := 500 })]
    LightNodes := [some { calculatedTransform := identityMatrix, sceneObjectRef := "spot" }]
    Lights := [("spot", SceneObjectLight.spot)] }

/-- A directional light object. -/
def SceneObjectLight.sun : SceneObjectLight :=
  { guid := 9, color := ![1, 1, 1, 1], intensity := 1, castShadow := true,
    distanceAttenuation := { type := .kNone, u := [] }, type := .kSceneObjectTypeLightInfi }

/-- A scene with a perspective camera of clip distances 2 and 500, placed at
(1, 2, 3), and one directional light. -/
def Scene.sunWithCamera : Scene :=
  { Scene.empty with
    CameraNodes := [{ calculatedTransform := translationMatrix 1 2 3, sceneObjectRef := "camera" }]
    Cameras := [("camera", { perspective := true, fov := 1, nearClipDistance := 2,
                             farClipDistance := 500 })]
    LightNodes := [some { calculatedTransform := identityMatrix, sceneObjectRef := "sun" }]
    Lights := [("sun", SceneObjectLight.sun)] }

/-! ## The shadow pass -/

/-- The uniform block `ShadowMapConstants`; `shadowMatrices` has six entries. -/
structure ShadowMapConstants where
  shadowMatrices : Nat → Matrix4X4f
  lightPos : Vector4f
  shadowmap_layer_index : Scalar
  far_plane : Scalar

/-- The static table `direction` of `BeginShadowMap`. -/
def BeginShadowMap.direction : Fin 6 → Vector3f :=
  ![![1, 0, 0], ![-1, 0, 0], ![0, 1, 0], ![0, -1, 0], ![0, 0, 1], ![0, 0, -1]]

/-- The static table `up` of `BeginShadowMap`. -/
def BeginShadowMap.up : Fin 6 → Vector3f :=
  ![![0, -1, 0], ![0, -1, 0], ![0, 0, 1], ![0, 0, -1], ![0, -1, 0], ![0, -1, 0]]

/-- The body of the loop over the six cube faces. -/
def BeginShadowMap.face (env : Env) (pos : Vector3f) (projection : Matrix4X4f)
    (constants : ShadowMapConstants) (i : Fin 6) : ShadowMapConstants :=
  let constants := { constants with
    shadowMatrices := Function.update constants.shadowMatrices i.val
      (env.BuildViewRHMatrix pos (fun k => pos k + BeginShadowMap.direction i k) (BeginShadowMap.up i)) }
  { constants with
    shadowMatrices := Function.update constants.shadowMatrices i.val
      (env.MatrixMultiply (constants.shadowMatrices i.val) projection) }

/-- The local `constants` that `BeginShadowMap` uploads; the argument
`constants` is the uninitialised local. -/
def BeginShadowMap.constants (env : Env) (light : Light) (width height : Nat) (layer_index : Int)
    (constants : ShadowMapConstants) : ShadowMapConstants :=
  let nearClipDistance : Scalar := 0.1
  let farClipDistance : Scalar := 10
  let constants :=
    if light.lightType = .Omni then
      let fieldOfView := env.PI / 2
      let screenAspect : Scalar := (width : Scalar) / (height : Scalar)
      let projection :=
        env.BuildPerspectiveFovRHMatrix fieldOfView screenAspect nearClipDistance farClipDistance
      let pos : Vector3f := ![light.lightPosition 0, light.lightPosition 1, light.lightPosition 2]
      let constants := (List.finRange 6).foldl (BeginShadowMap.face env pos projection) constants
      { constants with lightPos := light.lightPosition }
    else
      { constants with shadowMatrices := Function.update constants.shadowMatrices 0 light.lightVP }
  { constants with shadowmap_layer_index := (layer_index : Scalar), far_plane := farClipDistance }

/-- The effect of `BeginShadowMap` on the manager: the buffer of the slot is
generated on first use.  The framebuffer object it generates is released by
`EndShadowMap` and is not among the names the driver record tracks. -/
def BeginShadowMap (m : Manager) : Manager :=
  if m.m_uboShadowMatricesConstant m.m_nFrameIndex = 0 then
    let (name, m) := m.glGenBuffers
    { m with
      m_uboShadowMatricesConstant := Function.update m.m_uboShadowMatricesConstant m.m_nFrameIndex name }
  else m

/-- An omni light placed at (1, 2, 3). -/
def Light.bulb : Light :=
  { Manager.fresh.lights 0 with lightType := .Omni, lightPosition := ![1, 2, 3, 1] }

/-- A constants block with every member zero. -/
def ShadowMapConstants.blank : ShadowMapConstants :=
  { shadowMatrices := fun _ _ _ => 0, lightPos := fun _ => 0, shadowmap_layer_index := 0,
    far_plane := 0 }

/-! ## Batch indices over the life of the manager -/

/-- The byte ranges (offset, length) that the copy loop of
`SetPerBatchConstants` writes into `pBuff`, `kSizePerBatchConstantBuffer` being
the size of one entry. -/
def SetPerBatchConstants.writes (kSizePerBatchConstantBuffer : Nat) (m : Manager) : List (Nat × Nat) :=
  (m.m_Frames m.m_nFrameIndex).batchContexts.map
    (fun pBatch => ((m.batchObjects pBatch).batchIndex * kSizePerBatchConstantBuffer,
      kSizePerBatchConstantBuffer))

/-- The size of `pBuff` in `SetPerBatchConstants`. -/
def SetPerBatchConstants.bufferSize (kSizePerBatchConstantBuffer : Nat) (m : Manager) : Nat :=
  kSizePerBatchConstantBuffer * (m.m_Frames m.m_nFrameIndex).batchContexts.length

/-- The function `GraphicsManager::Initialize` on a constructed manager, whose
`m_Frames` is empty: `resize` creates the slots, each with an empty batch list;
the other data of a new slot is what the constructor of `Frame` gives, here
what the argument holds.  The passes it registers are in `Env`. -/
def Initialize (env : Env) (m : Manager) : Manager := clearSlots env.kMaxInFlightFrameCount m

/-- The states reachable through `Initialize`, `Tick` and `Finalize`; the frame
index of the constructed manager is a slot.  A tick that stops at a fault
leaves the state it reached. -/
inductive Reachable (env : Env) : Manager → Prop where
  | start (m : Manager) (h : m.m_nFrameIndex < env.kMaxInFlightFrameCount) :
      Reachable env (Initialize env m)
  | tick (m : Manager) (IsSceneChanged : Bool) (scene : Scene) (h : Reachable env m) :
      Reachable env (Tick env IsSceneChanged scene m).state
  | finalize (m : Manager) (h : Reachable env m) : Reachable env (Finalize env m)

/-! ## Scenes with unresolvable references -/

/-- A scene whose camera node refers to a camera object that is not a
perspective camera. -/
def Scene.orthoCamera : Scene :=
  { Scene.empty with
    CameraNodes := [{ calculatedTransform := translationMatrix 1 2 3, sceneObjectRef := "camera" }]
    Cameras := [("camera", { perspective := false, fov := 1, nearClipDistance := 1,
                             farClipDistance := 100 })] }

/-- A scene with a directional light that resolves, and a camera node whose
camera object the scene does not have. -/
def Scene.sunDanglingCamera : Scene :=
  { Scene.empty with
    CameraNodes := [{ calculatedTransform := identityMatrix, sceneObjectRef := "camera" }]
    LightNodes := [some { calculatedTransform := identityMatrix, sceneObjectRef := "sun" }]
    Lights := [("sun", SceneObjectLight.sun)] }

/-- A scene with a live light node whose light object the scene does not have. -/
def Scene.danglingLight : Scene :=
  { Scene.empty with
    LightNodes := [some { calculatedTransform := identityMatrix, sceneObjectRef := "lamp" }] }

/-- A scene whose one light node has expired. -/
def Scene.expiredLight : Scene :=
  { Scene.empty with LightNodes := [none], Lights := [("lamp", SceneObjectLight.lamp)] }

/-! ## Debug drawing -/

/-- The function `GraphicsManager::DrawEdgeList`: the value is the local
`point_list` with which it calls `DrawLine`.  An edge is a pair of point
pointers. -/
def DrawEdgeList {PointPtr : Type} (edges : List (PointPtr × PointPtr)) : List PointPtr :=
  edges.foldl (fun point_list edge => point_list ++ [edge.1, edge.2]) []

/-- The eight point objects of `DrawBox` after the assignments, by their index
in the local array `points`. -/
def DrawBox.points (bbMin bbMax : Vector3f) : Fin 8 → Vector3f :=
  let points : Fin 8 → Vector3f := fun _ => bbMin
  let points := Function.update points 7 bbMax
  let points := Function.update points 3 (points 7)
  let points := Function.update points 2 (points 3)
  let points := Function.update points 0 (points 2)
  let points := Function.update points 0 (Function.update (points 0) 0 (bbMin 0))
  let points := Function.update points 2 (Function.update (points 2) 1 (bbMin 1))
  let points := Function.update points 7 (Function.update (points 7) 2 (bbMin 2))
  let points := Function.update points 1 (Function.update (points 1) 2 (bbMax 2))
  let points := Function.update points 4 (Function.update (points 4) 1 (bbMax 1))
  Function.update points 6 (Function.update (points 6) 0 (bbMax 0))

/-- The local `edges` of `DrawBox`: top, bottom, side. -/
def DrawBox.edges : List (Fin 8 × Fin 8) :=
  [(0, 3), (3, 2), (2, 1), (1, 0),
   (4, 7), (7, 6), (6, 5), (5, 4),
   (0, 4), (1, 5), (2, 6), (3, 7)]

/-- The function `GraphicsManager::DrawBox`: the point objects, and the list of
pointers that `DrawEdgeList` hands to `DrawLine`. -/
def DrawBox (bbMin bbMax : Vector3f) : (Fin 8 → Vector3f) × List (Fin 8) :=
  (DrawBox.points bbMin bbMax, DrawEdgeList DrawBox.edges)

/-! ## The calls of one tick -/

/-- The draw pass classes that `GraphicsManager::Initialize` registers. -/
inductive DrawPassClass where
  | ShadowMapPass
  | ForwardGeometryPass
  deriving DecidableEq, Repr

/-- The list `m_DrawPasses` after `GraphicsManager::Initialize`: two
`push_back`, in this order. -/
def Initialize.m_DrawPasses : List DrawPassClass := [.ShadowMapPass, .ForwardGeometryPass]

/-- The viewer environment with one entry of `drawPasses` for each pass that
`Initialize` registers, in its order.  The pass classes are not among the
source files; here their `Draw` leaves the manager as it is. -/
def Env.withPasses : Env :=
  { Env.viewer with drawPasses := Initialize.m_DrawPasses.map (fun _ m => m) }

/-- What the loop body of `CalculateLights` leaves in the entry `light` that it
fills from the node `pLightNode` and its light object `pLight`: the members
copied from the object, the direction, and `lightVP`. -/
def CalculateLights.filled (env : Env) (pLightNode : SceneLightNode) (pLight : SceneObjectLight)
    (light : Light) : Prop :=
  light.lightGuid = pLight.guid ∧ light.lightColor = pLight.color ∧
  light.lightIntensity = pLight.intensity ∧ light.lightCastShadow = pLight.castShadow ∧
  light.lightDistAttenCurveType = pLight.distanceAttenuation.type ∧
  (∀ i x, pLight.distanceAttenuation.u[i]? = some x → light.lightDistAttenCurveParams i = x) ∧
  light.lightDirection = env.Normalize (env.Transform ![0, 0, -1, 0] pLightNode.calculatedTransform) ∧
  ∃ view projection, light.lightVP = env.MatrixMultiply view projection ∧
    ∀ dimension, pLight.type = .kSceneObjectTypeLightArea dimension →
      projection = env.BuildIdentityMatrix

/-- A scene with an expired light node between two live ones: a spot light and
a directional light. -/
def Scene.twoLights : Scene :=
  { Scene.empty with
    LightNodes := [some { calculatedTransform := identityMatrix, sceneObjectRef := "spot" }, none,
                   some { calculatedTransform := identityMatrix, sceneObjectRef := "sun" }]
    Lights := [("spot", SceneObjectLight.spot), ("sun", SceneObjectLight.sun)] }

/-! ## The batches of a scene -/

/-- Whether an index type has 8, 16 or 32 bits. -/
def indexTypeSupported (indexType : IndexDataType) : Bool :=
  decide (indexType = .kIndexDataTypeInt8 ∨ indexType = .kIndexDataTypeInt16 ∨
    indexType = .kIndexDataTypeInt32)

/-- The batch-count rule in the words of the specification, for one entry of
the node list: a geometry node that is alive, visible, has a mesh and a
supported primitive type yields one batch for each index group of the mesh
whose index type has 8, 16 or 32 bits, in index-group order; any other entry
yields none. -/
def spec_nodeBatchList (scene : Scene) (entry : Option SceneGeometryNode) :
    List (SceneGeometryNode × SceneObjectIndexArray) :=
  match entry with
  | none => []
  | some pGeometryNode =>
    if pGeometryNode.visible then
      match (scene.GetGeometry pGeometryNode.sceneObjectRef).bind (fun pGeometry => pGeometry.mesh) with
      | none => []
      | some pMesh =>
        if (glMode pMesh.primitiveType).isSome then
          (pMesh.indexArrays.filter (fun index_array => indexTypeSupported index_array.indexType)).map
            (fun index_array => (pGeometryNode, index_array))
        else []
    else []

/-- The batch list of a scene in the words of the specification: node order,
then index-group order. -/
def spec_batchList (scene : Scene) : List (SceneGeometryNode × SceneObjectIndexArray) :=
  scene.GeometryNodes.flatMap (spec_nodeBatchList scene)

/-- The batch count of a scene in the words of the specification: the sum over
the geometry nodes of the number of batches each yields. -/
def spec_batchCount (scene : Scene) : Nat :=
  (scene.GeometryNodes.map (fun entry => (spec_nodeBatchList scene entry).length)).sum

/-- The node, index type and element count that the batch object carries. -/
def OpenGLDrawBatchContext.source (dbc : OpenGLDrawBatchContext) :
    Option SceneGeometryNode × Option GLType × Int :=
  (dbc.node, some dbc.type, dbc.count)

/-- What the batches of slot `i` carry, in list order. -/
def Manager.batchSources (m : Manager) (i : Nat) :
    List (Option SceneGeometryNode × Option GLType × Int) :=
  (m.m_Frames i).batchContexts.map (fun dbc => (m.batchObjects dbc).source)

/-- The model matrices read through the batch list of slot `i`, in list order. -/
def Manager.modelMatrices (m : Manager) (i : Nat) : List Matrix4X4f :=
  (m.m_Frames i).batchContexts.map (fun dbc => (m.batchObjects dbc).modelMatrix)

/-- Manager `m'` is `m` with one new batch object for each entry of `added`,
in this order (carrying the node, the index type and the index count converted
to `int32_t`), the pointers to them appended to the batch list of each of the
`N` slots, and the objects that `m` has allocated left as they were. -/
def Appended (N : Nat) (m m' : Manager) (added : List (SceneGeometryNode × SceneObjectIndexArray)) :
    Prop :=
  m.batchObjectCount ≤ m'.batchObjectCount ∧
  (∀ p, p < m.batchObjectCount → m'.batchObjects p = m.batchObjects p) ∧
  ∃ ptrs : List Nat,
    (∀ i, i < N → (m'.m_Frames i).batchContexts = (m.m_Frames i).batchContexts ++ ptrs) ∧
    (∀ p ∈ ptrs, m.batchObjectCount ≤ p ∧ p < m'.batchObjectCount) ∧
    ptrs.map (fun p => (m'.batchObjects p).source) =
      added.map (fun x => (some x.1, glIndexType x.2.indexType, static_cast_int32 x.2.indexCount))

/-! ## Lemmas on the driver record -/

theorem logCalls_nil (m : Manager) : m.logCalls [] = m := by
  simp [Manager.logCalls]

theorem logCalls_logCalls (m : Manager) (a b : List GLCall) :
    (m.logCalls a).logCalls b = m.logCalls (a ++ b) := by
  simp [Manager.logCalls, List.append_assoc]

theorem record_eq_logCalls (m : Manager) (c : GLCall) : m.record c = m.logCalls [c] := rfl

theorem foldl_delete_eq {α : Type} (f : Manager → α → GLCall)
    (hf : ∀ (m : Manager) (cs : List GLCall) (a : α), f (m.logCalls cs) a = f m a)
    (l : List α) (m : Manager) :
    l.foldl (fun acc a => acc.record (f acc a)) m = m.logCalls (l.map (f m)) := by
  induction l generalizing m with
  | nil => simp [logCalls_nil]
  | cons a l ih =>
    simp only [List.foldl_cons, List.map_cons]
    rw [ih, record_eq_logCalls, logCalls_logCalls]
    congr 1
    simp [hf]

theorem EndScene.slot_eq (m : Manager) (i : Nat) :
    EndScene.slot m i =
      ({ m with m_Frames := Function.update m.m_Frames i { m.m_Frames i with batchContexts := [] } }
        : Manager).logCalls (EndScene.slotCalls m i) := by
  have h := foldl_delete_eq (fun (acc : Manager) dbc => GLCall.glDeleteVertexArrays (acc.batchObjects dbc).vao)
    (fun _ _ _ => rfl) (m.m_Frames i).batchContexts m
  simp only [Manager.glDeleteVertexArrays, Manager.glDeleteBuffers, EndScene.slot, EndScene.slotCalls,
    deleteIfSet] at h ⊢
  rw [h]
  by_cases h1 : m.m_uboDrawFrameConstant i = 0 <;> by_cases h2 : m.m_uboDrawBatchConstant i = 0 <;>
    by_cases h3 : m.m_uboShadowMatricesConstant i = 0 <;> by_cases h4 : m.m_uboDebugConstant i = 0 <;>
    simp [Manager.logCalls, Manager.setFrame, Manager.record, h1, h2, h3, h4]


theorem EndScene.slotCalls_clearSlots (m : Manager) (k : Nat) (cs : List GLCall) :
    EndScene.slotCalls ((clearSlots k m).logCalls cs) k = EndScene.slotCalls m k := by
  simp [EndScene.slotCalls, clearSlots, Manager.logCalls]

theorem clearSlots_succ (m : Manager) (k : Nat) :
    Function.update (clearSlots k m).m_Frames k { (clearSlots k m).m_Frames k with batchContexts := [] }
      = (clearSlots (k + 1) m).m_Frames := by
  funext j
  by_cases hj : j = k
  · subst hj
    simp [clearSlots]
  · have h1 : j < k + 1 ↔ j < k := by omega
    simp [clearSlots, Function.update, hj, h1]

theorem EndScene.slots_eq (m : Manager) (k : Nat) :
    (List.range k).foldl EndScene.slot m =
      (clearSlots k m).logCalls ((List.range k).flatMap (EndScene.slotCalls m)) := by
  induction k with
  | zero =>
    simp [clearSlots, logCalls_nil]
  | succ k ih =>
    rw [List.range_succ, List.foldl_append, ih]
    simp only [List.foldl_cons, List.foldl_nil, List.flatMap_append, List.flatMap_cons,
      List.flatMap_nil, List.append_nil]
    rw [EndScene.slot_eq, EndScene.slotCalls_clearSlots, ← logCalls_logCalls]
    congr 1
    have h := clearSlots_succ m k
    simp only [Manager.logCalls, clearSlots] at h ⊢
    rw [h]

theorem foldl_glDeleteBuffers (l : List Nat) (m : Manager) :
    l.foldl (fun acc buf => acc.glDeleteBuffers buf) m = m.logCalls (l.map GLCall.glDeleteBuffers) :=
  foldl_delete_eq (fun _ buf => GLCall.glDeleteBuffers buf) (fun _ _ _ => rfl) l m

theorem foldl_glDeleteVertexArrays (l : List Nat) (m : Manager) :
    l.foldl (fun acc vao => acc.glDeleteVertexArrays vao) m =
      m.logCalls (l.map GLCall.glDeleteVertexArrays) :=
  foldl_delete_eq (fun _ vao => GLCall.glDeleteVertexArrays vao) (fun _ _ _ => rfl) l m

theorem foldl_glDeleteTextures (l : List (String × Nat)) (m : Manager) :
    l.foldl (fun acc it => acc.glDeleteTextures it.2) m =
      m.logCalls (l.map (fun it => GLCall.glDeleteTextures it.2)) :=
  foldl_delete_eq (fun _ (it : String × Nat) => GLCall.glDeleteTextures it.2) (fun _ _ _ => rfl) l m

theorem glDeleteVertexArrays_if (m : Manager) (vao : Nat) :
    (if vao ≠ 0 then m.glDeleteVertexArrays vao else m) =
      m.logCalls (deleteIfSet .glDeleteVertexArrays vao) := by
  by_cases h : vao = 0 <;> simp [deleteIfSet, h, logCalls_nil, Manager.glDeleteVertexArrays,
    record_eq_logCalls]

/-- The closed form of `EndScene`: the members are those of `tornDown`, and
the driver has received exactly the calls of `EndScene.calls`. -/
theorem EndScene_eq (env : Env) (m : Manager) :
    EndScene env m = (tornDown env m).logCalls (EndScene.calls env m) := by
  unfold EndScene
  simp only [GraphicsManager.EndScene, EndScene.slots_eq, glDeleteVertexArrays_if,
    foldl_glDeleteBuffers, foldl_glDeleteTextures, logCalls_logCalls]
  simp [Manager.logCalls, clearSlots, tornDown, EndScene.calls]


/-! ## Scene teardown: theorems -/

theorem tornDown_logCalls_tornDown (env : Env) (m : Manager) (cs : List GLCall) :
    tornDown env ((tornDown env m).logCalls cs) = (tornDown env m).logCalls cs := by
  have h : (fun i => if i < env.kMaxInFlightFrameCount then
        ({ (if i < env.kMaxInFlightFrameCount then
              ({ m.m_Frames i with batchContexts := [] } : Frame) else m.m_Frames i) with
            batchContexts := [] } : Frame)
      else (if i < env.kMaxInFlightFrameCount then
              ({ m.m_Frames i with batchContexts := [] } : Frame) else m.m_Frames i)) =
      (fun i => if i < env.kMaxInFlightFrameCount then
        ({ m.m_Frames i with batchContexts := [] } : Frame) else m.m_Frames i) := by
    funext i
    by_cases hi : i < env.kMaxInFlightFrameCount <;> simp [hi]
  simp only [tornDown, clearSlots, Manager.logCalls]
  rw [h]

theorem EndScene_of_nothingAllocated (env : Env) (m : Manager) (h : NothingAllocated env m) :
    EndScene env m = m := by
  obtain ⟨hs, ht, hk, hb, hx⟩ := h
  have hcalls : EndScene.calls env m = [] := by
    have h0 : ∀ l : List Nat, (∀ i ∈ l, i < env.kMaxInFlightFrameCount) →
        l.flatMap (EndScene.slotCalls m) = [] := by
      intro l hl
      induction l with
      | nil => rfl
      | cons a l ih =>
        obtain ⟨h1, h2, h3, h4, h5⟩ := hs a (hl a (List.mem_cons_self a l))
        have ih2 := ih (fun i hi => hl i (List.mem_cons_of_mem a hi))
        simp [List.flatMap_cons, EndScene.slotCalls, deleteIfSet, h1, h2, h3, h4, h5, ih2]
    have h1 := h0 (List.range env.kMaxInFlightFrameCount) (fun i hi => List.mem_range.mp hi)
    simp [EndScene.calls, h1, deleteIfSet, ht, hk, hb, hx]
  have hframes : (clearSlots env.kMaxInFlightFrameCount m).m_Frames = m.m_Frames := by
    funext i
    by_cases hi : i < env.kMaxInFlightFrameCount
    · have h1 := (hs i hi).1
      simp only [clearSlots, hi, if_true]
      rw [← h1]
    · simp [clearSlots, hi]
  rw [EndScene_eq, hcalls, logCalls_nil]
  simp only [tornDown]
  have h2 : clearSlots env.kMaxInFlightFrameCount m = m := by
    simp only [clearSlots] at hframes ⊢
    rw [hframes]
  rw [h2, ← hb, ← hx]

theorem nothingAllocated_fresh : NothingAllocated Env.viewer Manager.fresh := by
  refine ⟨fun i _ => ⟨rfl, rfl, rfl, rfl, rfl⟩, rfl, rfl, rfl, rfl⟩

/-- C10: `EndScene` is idempotent on the manager state: a second `EndScene`
leaves every member (slot batch lists, buffer list, texture map, handle
fields) as the first one left them, only the record of driver calls may
grow; on a manager with nothing allocated `EndScene` changes nothing and calls
nothing; and `Finalize` ends with this `EndScene` in every build. -/
theorem EndScene_idempotent (env : Env) (m : Manager) :
    EndScene env (EndScene env m) =
        { EndScene env m with gl := (EndScene env (EndScene env m)).gl } ∧
      (NothingAllocated env m → EndScene env m = m) ∧
      Finalize env m = EndScene env (if env.DEBUG then ClearDebugBuffers m else m) := by
  refine ⟨?_, EndScene_of_nothingAllocated env m, rfl⟩
  rw [EndScene_eq env m, EndScene_eq env ((tornDown env m).logCalls _), tornDown_logCalls_tornDown]
  simp [Manager.logCalls]

/-- C10, on the fresh manager of the viewer: nothing is allocated, and
`EndScene` returns the same state. -/
theorem EndScene_idempotent_witness :
    NothingAllocated Env.viewer Manager.fresh ∧ EndScene Env.viewer Manager.fresh = Manager.fresh :=
  ⟨nothingAllocated_fresh, (EndScene_idempotent Env.viewer Manager.fresh).2.1 nothingAllocated_fresh⟩

/-- C6: whatever the scene and the starting state, `BeginScene(scene)` followed
by `EndScene()` leaves the batch list of each of the N slots empty and the
buffer list `m_Buffers` and the texture map `m_Textures` empty. -/
theorem BeginScene_EndScene_bookkeeping_empty (env : Env) (scene : Scene) (m : Manager) :
    (∀ i, i < env.kMaxInFlightFrameCount →
      ((EndScene env (BeginScene env scene m).state).m_Frames i).batchContexts = []) ∧
    (EndScene env (BeginScene env scene m).state).m_Buffers = [] ∧
    (EndScene env (BeginScene env scene m).state).m_Textures = [] := by
  rw [EndScene_eq]
  refine ⟨fun i hi => ?_, rfl, rfl⟩
  simp [Manager.logCalls, tornDown, clearSlots, hi]

/-- C6, on the viewer with the empty scene: `BeginScene` returns, and after
`EndScene` slot 1 has no batch. -/
theorem BeginScene_EndScene_bookkeeping_empty_witness :
    (BeginScene Env.viewer Scene.empty Manager.fresh).completes = true ∧
    ((EndScene Env.viewer (BeginScene Env.viewer Scene.empty Manager.fresh).state).m_Frames 1).batchContexts
      = [] :=
  ⟨by decide, (BeginScene_EndScene_bookkeeping_empty Env.viewer Scene.empty Manager.fresh).1 1 (by decide)⟩


/-! ## Outcomes and loops -/

@[simp] theorem Outcome.state_done (m : Manager) : (Outcome.done m).state = m := rfl

@[simp] theorem Outcome.state_fault (m : Manager) : (Outcome.fault m : Outcome Manager).state = m := rfl

@[simp] theorem Outcome.andThen_done {α β : Type} (a : α) (f : α → Outcome β) :
    (Outcome.done a).andThen f = f a := rfl

@[simp] theorem Outcome.andThen_fault {α β : Type} (m : Manager) (f : α → Outcome β) :
    (Outcome.fault m : Outcome α).andThen f = Outcome.fault m := rfl

theorem Run.andThen_outcome (r : Run) (f : Manager → Run) :
    (r.andThen f).outcome = r.outcome.andThen (fun m => (f m).outcome) := by
  unfold Run.andThen
  cases h : r.outcome with
  | done m => rfl
  | fault m => simp [h]

theorem Run.call_outcome (r : Run) (c : Call) (f : Manager → Outcome Manager) :
    (r.call c f).outcome = r.outcome.andThen f := by
  unfold Run.call
  rw [Run.andThen_outcome]
  rfl

theorem Run.foldl_call_outcome {α : Type} (c : α → Call) (f : α → Manager → Outcome Manager) :
    ∀ (l : List α) (r : Run),
      (l.foldl (fun (r : Run) x => r.call (c x) (f x)) r).outcome =
        l.foldl (fun (o : Outcome Manager) x => o.andThen (f x)) r.outcome := by
  intro l
  induction l with
  | nil => intro r; rfl
  | cons x l ih =>
    intro r
    simp only [List.foldl_cons]
    rw [ih, Run.call_outcome]

/-- The outcome of `UpdateConstants`: the batch loop, the camera matrices, the
lights and the three uploads, each entered when the one before has returned. -/
theorem UpdateConstants_def (env : Env) (scene : Scene) (m : Manager) :
    UpdateConstants env scene m =
      (((UpdateConstants.batches env m).andThen (CalculateCameraMatrix env scene)).andThen
        (CalculateLights env scene)).andThen
        (fun m => .done (SetLightInfo (SetPerBatchConstants (SetPerFrameConstants m)))) := by
  unfold UpdateConstants UpdateConstants.run UpdateConstants.batches
  simp only [Run.call_outcome]
  rw [Run.foldl_call_outcome (fun pDbc => Call.modelMatrix pDbc)
    (fun pDbc m => UpdateConstants.batch env m pDbc)]
  show _ = (((List.foldl (fun (o : Outcome Manager) pDbc =>
    o.andThen (fun m => UpdateConstants.batch env m pDbc)) (Run.start m).outcome
    (m.m_Frames m.m_nFrameIndex).batchContexts).andThen _).andThen _).andThen _
  generalize (List.foldl (fun (o : Outcome Manager) pDbc =>
    o.andThen (fun m => UpdateConstants.batch env m pDbc)) (Run.start m).outcome
    (m.m_Frames m.m_nFrameIndex).batchContexts) = o
  cases o with
  | fault m1 => rfl
  | done m1 =>
    simp only [Outcome.andThen_done]
    cases CalculateCameraMatrix env scene m1 with
    | fault m2 => rfl
    | done m2 =>
      simp only [Outcome.andThen_done]
      cases CalculateLights env scene m2 <;> rfl

theorem Draw.run_loop (frame : Nat) :
    ∀ (l : List (Manager → Manager)) (k : Nat) (r : Run) (m : Manager), r.outcome = Outcome.done m →
      ((l.enumFrom k).foldl
        (fun (r : Run) (pDrawPass : Nat × (Manager → Manager)) =>
          ((r.call .BeginPass (fun m => .done m)).call (.Draw pDrawPass.1 frame)
            (fun m => .done (runDrawPass m pDrawPass.2))).call .EndPass (fun m => .done m)) r).outcome =
          Outcome.done (l.foldl runDrawPass m) ∧
      ((l.enumFrom k).foldl
        (fun (r : Run) (pDrawPass : Nat × (Manager → Manager)) =>
          ((r.call .BeginPass (fun m => .done m)).call (.Draw pDrawPass.1 frame)
            (fun m => .done (runDrawPass m pDrawPass.2))).call .EndPass (fun m => .done m)) r).calls =
          r.calls ++ (List.range' k l.length).flatMap
            (fun pDrawPass => [Call.BeginPass, Call.Draw pDrawPass frame, Call.EndPass]) := by
  intro l
  induction l with
  | nil =>
    intro k r m h
    exact ⟨h, by simp⟩
  | cons pass l ih =>
    intro k r m h
    simp only [List.enumFrom_cons, List.foldl_cons, List.length_cons]
    have hout : (((r.call .BeginPass (fun m => .done m)).call (.Draw k frame)
        (fun m => .done (runDrawPass m pass))).call .EndPass (fun m => .done m)).outcome =
        Outcome.done (runDrawPass m pass) := by
      simp only [Run.call_outcome, h, Outcome.andThen_done]
    have hcalls : (((r.call .BeginPass (fun m => .done m)).call (.Draw k frame)
        (fun m => .done (runDrawPass m pass))).call .EndPass (fun m => .done m)).calls =
        r.calls ++ [Call.BeginPass, Call.Draw k frame, Call.EndPass] := by
      simp [Run.call, Run.andThen, Run.step, h]
    obtain ⟨h1, h2⟩ := ih (k + 1) _ _ hout
    refine ⟨h1, ?_⟩
    rw [h2, hcalls, List.range'_succ, List.flatMap_cons, List.append_assoc]

/-- The state after `Draw`: the passes have run in the order of the list. -/
theorem Draw_def (env : Env) (m : Manager) : Draw env m = env.drawPasses.foldl runDrawPass m := by
  unfold Draw Draw.run
  simp only [List.enum]
  rw [(Draw.run_loop m.m_nFrameIndex env.drawPasses 0 (Run.start m) m rfl).1]
  rfl

/-- The outcome of `Tick`: the optional rebuild, `UpdateConstants`, `Draw`, and
the assignment to the frame index. -/
theorem Tick_def (env : Env) (IsSceneChanged : Bool) (scene : Scene) (m : Manager) :
    Tick env IsSceneChanged scene m =
      ((if IsSceneChanged then BeginScene env scene (EndScene env m) else Outcome.done m).andThen
        (UpdateConstants env scene)).andThen
        (fun m => .done { Draw env m with
          m_nFrameIndex := ((Draw env m).m_nFrameIndex + 1) % env.kMaxInFlightFrameCount }) := by
  have hdraw : ∀ m1, (Draw.run env m1).outcome = Outcome.done (Draw env m1) := by
    intro m1
    rw [Draw_def]
    have h := (Draw.run_loop m1.m_nFrameIndex env.drawPasses 0 (Run.start m1) m1 rfl).1
    unfold Draw.run
    simp only [List.enum]
    exact h
  have hrebuild : (if IsSceneChanged then
        (((Run.start m).call .EndScene (fun m => .done (EndScene env m))).call .BeginScene
          (BeginScene env scene)).call .NotifySceneIsRenderingQueued (fun m => .done m)
      else Run.start m).outcome =
      (if IsSceneChanged then BeginScene env scene (EndScene env m) else Outcome.done m) := by
    cases IsSceneChanged with
    | false => rfl
    | true =>
      simp only [if_true, Run.call_outcome, Run.start, Outcome.andThen_done]
      cases BeginScene env scene (EndScene env m) <;> rfl
  have hU : ∀ m1, (UpdateConstants.run env scene m1).outcome = UpdateConstants env scene m1 :=
    fun _ => rfl
  unfold Tick Tick.run
  simp only [Run.andThen_outcome, Run.call_outcome, hrebuild, hU, hdraw]
  generalize (if IsSceneChanged then BeginScene env scene (EndScene env m) else Outcome.done m) = o
  cases o with
  | fault m1 => rfl
  | done m1 =>
    simp only [Outcome.andThen_done]
    cases UpdateConstants env scene m1 with
    | fault m2 => rfl
    | done m2 => rfl

theorem foldl_andThen_fault {α β : Type} (step : β → α → Outcome β) (l : List α) (m : Manager) :
    l.foldl (fun (o : Outcome β) a => o.andThen (fun b => step b a)) (Outcome.fault m) = Outcome.fault m := by
  induction l with
  | nil => rfl
  | cons a l ih => simpa using ih

/-- A property of the manager kept by every step of a loop is kept by the
loop, whether it finishes or stops at a fault. -/
theorem foldl_andThen_state_inv {α : Type} (P : Manager → Prop)
    (step : Manager → α → Outcome Manager) (hstep : ∀ m a, P m → P (step m a).state) :
    ∀ (l : List α) (m : Manager), P m →
      P (l.foldl (fun (o : Outcome Manager) a => o.andThen (fun m => step m a)) (Outcome.done m)).state := by
  intro l
  induction l with
  | nil => intro m hm; simpa using hm
  | cons a l ih =>
    intro m hm
    simp only [List.foldl_cons, Outcome.andThen_done]
    have h := hstep m a hm
    cases hs : step m a with
    | done m1 =>
      rw [hs] at h
      exact ih m1 h
    | fault m1 =>
      rw [hs] at h
      rw [foldl_andThen_fault]
      exact h

/-! ## Camera matrix: theorems -/

theorem CalculateCameraMatrix.projection_view (env : Env) (m : Manager) (f n r : Scalar) :
    ((CalculateCameraMatrix.projection env m f n r).m_Frames
        (CalculateCameraMatrix.projection env m f n r).m_nFrameIndex).frameContext.viewMatrix =
      (m.m_Frames m.m_nFrameIndex).frameContext.viewMatrix ∧
    ((CalculateCameraMatrix.projection env m f n r).m_Frames
        (CalculateCameraMatrix.projection env m f n r).m_nFrameIndex).frameContext.camPos =
      (m.m_Frames m.m_nFrameIndex).frameContext.camPos := by
  simp [CalculateCameraMatrix.projection, Manager.setFrameContext, Manager.setFrame]

/-- C4: for a scene with no camera node, `CalculateCameraMatrix` returns and
the view matrix of the current slot is the look-at matrix that
`BuildViewRHMatrix` builds from position (0,-5,0), target (0,0,0) and up
(0,0,1), whatever the slot held before. -/
theorem CalculateCameraMatrix_default_view (env : Env) (scene : Scene) (m : Manager)
    (h : scene.GetFirstCameraNode = none) :
    ∃ m', CalculateCameraMatrix env scene m = Outcome.done m' ∧
      (m'.m_Frames m'.m_nFrameIndex).frameContext.viewMatrix =
        env.BuildViewRHMatrix ![0, -5, 0] ![0, 0, 0] ![0, 0, 1] := by
  have hrun : CalculateCameraMatrix env scene m = Outcome.done
      (CalculateCameraMatrix.projection env (CalculateCameraMatrix.view env scene m) (env.PI / 3) 1 100) := by
    simp only [CalculateCameraMatrix, h]
  refine ⟨_, hrun, ?_⟩
  rw [(CalculateCameraMatrix.projection_view env _ _ _ _).1]
  simp [CalculateCameraMatrix.view, h, Manager.setFrameContext, Manager.setFrame]

/-- C4, on the viewer with the empty scene, which has no camera node. -/
theorem CalculateCameraMatrix_default_view_witness :
    Scene.empty.GetFirstCameraNode = none ∧
    ∃ m', CalculateCameraMatrix Env.viewer Scene.empty Manager.fresh = Outcome.done m' ∧
      (m'.m_Frames m'.m_nFrameIndex).frameContext.viewMatrix =
        Env.viewer.BuildViewRHMatrix ![0, -5, 0] ![0, 0, 0] ![0, 0, 1] :=
  ⟨rfl, CalculateCameraMatrix_default_view Env.viewer Scene.empty Manager.fresh rfl⟩

/-- C5: for a scene whose first camera node has world transform T, at the end
of `CalculateCameraMatrix` the view matrix of the current slot is
`InverseMatrix4X4f` of T and `camPos` is (T[3][0], T[3][1], T[3][2]), read
before the inversion; the call returns exactly when the camera object of the
node resolves to a perspective camera. -/
theorem CalculateCameraMatrix_camera_view (env : Env) (scene : Scene) (m : Manager)
    (pCameraNode : SceneCameraNode) (h : scene.GetFirstCameraNode = some pCameraNode) :
    ((CalculateCameraMatrix env scene m).state.m_Frames
        (CalculateCameraMatrix env scene m).state.m_nFrameIndex).frameContext.viewMatrix =
      env.InverseMatrix4X4f pCameraNode.calculatedTransform ∧
    ((CalculateCameraMatrix env scene m).state.m_Frames
        (CalculateCameraMatrix env scene m).state.m_nFrameIndex).frameContext.camPos =
      ![pCameraNode.calculatedTransform 3 0, pCameraNode.calculatedTransform 3 1,
        pCameraNode.calculatedTransform 3 2] ∧
    (CalculateCameraMatrix env scene m).completes =
      (match scene.GetCamera pCameraNode.sceneObjectRef with
       | some pCamera => pCamera.perspective
       | none => false) := by
  have hv : ((CalculateCameraMatrix.view env scene m).m_Frames
        (CalculateCameraMatrix.view env scene m).m_nFrameIndex).frameContext.viewMatrix =
      env.InverseMatrix4X4f pCameraNode.calculatedTransform ∧
      ((CalculateCameraMatrix.view env scene m).m_Frames
        (CalculateCameraMatrix.view env scene m).m_nFrameIndex).frameContext.camPos =
      ![pCameraNode.calculatedTransform 3 0, pCameraNode.calculatedTransform 3 1,
        pCameraNode.calculatedTransform 3 2] := by
    simp [CalculateCameraMatrix.view, h, Manager.setFrameContext, Manager.setFrame]
  simp only [CalculateCameraMatrix, h]
  cases hc : scene.GetCamera pCameraNode.sceneObjectRef with
  | none => exact ⟨hv.1, hv.2, rfl⟩
  | some pCamera =>
    by_cases hp : pCamera.perspective = true
    · simp only [hp, if_true, Outcome.state_done]
      rw [(CalculateCameraMatrix.projection_view env _ _ _ _).1,
        (CalculateCameraMatrix.projection_view env _ _ _ _).2]
      exact ⟨hv.1, hv.2, rfl⟩
    · simp only [hp, if_false, Outcome.state_fault]
      refine ⟨hv.1, hv.2, ?_⟩
      simp [Outcome.completes, hp]

/-- C5, on the viewer with the camera placed at (1, 2, 3): the camera position
stored is (1, 2, 3). -/
theorem CalculateCameraMatrix_camera_view_witness :
    Scene.withCamera.GetFirstCameraNode =
      some { calculatedTransform := translationMatrix 1 2 3, sceneObjectRef := "camera" } ∧
    ((CalculateCameraMatrix Env.viewer Scene.withCamera Manager.fresh).state.m_Frames
        (CalculateCameraMatrix Env.viewer Scene.withCamera Manager.fresh).state.m_nFrameIndex).frameContext.camPos
      = ![translationMatrix 1 2 3 3 0, translationMatrix 1 2 3 3 1, translationMatrix 1 2 3 3 2] :=
  ⟨rfl, (CalculateCameraMatrix_camera_view Env.viewer Scene.withCamera Manager.fresh _ rfl).2.1⟩


/-! ## Per-object transform: theorems -/

theorem SameBatches.refl (m : Manager) : SameBatches m m := ⟨rfl, rfl, rfl, fun _ => rfl⟩

theorem SameBatches.trans {a b c : Manager} (h1 : SameBatches a b) (h2 : SameBatches b c) :
    SameBatches a c :=
  ⟨h1.1.trans h2.1, h1.2.1.trans h2.2.1, h1.2.2.1.trans h2.2.2.1, fun i => (h1.2.2.2 i).trans (h2.2.2.2 i)⟩

theorem setFrameContext_sameBatches (m : Manager) (c : DrawFrameContext) :
    SameBatches (m.setFrameContext c) m := by
  refine ⟨rfl, rfl, rfl, fun i => ?_⟩
  by_cases hi : i = m.m_nFrameIndex
  · subst hi; simp [Manager.setFrameContext, Manager.setFrame]
  · simp [Manager.setFrameContext, Manager.setFrame, Function.update, hi]

theorem setLight_sameBatches (m : Manager) (n : Nat) (light : Light) :
    SameBatches (m.setLight n light) m := by
  refine ⟨rfl, rfl, rfl, fun i => ?_⟩
  by_cases hi : i = m.m_nFrameIndex
  · subst hi; simp [Manager.setLight, Manager.setFrame]
  · simp [Manager.setLight, Manager.setFrame, Function.update, hi]

theorem CalculateCameraMatrix_sameBatches (env : Env) (scene : Scene) (m : Manager) :
    SameBatches (CalculateCameraMatrix env scene m).state m := by
  have hv : SameBatches (CalculateCameraMatrix.view env scene m) m := by
    unfold CalculateCameraMatrix.view
    cases scene.GetFirstCameraNode <;> exact setFrameContext_sameBatches _ _
  have hp : ∀ f n r, SameBatches
      (CalculateCameraMatrix.projection env (CalculateCameraMatrix.view env scene m) f n r) m :=
    fun f n r => (setFrameContext_sameBatches _ _).trans hv
  unfold CalculateCameraMatrix
  cases scene.GetFirstCameraNode with
  | none => exact hp _ _ _
  | some node =>
    simp only
    cases scene.GetCamera node.sceneObjectRef with
    | none => exact hv
    | some cam =>
      by_cases hc : cam.perspective = true
      · simp only [hc, if_true]; exact hp _ _ _
      · simp only [hc, if_false]; exact hv

theorem CalculateLights.finish_sameBatches (env : Env) (m : Manager) (n : Nat) (light : Light)
    (view projection : Matrix4X4f) :
    SameBatches (CalculateLights.finish env m n light view projection) m :=
  (setFrameContext_sameBatches _ _).trans (setLight_sameBatches _ _ _)

theorem CalculateLights.node_sameBatches (env : Env) (scene : Scene) (m : Manager)
    (entry : Option SceneLightNode) : SameBatches (CalculateLights.node env scene m entry).state m := by
  unfold CalculateLights.node
  cases entry with
  | none => exact SameBatches.refl m
  | some pLightNode =>
    simp only
    cases scene.GetLight pLightNode.sceneObjectRef with
    | none =>
      simp only
      split <;> exact setLight_sameBatches _ _ _
    | some pLight =>
      simp only
      cases pLight.type with
      | kSceneObjectTypeLightInfi =>
        simp only
        cases scene.GetFirstCameraNode with
        | none => exact CalculateLights.finish_sameBatches _ _ _ _ _ _
        | some pCameraNode =>
          simp only
          cases scene.GetCamera pCameraNode.sceneObjectRef with
          | none => exact setLight_sameBatches _ _ _
          | some pCamera => exact CalculateLights.finish_sameBatches _ _ _ _ _ _
      | kSceneObjectTypeLightSpot curve => exact CalculateLights.finish_sameBatches _ _ _ _ _ _
      | kSceneObjectTypeLightArea dimension => exact CalculateLights.finish_sameBatches _ _ _ _ _ _
      | kSceneObjectTypeLightOmni => exact CalculateLights.finish_sameBatches _ _ _ _ _ _

theorem CalculateLights_sameBatches (env : Env) (scene : Scene) (m : Manager) :
    SameBatches (CalculateLights env scene m).state m := by
  unfold CalculateLights
  refine (foldl_andThen_state_inv (fun m' => SameBatches m' m) (CalculateLights.node env scene)
    (fun m1 a h1 => (CalculateLights.node_sameBatches env scene m1 a).trans h1) scene.LightNodes _ ?_)
  exact setFrameContext_sameBatches _ _

theorem SetPerFrameConstants_sameBatches (m : Manager) : SameBatches (SetPerFrameConstants m) m := by
  unfold SetPerFrameConstants
  split <;> exact ⟨rfl, rfl, rfl, fun _ => rfl⟩

theorem SetPerBatchConstants_sameBatches (m : Manager) : SameBatches (SetPerBatchConstants m) m := by
  unfold SetPerBatchConstants
  split <;> exact ⟨rfl, rfl, rfl, fun _ => rfl⟩

theorem SetLightInfo_sameBatches (m : Manager) : SameBatches (SetLightInfo m) m := by
  unfold SetLightInfo
  split <;> exact ⟨rfl, rfl, rfl, fun _ => rfl⟩

theorem UpdateConstants.batch_done (env : Env) (m : Manager) (pDbc : Nat) (node : SceneGeometryNode)
    (h : (m.batchObjects pDbc).node = some node) :
    UpdateConstants.batch env m pDbc =
      Outcome.done (m.setModelMatrix pDbc (UpdateConstants.blend env node)) := by
  unfold UpdateConstants.batch UpdateConstants.blend
  rw [h]
  cases hr : node.rigidBody <;> simp [hr]

/-- The batch loop, when every batch of the list has a node: it finishes, and
it has set the model matrix of exactly the listed objects. -/
theorem UpdateConstants.batches_loop (env : Env) :
    ∀ (l : List Nat) (m : Manager), (∀ p ∈ l, ((m.batchObjects p).node).isSome = true) →
      ∃ m', l.foldl (fun (o : Outcome Manager) pDbc =>
              o.andThen (fun m => UpdateConstants.batch env m pDbc)) (Outcome.done m) = Outcome.done m' ∧
        m'.m_nFrameIndex = m.m_nFrameIndex ∧ m'.m_Frames = m.m_Frames ∧
        (∀ p, (m'.batchObjects p).node = (m.batchObjects p).node) ∧
        (∀ p, p ∉ l → m'.batchObjects p = m.batchObjects p) ∧
        (∀ p ∈ l, ∀ node, (m.batchObjects p).node = some node →
          (m'.batchObjects p).modelMatrix = UpdateConstants.blend env node) := by
  intro l
  induction l with
  | nil =>
    intro m _
    exact ⟨m, rfl, rfl, rfl, fun _ => rfl, fun _ _ => rfl, fun p hp => absurd hp (List.not_mem_nil p)⟩
  | cons a l ih =>
    intro m hl
    obtain ⟨nodeA, hA⟩ := Option.isSome_iff_exists.mp (hl a (List.mem_cons_self a l))
    have hnodes : ∀ p, ((m.setModelMatrix a (UpdateConstants.blend env nodeA)).batchObjects p).node =
        (m.batchObjects p).node := by
      intro p
      by_cases hp : p = a
      · subst hp; simp [Manager.setModelMatrix]
      · simp [Manager.setModelMatrix, Function.update, hp]
    obtain ⟨m', hrun, hidx, hfr, hnode, hout, hin⟩ :=
      ih (m.setModelMatrix a (UpdateConstants.blend env nodeA))
        (fun p hp => by rw [hnodes p]; exact hl p (List.mem_cons_of_mem a hp))
    refine ⟨m', ?_, hidx, hfr, fun p => (hnode p).trans (hnodes p), ?_, ?_⟩
    · simp only [List.foldl_cons, Outcome.andThen_done]
      rw [UpdateConstants.batch_done env m a nodeA hA]
      exact hrun
    · intro p hp
      have hpa : p ≠ a := fun h => hp (h ▸ List.mem_cons_self a l)
      have hpl : p ∉ l := fun h => hp (List.mem_cons_of_mem a h)
      rw [hout p hpl]
      simp [Manager.setModelMatrix, Function.update, hpa]
    · intro p hp node hn
      by_cases hpl : p ∈ l
      · exact hin p hpl node (by rw [hnodes p]; exact hn)
      · have hpa : p = a := by
          cases List.mem_cons.mp hp with
          | inl h => exact h
          | inr h => exact absurd h hpl
        subst hpa
        rw [hout p hpl]
        have hnn : node = nodeA := by
          rw [hA] at hn
          exact (Option.some.inj hn).symm
        subst hnn
        simp [Manager.setModelMatrix]


theorem andThen_state_inv (P : Manager → Prop) (o : Outcome Manager) (f : Manager → Outcome Manager)
    (ho : P o.state) (hf : ∀ m, P m → P (f m).state) : P (o.andThen f).state := by
  cases o with
  | done m => exact hf m ho
  | fault m => exact ho

/-- After the batch loop, the rest of `UpdateConstants` keeps the batches. -/
theorem UpdateConstants_rest_sameBatches (env : Env) (scene : Scene) (m1 : Manager) :
    SameBatches ((((Outcome.done m1).andThen (CalculateCameraMatrix env scene)).andThen
      (CalculateLights env scene)).andThen
      (fun m => Outcome.done (SetLightInfo (SetPerBatchConstants (SetPerFrameConstants m))))).state m1 := by
  refine andThen_state_inv (fun m' => SameBatches m' m1) _ _ ?_ ?_
  · refine andThen_state_inv (fun m' => SameBatches m' m1) _ _ ?_ ?_
    · exact CalculateCameraMatrix_sameBatches env scene m1
    · exact fun m h => (CalculateLights_sameBatches env scene m).trans h
  · intro m h
    exact (((SetLightInfo_sameBatches _).trans (SetPerBatchConstants_sameBatches _)).trans
      (SetPerFrameConstants_sameBatches _)).trans h

theorem UpdateConstants.blend_entries (env : Env) (node : SceneGeometryNode) :
    match node.rigidBody with
    | some rigidBody =>
      (∀ r c : Fin 3, UpdateConstants.blend env node r.castSucc c.castSucc =
        env.GetRigidBodyTransform rigidBody r.castSucc c.castSucc) ∧
      (∀ c : Fin 3, UpdateConstants.blend env node 3 c.castSucc =
        env.GetRigidBodyTransform rigidBody 3 c.castSucc)
    | none => UpdateConstants.blend env node = node.calculatedTransform := by
  cases hr : node.rigidBody with
  | none => simp [UpdateConstants.blend, hr]
  | some rigidBody =>
    have e2 : (Fin.castSucc (2 : Fin 3) : Fin 4) = 2 := rfl
    simp only [UpdateConstants.blend, hr]
    constructor
    · intro r c
      fin_cases r <;> fin_cases c <;> simp [memcpyRow3, e2]
    · intro c
      fin_cases c <;> simp [memcpyRow3, e2]

/-- C3: when every batch of the current slot points to a node, at the end of
`UpdateConstants` the current slot holds the same batches, and for each of
them: if its node has a rigid body with physics transform S, then
modelMatrix[r][c] = S[r][c] for r, c in 0..2 and modelMatrix[3][c] = S[3][c]
for c in 0..2; if the node has no rigid body, modelMatrix is the calculated
transform of the node in all 16 entries. -/
theorem UpdateConstants_modelMatrix (env : Env) (scene : Scene) (m : Manager)
    (hnode : ∀ p ∈ (m.m_Frames m.m_nFrameIndex).batchContexts, ((m.batchObjects p).node).isSome = true) :
    ((UpdateConstants env scene m).state.m_Frames
        (UpdateConstants env scene m).state.m_nFrameIndex).batchContexts =
      (m.m_Frames m.m_nFrameIndex).batchContexts ∧
    ∀ p ∈ ((UpdateConstants env scene m).state.m_Frames
        (UpdateConstants env scene m).state.m_nFrameIndex).batchContexts,
      ∀ node, ((UpdateConstants env scene m).state.batchObjects p).node = some node →
        match node.rigidBody with
        | some rigidBody =>
          (∀ r c : Fin 3,
            ((UpdateConstants env scene m).state.batchObjects p).modelMatrix r.castSucc c.castSucc =
              env.GetRigidBodyTransform rigidBody r.castSucc c.castSucc) ∧
          (∀ c : Fin 3,
            ((UpdateConstants env scene m).state.batchObjects p).modelMatrix 3 c.castSucc =
              env.GetRigidBodyTransform rigidBody 3 c.castSucc)
        | none =>
          ((UpdateConstants env scene m).state.batchObjects p).modelMatrix = node.calculatedTransform := by
  obtain ⟨m1, hrun, hidx, hfr, hnodes, _, hin⟩ :=
    UpdateConstants.batches_loop env (m.m_Frames m.m_nFrameIndex).batchContexts m hnode
  have hsame := UpdateConstants_rest_sameBatches env scene m1
  have hU : (UpdateConstants env scene m).state =
      ((((Outcome.done m1).andThen (CalculateCameraMatrix env scene)).andThen
        (CalculateLights env scene)).andThen
        (fun m => Outcome.done (SetLightInfo (SetPerBatchConstants (SetPerFrameConstants m))))).state := by
    rw [UpdateConstants_def]; unfold UpdateConstants.batches
    rw [hrun]
  rw [hU]
  obtain ⟨h1, h2, _, h4⟩ := hsame
  have hlist : ∀ x : Manager, x.m_nFrameIndex = m1.m_nFrameIndex →
      (∀ i, (x.m_Frames i).batchContexts = (m1.m_Frames i).batchContexts) →
      (x.m_Frames x.m_nFrameIndex).batchContexts = (m.m_Frames m.m_nFrameIndex).batchContexts := by
    intro x hx1 hx4
    rw [hx1, hx4, hidx, hfr]
  refine ⟨hlist _ h1 h4, ?_⟩
  rw [hlist _ h1 h4, h2]
  intro p hp node hn
  have hn' : (m.batchObjects p).node = some node := by rw [← hnodes p]; exact hn
  rw [hin p hp node hn']
  exact UpdateConstants.blend_entries env node


theorem Manager.oneBox_batches :
    (Manager.oneBox.m_Frames Manager.oneBox.m_nFrameIndex).batchContexts = [0] := by
  decide

/-- C3, on the viewer after loading the scene with the node "box": the one
batch of the current slot points to its node, and the slot keeps it. -/
theorem UpdateConstants_modelMatrix_witness :
    (∀ p ∈ (Manager.oneBox.m_Frames Manager.oneBox.m_nFrameIndex).batchContexts,
      ((Manager.oneBox.batchObjects p).node).isSome = true) ∧
    ((UpdateConstants Env.viewer Scene.oneBox Manager.oneBox).state.m_Frames
        (UpdateConstants Env.viewer Scene.oneBox Manager.oneBox).state.m_nFrameIndex).batchContexts =
      (Manager.oneBox.m_Frames Manager.oneBox.m_nFrameIndex).batchContexts :=
  ⟨by rw [Manager.oneBox_batches]; decide,
   (UpdateConstants_modelMatrix Env.viewer Scene.oneBox Manager.oneBox
      (by rw [Manager.oneBox_batches]; decide)).1⟩


/-! ## Scene build: the batches -/

theorem glGenBuffers_sameBatches (m : Manager) : SameBatches m.glGenBuffers.2 m :=
  ⟨rfl, rfl, rfl, fun _ => rfl⟩

theorem glGenVertexArrays_sameBatches (m : Manager) : SameBatches m.glGenVertexArrays.2 m :=
  ⟨rfl, rfl, rfl, fun _ => rfl⟩

theorem glGenTextures_sameBatches (m : Manager) : SameBatches m.glGenTextures.2 m :=
  ⟨rfl, rfl, rfl, fun _ => rfl⟩

theorem upload_texture_sameBatches (m : Manager) (key : String) :
    SameBatches (upload_texture m key).2 m := by
  unfold upload_texture
  cases m.m_Textures.lookup key with
  | none => exact ⟨rfl, rfl, rfl, fun _ => rfl⟩
  | some id => exact SameBatches.refl m

theorem uploadMap_sameBatches (valueMap : Option String)
    (store : MaterialTextures → Int → MaterialTextures) (st : OpenGLDrawBatchContext × Manager) :
    SameBatches (uploadMap valueMap store st).2 st.2 := by
  unfold uploadMap
  cases valueMap with
  | none => exact SameBatches.refl _
  | some key => exact upload_texture_sameBatches st.2 key

theorem uploadMaterial_sameBatches (material : SceneObjectMaterial)
    (st : OpenGLDrawBatchContext × Manager) : SameBatches (uploadMaterial material st).2 st.2 := by
  unfold uploadMaterial
  exact (uploadMap_sameBatches _ _ _).trans ((uploadMap_sameBatches _ _ _).trans
    ((uploadMap_sameBatches _ _ _).trans ((uploadMap_sameBatches _ _ _).trans
    ((uploadMap_sameBatches _ _ _).trans (uploadMap_sameBatches _ _ _)))))

theorem initializeGeometries.material_sameBatches (env : Env) (scene : Scene)
    (node : SceneGeometryNode) (ia : SceneObjectIndexArray) (m : Manager) :
    SameBatches (initializeGeometries.material env scene node ia m).2 m := by
  unfold initializeGeometries.material
  cases scene.GetMaterial (node.materialRef ia.materialIndex) with
  | none => exact SameBatches.refl m
  | some material => exact uploadMaterial_sameBatches material _

theorem initializeGeometries.vertexBuffers_sameBatches (properties : List VertexDataType)
    (m : Manager) : SameBatches (initializeGeometries.vertexBuffers properties m) m := by
  unfold initializeGeometries.vertexBuffers
  induction properties generalizing m with
  | nil => exact SameBatches.refl m
  | cons a l ih =>
    simp only [List.foldl_cons]
    exact (ih _).trans ⟨rfl, rfl, rfl, fun _ => rfl⟩

theorem appendSlots_succ (m : Manager) (k p : Nat) :
    Function.update (appendSlots k p m).m_Frames k
        { (appendSlots k p m).m_Frames k with
          batchContexts := ((appendSlots k p m).m_Frames k).batchContexts ++ [p] }
      = (appendSlots (k + 1) p m).m_Frames := by
  funext j
  by_cases hj : j = k
  · subst hj
    simp [appendSlots]
  · have h1 : j < k + 1 ↔ j < k := by omega
    simp [appendSlots, Function.update, hj, h1]

/-- The closed form of the loop that pushes a batch into every slot. -/
theorem pushBatch_eq (p : Nat) (m : Manager) (k : Nat) : pushBatch k p m = appendSlots k p m := by
  unfold pushBatch
  induction k with
  | zero => simp [appendSlots]
  | succ k ih =>
    rw [List.range_succ, List.foldl_append, ih]
    simp only [List.foldl_cons, List.foldl_nil, Manager.setFrame]
    have h := appendSlots_succ m k p
    simp only [appendSlots] at h ⊢
    rw [h]

theorem SameBatches.batchIndices {a b : Manager} (h : SameBatches a b) (i : Nat) :
    a.batchIndices i = b.batchIndices i := by
  unfold Manager.batchIndices
  rw [h.2.2.2 i, h.2.1]

theorem SameBatches.wf {a b : Manager} (h : SameBatches a b) (N : Nat) (hb : BatchesWF N b) :
    BatchesWF N a := by
  intro i hi p hp
  rw [h.2.2.2 i] at hp
  rw [h.2.2.1, h.2.1]
  exact hb i hi p hp

theorem Built.of_sameBatches {N : Nat} {m m' : Manager} (h : SameBatches m' m) (hwf : BatchesWF N m)
    (b : Nat) : Built N m m' b 0 :=
  ⟨h.1, h.wf N hwf, fun i _ => by simp [h.batchIndices i]⟩

theorem Built.chain {N : Nat} {m m1 m2 : Manager} {b k k2 : Nat} (h1 : Built N m m1 b k)
    (h2 : Built N m1 m2 (b + k) k2) : Built N m m2 b (k + k2) := by
  refine ⟨h2.1.trans h1.1, h2.2.1, fun i hi => ?_⟩
  rw [h2.2.2 i hi, h1.2.2 i hi, List.append_assoc, List.range'_append_1, Nat.add_comm k2 k]

theorem Built.wellFormed {N : Nat} {m m' : Manager} {b k : Nat} (h : Built N m m' b k) : BatchesWF N m' := h.2.1

/-- Allocating a batch object of index `b` and pushing it into every slot adds
one batch of index `b`. -/
theorem Built.push (N : Nat) (m : Manager) (dbc : OpenGLDrawBatchContext) (hwf : BatchesWF N m)
    (hnode : (dbc.node).isSome = true) :
    Built N m (pushBatch N m.batchObjectCount (m.allocBatch dbc)) dbc.batchIndex 1 := by
  rw [pushBatch_eq]
  have hold : ∀ i, i < N → ∀ p ∈ (m.m_Frames i).batchContexts,
      Function.update m.batchObjects m.batchObjectCount dbc p = m.batchObjects p := by
    intro i hi p hp
    have hne : p ≠ m.batchObjectCount := Nat.ne_of_lt (hwf i hi p hp).1
    simp [Function.update, hne]
  refine ⟨rfl, ?_, ?_⟩
  · intro i hi p hp
    simp only [appendSlots, Manager.allocBatch, hi, if_true, List.mem_append, List.mem_singleton] at hp ⊢
    cases hp with
    | inl h =>
      rw [hold i hi p h]
      exact ⟨Nat.lt_succ_of_lt (hwf i hi p h).1, (hwf i hi p h).2⟩
    | inr h =>
      subst h
      simp [hnode]
  · intro i hi
    have hmap : (m.m_Frames i).batchContexts.map
          (fun q => (Function.update m.batchObjects m.batchObjectCount dbc q).batchIndex) =
        (m.m_Frames i).batchContexts.map (fun q => (m.batchObjects q).batchIndex) :=
      List.map_congr_left (fun q hq => by rw [hold i hi q hq])
    simp only [Manager.batchIndices, appendSlots, Manager.allocBatch, hi, if_true, List.map_append,
      List.map_cons, List.map_nil, Function.update_same]
    rw [hmap]
    rfl

theorem initializeGeometries.indexGroup_built (env : Env) (scene : Scene) (node : SceneGeometryNode)
    (vao : Nat) (mode : GLMode) (st : Nat × Manager) (ia : SceneObjectIndexArray)
    (hwf : BatchesWF env.kMaxInFlightFrameCount st.2) :
    (initializeGeometries.indexGroup env scene node vao mode st ia).1 = st.1 + indexGroupBatches [ia] ∧
    Built env.kMaxInFlightFrameCount st.2
      (initializeGeometries.indexGroup env scene node vao mode st ia).2 st.1 (indexGroupBatches [ia]) := by
  unfold initializeGeometries.indexGroup
  cases ht : glIndexType ia.indexType with
  | none =>
    have hk : indexGroupBatches [ia] = 0 := by simp [indexGroupBatches, ht]
    rw [hk]
    exact ⟨rfl, Built.of_sameBatches (glGenBuffers_sameBatches st.2) hwf st.1⟩
  | some type =>
    have hk : indexGroupBatches [ia] = 1 := by simp [indexGroupBatches, ht]
    rw [hk]
    refine ⟨rfl, ?_⟩
    have hs : SameBatches (initializeGeometries.material env scene node ia
        { st.2.glGenBuffers.2 with m_Buffers := st.2.glGenBuffers.2.m_Buffers ++ [st.2.glGenBuffers.1] }).2
        st.2 :=
      (initializeGeometries.material_sameBatches env scene node ia _).trans ⟨rfl, rfl, rfl, fun _ => rfl⟩
    have h1 := Built.of_sameBatches hs hwf st.1
    have h2 := Built.push env.kMaxInFlightFrameCount _
      { (initializeGeometries.material env scene node ia
          { st.2.glGenBuffers.2 with
            m_Buffers := st.2.glGenBuffers.2.m_Buffers ++ [st.2.glGenBuffers.1] }).1 with
        batchIndex := st.1, vao := vao, mode := mode, type := type, count := static_cast_int32 ia.indexCount,
        node := some node } h1.wellFormed rfl
    have h3 := Built.chain h1 h2
    simpa using h3

theorem indexGroupBatches_cons (ia : SceneObjectIndexArray) (l : List SceneObjectIndexArray) :
    indexGroupBatches (ia :: l) = indexGroupBatches [ia] + indexGroupBatches l := by
  unfold indexGroupBatches
  by_cases h : (glIndexType ia.indexType).isSome = true
  · simp [List.filter_cons, h]; omega
  · simp [List.filter_cons, h]

theorem initializeGeometries.indexGroups_built (env : Env) (scene : Scene) (node : SceneGeometryNode)
    (vao : Nat) (mode : GLMode) :
    ∀ (l : List SceneObjectIndexArray) (st : Nat × Manager),
      BatchesWF env.kMaxInFlightFrameCount st.2 →
      (l.foldl (initializeGeometries.indexGroup env scene node vao mode) st).1 =
          st.1 + indexGroupBatches l ∧
        Built env.kMaxInFlightFrameCount st.2
          (l.foldl (initializeGeometries.indexGroup env scene node vao mode) st).2 st.1
          (indexGroupBatches l) := by
  intro l
  induction l with
  | nil =>
    intro st hwf
    exact ⟨rfl, Built.of_sameBatches (SameBatches.refl _) hwf st.1⟩
  | cons ia l ih =>
    intro st hwf
    obtain ⟨h1, h2⟩ := initializeGeometries.indexGroup_built env scene node vao mode st ia hwf
    obtain ⟨h3, h4⟩ := ih (initializeGeometries.indexGroup env scene node vao mode st ia) h2.wellFormed
    rw [h1] at h3 h4
    simp only [List.foldl_cons]
    rw [indexGroupBatches_cons]
    exact ⟨by rw [h3, Nat.add_assoc], Built.chain h2 h4⟩

/-- One pass of the node loop: it stops without a change when `nodeBatches`
is `none`, and otherwise adds `nodeBatches` batches. -/
theorem initializeGeometries.node_built (env : Env) (scene : Scene) (st : Nat × Manager)
    (entry : Option SceneGeometryNode) (hwf : BatchesWF env.kMaxInFlightFrameCount st.2) :
    match nodeBatches scene entry with
    | none => initializeGeometries.node env scene st entry = Outcome.fault st.2
    | some k => ∃ m', initializeGeometries.node env scene st entry = Outcome.done (st.1 + k, m') ∧
        Built env.kMaxInFlightFrameCount st.2 m' st.1 k := by
  have hrefl : ∃ m', (Outcome.done st : Outcome (Nat × Manager)) = Outcome.done (st.1 + 0, m') ∧
      Built env.kMaxInFlightFrameCount st.2 m' st.1 0 :=
    ⟨st.2, rfl, Built.of_sameBatches (SameBatches.refl _) hwf st.1⟩
  unfold nodeBatches initializeGeometries.node
  cases entry with
  | none => exact hrefl
  | some pGeometryNode =>
    by_cases hv : pGeometryNode.visible = true
    · simp only [hv, if_true]
      cases scene.GetGeometry pGeometryNode.sceneObjectRef with
      | none => rfl
      | some pGeometry =>
        simp only
        cases pGeometry.mesh with
        | none => exact hrefl
        | some pMesh =>
          simp only
          have hs : SameBatches (initializeGeometries.vertexBuffers pMesh.vertexProperties
              st.2.glGenVertexArrays.2) st.2 :=
            (initializeGeometries.vertexBuffers_sameBatches _ _).trans (glGenVertexArrays_sameBatches _)
          have h1 := Built.of_sameBatches hs hwf st.1
          cases glMode pMesh.primitiveType with
          | none => exact ⟨_, rfl, h1⟩
          | some mode =>
            simp only
            obtain ⟨h2, h3⟩ := initializeGeometries.indexGroups_built env scene pGeometryNode
              st.2.glGenVertexArrays.1 mode pMesh.indexArrays
              (st.1, initializeGeometries.vertexBuffers pMesh.vertexProperties st.2.glGenVertexArrays.2)
              h1.wellFormed
            refine ⟨_, ?_, by simpa using Built.chain h1 h3⟩
            rw [← h2]
    · simp only [hv]
      exact hrefl


/-- The node loop: it adds the batches counted by `sceneBatches`, and finishes
exactly when `sceneBatches` says so. -/
theorem initializeGeometries.nodes_built (env : Env) (scene : Scene) :
    ∀ (l : List (Option SceneGeometryNode)) (st : Nat × Manager),
      BatchesWF env.kMaxInFlightFrameCount st.2 →
      ∃ m', l.foldl (fun (o : Outcome (Nat × Manager)) entry =>
              o.andThen (fun st => initializeGeometries.node env scene st entry)) (Outcome.done st) =
            Outcome.ofFlag (sceneBatches scene l).2 (st.1 + (sceneBatches scene l).1, m') m' ∧
        Built env.kMaxInFlightFrameCount st.2 m' st.1 (sceneBatches scene l).1 := by
  intro l
  induction l with
  | nil =>
    intro st hwf
    exact ⟨st.2, rfl, Built.of_sameBatches (SameBatches.refl _) hwf st.1⟩
  | cons entry l ih =>
    intro st hwf
    have hn := initializeGeometries.node_built env scene st entry hwf
    simp only [List.foldl_cons, Outcome.andThen_done, sceneBatches]
    cases hk : nodeBatches scene entry with
    | none =>
      rw [hk] at hn
      simp only at hn
      rw [hn, foldl_andThen_fault]
      exact ⟨st.2, rfl, Built.of_sameBatches (SameBatches.refl _) hwf st.1⟩
    | some k =>
      rw [hk] at hn
      obtain ⟨m1, hrun, hb⟩ := hn
      obtain ⟨m2, hrun2, hb2⟩ := ih (st.1 + k, m1) hb.wellFormed
      refine ⟨m2, ?_, Built.chain hb hb2⟩
      rw [hrun, hrun2]
      simp only [Nat.add_assoc]

theorem initializeGeometries_built (env : Env) (scene : Scene) (m : Manager)
    (hwf : BatchesWF env.kMaxInFlightFrameCount m) :
    ∃ m', initializeGeometries env scene m =
        Outcome.ofFlag (sceneBatches scene scene.GeometryNodes).2 m' m' ∧
      Built env.kMaxInFlightFrameCount m m' 0 (sceneBatches scene scene.GeometryNodes).1 := by
  obtain ⟨m', hrun, hb⟩ := initializeGeometries.nodes_built env scene scene.GeometryNodes (0, m) hwf
  refine ⟨m', ?_, hb⟩
  unfold initializeGeometries
  rw [hrun]
  cases (sceneBatches scene scene.GeometryNodes).2 <;> rfl

theorem setFrame_sameBatches (m : Manager) (i : Nat) (f : Frame)
    (h : f.batchContexts = (m.m_Frames i).batchContexts) : SameBatches (m.setFrame i f) m := by
  refine ⟨rfl, rfl, rfl, fun j => ?_⟩
  by_cases hj : j = i
  · subst hj; simp [Manager.setFrame, h]
  · simp [Manager.setFrame, Function.update, hj]

theorem setFrameContexts_sameBatches (set : DrawFrameContext → DrawFrameContext) (m : Manager)
    (k : Nat) : SameBatches (setFrameContexts k set m) m := by
  unfold setFrameContexts
  induction k with
  | zero => exact SameBatches.refl m
  | succ k ih =>
    rw [List.range_succ, List.foldl_append, List.foldl_cons, List.foldl_nil]
    exact SameBatches.trans (setFrame_sameBatches _ k _ rfl) ih

theorem initializeTerrain_sameBatches (env : Env) (scene : Scene) (m : Manager) :
    SameBatches (initializeTerrain env scene m).state m ∧
    (initializeTerrain env scene m).completes = scene.Terrain := by
  cases hT : scene.Terrain <;>
    simp only [initializeTerrain, hT, Manager.glGenVertexArrays, Manager.glGenBuffers,
      Manager.glGenTextures, ↓reduceIte, Bool.false_eq_true, Outcome.state_done, Outcome.state_fault,
      Outcome.completes, and_true]
  · exact ⟨rfl, rfl, rfl, fun _ => rfl⟩
  · exact (setFrameContexts_sameBatches _ _ _).trans ⟨rfl, rfl, rfl, fun _ => rfl⟩

theorem initializeSkyBox_sameBatches (env : Env) (scene : Scene) (m : Manager) :
    SameBatches (initializeSkyBox env scene m).state m ∧
    (initializeSkyBox env scene m).completes = scene.SkyBox := by
  cases hT : scene.SkyBox <;>
    simp only [initializeSkyBox, hT, Manager.glGenVertexArrays, Manager.glGenBuffers,
      Manager.glGenTextures, ↓reduceIte, Bool.false_eq_true, Outcome.state_done, Outcome.state_fault,
      Outcome.completes, and_true]
  · exact ⟨rfl, rfl, rfl, fun _ => rfl⟩
  · exact SameBatches.trans ⟨rfl, rfl, rfl, fun _ => rfl⟩
      ((setFrameContexts_sameBatches _ _ _).trans ⟨rfl, rfl, rfl, fun _ => rfl⟩)

theorem GraphicsManager.BeginScene_sameBatches (env : Env) (m : Manager) :
    SameBatches (GraphicsManager.BeginScene env m) m := by
  unfold GraphicsManager.BeginScene
  induction env.initPasses generalizing m with
  | nil => exact SameBatches.refl m
  | cons pass l ih =>
    simp only [List.foldl_cons]
    exact (ih _).trans ⟨rfl, rfl, rfl, fun _ => rfl⟩

/-- The batches after `BeginScene`: in every slot the batches held before,
followed by batches of indices 0, 1, ..., one per supported index group; and
`BeginScene` returns exactly on the scenes of `sceneBuilds`. -/
theorem BeginScene_built (env : Env) (scene : Scene) (m : Manager)
    (hwf : BatchesWF env.kMaxInFlightFrameCount m) :
    Built env.kMaxInFlightFrameCount m (BeginScene env scene m).state 0
        (sceneBatches scene scene.GeometryNodes).1 ∧
      (BeginScene env scene m).completes = sceneBuilds scene := by
  have h0 := GraphicsManager.BeginScene_sameBatches env m
  obtain ⟨m1, hrun, hb⟩ := initializeGeometries_built env scene (GraphicsManager.BeginScene env m)
    (h0.wf _ hwf)
  have hb1 : Built env.kMaxInFlightFrameCount m m1 0 (sceneBatches scene scene.GeometryNodes).1 := by
    simpa using Built.chain (Built.of_sameBatches h0 hwf 0) hb
  unfold BeginScene sceneBuilds
  rw [hrun]
  cases (sceneBatches scene scene.GeometryNodes).2 with
  | false => exact ⟨hb1, rfl⟩
  | true =>
    simp only [Outcome.ofFlag, if_true, Outcome.andThen_done, Bool.true_and]
    obtain ⟨ht, htc⟩ := initializeTerrain_sameBatches env scene m1
    cases hT : initializeTerrain env scene m1 with
    | fault m2 =>
      rw [hT] at ht htc
      refine ⟨by simpa using Built.chain hb1 (Built.of_sameBatches ht hb1.wellFormed _), ?_⟩
      simp only [Outcome.andThen_fault]
      rw [← htc]
      rfl
    | done m2 =>
      rw [hT] at ht htc
      obtain ⟨hs, hsc⟩ := initializeSkyBox_sameBatches env scene m2
      simp only [Outcome.andThen_done]
      refine ⟨by simpa using Built.chain hb1 (Built.of_sameBatches (hs.trans ht) hb1.wellFormed _), ?_⟩
      rw [hsc, ← htc]
      rfl


theorem BatchesWF.of_empty (N : Nat) (m : Manager)
    (hm : ∀ i, i < N → (m.m_Frames i).batchContexts = []) : BatchesWF N m := by
  intro i hi p hp
  rw [hm i hi] at hp
  exact absurd hp (List.not_mem_nil p)

theorem BeginScene_batchIndices_of_empty (env : Env) (scene : Scene) (m : Manager)
    (hm : ∀ i, i < env.kMaxInFlightFrameCount → (m.m_Frames i).batchContexts = []) (i : Nat)
    (hi : i < env.kMaxInFlightFrameCount) :
    (BeginScene env scene m).state.batchIndices i =
      List.range' 0 (sceneBatches scene scene.GeometryNodes).1 := by
  have h := (BeginScene_built env scene m (BatchesWF.of_empty _ m hm)).1.2.2 i hi
  rw [h]
  simp [Manager.batchIndices, hm i hi]

theorem EndScene_batchContexts (env : Env) (m : Manager) (i : Nat)
    (hi : i < env.kMaxInFlightFrameCount) : ((EndScene env m).m_Frames i).batchContexts = [] := by
  rw [EndScene_eq]
  simp [Manager.logCalls, tornDown, clearSlots, hi]

/-- C7: from a manager whose slots hold no batch, the sequence
`BeginScene(scene); EndScene(); BeginScene(scene)` leaves in each of the N
slots the same list of batch indices, hence the same number of batches in the
same order, as the first `BeginScene(scene)` alone; and the second
`BeginScene` returns exactly when the first one did. -/
theorem BeginScene_rebuild_same_batches (env : Env) (scene : Scene) (m : Manager)
    (hm : ∀ i, i < env.kMaxInFlightFrameCount → (m.m_Frames i).batchContexts = []) :
    (BeginScene env scene (EndScene env (BeginScene env scene m).state)).completes =
        (BeginScene env scene m).completes ∧
      ∀ i, i < env.kMaxInFlightFrameCount →
        (BeginScene env scene (EndScene env (BeginScene env scene m).state)).state.batchIndices i =
          (BeginScene env scene m).state.batchIndices i := by
  have hE := EndScene_batchContexts env (BeginScene env scene m).state
  constructor
  · rw [(BeginScene_built env scene m (BatchesWF.of_empty _ m hm)).2,
      (BeginScene_built env scene _ (BatchesWF.of_empty _ _ hE)).2]
  · intro i hi
    rw [BeginScene_batchIndices_of_empty env scene m hm i hi,
      BeginScene_batchIndices_of_empty env scene _ hE i hi]

/-- C7, on the viewer with the scene of the node "box": the rebuild leaves one
batch of index 0 in slot 1, as the first build did. -/
theorem BeginScene_rebuild_same_batches_witness :
    (∀ i, i < Env.viewer.kMaxInFlightFrameCount → (Manager.fresh.m_Frames i).batchContexts = []) ∧
    (BeginScene Env.viewer Scene.oneBox Manager.fresh).state.batchIndices 1 = [0] ∧
    (BeginScene Env.viewer Scene.oneBox
        (EndScene Env.viewer (BeginScene Env.viewer Scene.oneBox Manager.fresh).state)).state.batchIndices 1 =
      (BeginScene Env.viewer Scene.oneBox Manager.fresh).state.batchIndices 1 :=
  ⟨fun _ _ => rfl, by decide,
   (BeginScene_rebuild_same_batches Env.viewer Scene.oneBox Manager.fresh (fun _ _ => rfl)).2 1
     (by decide)⟩


/-! ## Lights: the count -/

theorem CalculateLights.finish_spec (env : Env) (m : Manager) (n : Nat) (light : Light)
    (view projection : Matrix4X4f) :
    (CalculateLights.finish env m n light view projection).m_nFrameIndex = m.m_nFrameIndex ∧
    (CalculateLights.finish env m n light view projection).numLights = m.numLights + 1 ∧
    ((CalculateLights.finish env m n light view projection).lights n).lightGuid = light.lightGuid ∧
    ∀ j, j ≠ n → (CalculateLights.finish env m n light view projection).lights j = m.lights j := by
  refine ⟨rfl, ?_, ?_, ?_⟩
  · simp [CalculateLights.finish, Manager.numLights, Manager.setFrameContext, Manager.setLight,
      Manager.setFrame]
  · simp [CalculateLights.finish, Manager.lights, Manager.setFrameContext, Manager.setLight,
      Manager.setFrame]
  · intro j hj
    simp [CalculateLights.finish, Manager.lights, Manager.setFrameContext, Manager.setLight,
      Manager.setFrame, Function.update, hj]

theorem CalculateLights.local_spec (env : Env) (m : Manager) (n : Nat) (light : Light)
    (type : SceneObjectLightType) :
    (CalculateLights.local env m n light type).m_nFrameIndex = m.m_nFrameIndex ∧
    (CalculateLights.local env m n light type).numLights = m.numLights + 1 ∧
    ((CalculateLights.local env m n light type).lights n).lightGuid = light.lightGuid ∧
    ∀ j, j ≠ n → (CalculateLights.local env m n light type).lights j = m.lights j := by
  unfold CalculateLights.local
  cases type <;> exact CalculateLights.finish_spec _ _ _ _ _ _

theorem CalculateLights.infinity_spec (env : Env) (m : Manager) (n : Nat) (light : Light)
    (nearClip farClip : Scalar) (target : Vector4f) :
    (CalculateLights.infinity env m n light nearClip farClip target).m_nFrameIndex = m.m_nFrameIndex ∧
    (CalculateLights.infinity env m n light nearClip farClip target).numLights = m.numLights + 1 ∧
    ((CalculateLights.infinity env m n light nearClip farClip target).lights n).lightGuid =
      light.lightGuid ∧
    ∀ j, j ≠ n → (CalculateLights.infinity env m n light nearClip farClip target).lights j =
      m.lights j := by
  unfold CalculateLights.infinity
  exact CalculateLights.finish_spec _ _ _ _ _ _

/-- The loop body of `CalculateLights`: with `assert` active it returns exactly
on the entries of `lightNodeOk`, and it returns on these entries in every
build; an expired node changes nothing, and a node whose light resolves is
written to `lights[numLights]`, the count growing by one, whatever the count
is. -/
theorem CalculateLights.node_spec (env : Env) (scene : Scene) (m : Manager)
    (entry : Option SceneLightNode) :
    (env.NDEBUG = false ∨ lightNodeOk scene entry = true →
      (CalculateLights.node env scene m entry).completes = lightNodeOk scene entry) ∧
    match entry with
    | none => CalculateLights.node env scene m entry = Outcome.done m
    | some pLightNode =>
      ∀ pLight, scene.GetLight pLightNode.sceneObjectRef = some pLight →
        lightNodeOk scene entry = true →
        ∃ m', CalculateLights.node env scene m entry = Outcome.done m' ∧
          m'.m_nFrameIndex = m.m_nFrameIndex ∧ m'.numLights = m.numLights + 1 ∧
          (m'.lights m.numLights).lightGuid = pLight.guid ∧
          ∀ j, j ≠ m.numLights → m'.lights j = m.lights j := by
  cases entry with
  | none => exact ⟨fun _ => rfl, rfl⟩
  | some pLightNode =>
    simp only [CalculateLights.node, lightNodeOk]
    cases hl : scene.GetLight pLightNode.sceneObjectRef with
    | none =>
      refine ⟨?_, ?_⟩
      · intro h
        rcases h with h | h
        · simp [h, Outcome.completes]
        · exact absurd h (by simp)
      · intro pLight h
        exact absurd h (by simp)
    | some pLight =>
      simp only
      cases ht : pLight.type with
      | kSceneObjectTypeLightInfi =>
        simp only
        cases hc : scene.GetFirstCameraNode with
        | none =>
          refine ⟨fun _ => rfl, ?_⟩
          intro pLight2 h2 _
          have he : pLight2 = pLight := (Option.some.inj h2).symm
          subst he
          exact ⟨_, rfl, CalculateLights.infinity_spec _ _ _ _ _ _ _⟩
        | some pCameraNode =>
          simp only
          cases hg : scene.GetCamera pCameraNode.sceneObjectRef with
          | none =>
            refine ⟨fun _ => rfl, ?_⟩
            intro pLight2 _ h3
            exact absurd h3 (by simp)
          | some pCamera =>
            refine ⟨fun _ => rfl, ?_⟩
            intro pLight2 h2 _
            have he : pLight2 = pLight := (Option.some.inj h2).symm
            subst he
            exact ⟨_, rfl, CalculateLights.infinity_spec _ _ _ _ _ _ _⟩
      | kSceneObjectTypeLightSpot curve =>
        refine ⟨fun _ => rfl, ?_⟩
        intro pLight2 h2 _
        have he : pLight2 = pLight := (Option.some.inj h2).symm
        subst he
        exact ⟨_, rfl, CalculateLights.local_spec _ _ _ _ _⟩
      | kSceneObjectTypeLightArea dimension =>
        refine ⟨fun _ => rfl, ?_⟩
        intro pLight2 h2 _
        have he : pLight2 = pLight := (Option.some.inj h2).symm
        subst he
        exact ⟨_, rfl, CalculateLights.local_spec _ _ _ _ _⟩
      | kSceneObjectTypeLightOmni =>
        refine ⟨fun _ => rfl, ?_⟩
        intro pLight2 h2 _
        have he : pLight2 = pLight := (Option.some.inj h2).symm
        subst he
        exact ⟨_, rfl, CalculateLights.local_spec _ _ _ _ _⟩


theorem Outcome.completes_eq_true {α : Type} (o : Outcome α) (h : o.completes = true) :
    ∃ a, o = Outcome.done a := by
  cases o with
  | done a => exact ⟨a, rfl⟩
  | fault m => exact absurd h (by simp [Outcome.completes])

/-- The light loop returns when every entry is one on which the body returns. -/
theorem CalculateLights.loop_done (env : Env) (scene : Scene) :
    ∀ (l : List (Option SceneLightNode)) (m : Manager), l.all (lightNodeOk scene) = true →
      ∃ m', l.foldl (fun (o : Outcome Manager) LightNode =>
        o.andThen (fun m => CalculateLights.node env scene m LightNode)) (Outcome.done m) =
          Outcome.done m' := by
  intro l
  induction l with
  | nil => intro m _; exact ⟨m, rfl⟩
  | cons e l ih =>
    intro m h
    simp only [List.all_cons, Bool.and_eq_true] at h
    obtain ⟨m1, h1⟩ := Outcome.completes_eq_true _
      (((CalculateLights.node_spec env scene m e).1 (Or.inr h.1)).trans h.1)
    obtain ⟨m2, h2⟩ := ih m1 h.2
    exact ⟨m2, by simp only [List.foldl_cons, Outcome.andThen_done, h1, h2]⟩

/-- The light loop on entries that are all live and resolve to lights of guid
`g`: the count grows by the number of entries, and each of them is written at
the index the count had, without any bound. -/
theorem CalculateLights.loop_count (env : Env) (scene : Scene) (g : Nat) :
    ∀ (l : List (Option SceneLightNode)) (m : Manager),
      (∀ e ∈ l, ∃ node pLight, e = some node ∧ scene.GetLight node.sceneObjectRef = some pLight ∧
        lightNodeOk scene e = true ∧ pLight.guid = g) →
      ∃ m', l.foldl (fun (o : Outcome Manager) LightNode =>
          o.andThen (fun m => CalculateLights.node env scene m LightNode)) (Outcome.done m) =
            Outcome.done m' ∧
        m'.m_nFrameIndex = m.m_nFrameIndex ∧ m'.numLights = m.numLights + l.length ∧
        (∀ j, j < m.numLights → m'.lights j = m.lights j) ∧
        (∀ j, m.numLights ≤ j → j < m.numLights + l.length → (m'.lights j).lightGuid = g) := by
  intro l
  induction l with
  | nil =>
    intro m _
    exact ⟨m, rfl, rfl, rfl, fun _ _ => rfl, fun j h1 h2 => absurd h2 (by simp; omega)⟩
  | cons e l ih =>
    intro m h
    obtain ⟨node, pLight, he, hl, hok, hg⟩ := h e (List.mem_cons_self e l)
    have hspec := (CalculateLights.node_spec env scene m e).2
    rw [he] at hspec hok
    obtain ⟨m1, hrun, hidx, hcount, hguid, hother⟩ := hspec pLight hl hok
    obtain ⟨m2, hrun2, hidx2, hcount2, hlow2, hnew2⟩ :=
      ih m1 (fun e2 h2 => h e2 (List.mem_cons_of_mem e h2))
    refine ⟨m2, ?_, hidx2.trans hidx, ?_, ?_, ?_⟩
    · simp only [List.foldl_cons, Outcome.andThen_done]
      rw [he, hrun]
      exact hrun2
    · rw [hcount2, hcount, List.length_cons]
      omega
    · intro j hj
      rw [hlow2 j (by omega), hother j (by omega)]
    · intro j h1 h2
      rw [List.length_cons] at h2
      by_cases hj : j = m.numLights
      · rw [hj, hlow2 m.numLights (by omega), hguid, hg]
      · exact hnew2 j (by omega) (by omega)

/-- C2 (the code on the failing input): for every capacity `MaxLights`, on a
scene with `MaxLights + 1` live light nodes whose light resolves,
`CalculateLights` returns with `numLights = MaxLights + 1`, above the
capacity, and it has written the last light to `lights[MaxLights]`, one past
the end of the array. -/
theorem CalculateLights_exceeds_MaxLights (env : Env) (m : Manager) (MaxLights : Nat) :
    ∃ m', CalculateLights env (Scene.manyLights (MaxLights + 1)) m = Outcome.done m' ∧
      m'.numLights = MaxLights + 1 ∧ (m'.lights MaxLights).lightGuid = 42 := by
  have hall : ∀ e ∈ (Scene.manyLights (MaxLights + 1)).LightNodes, ∃ node pLight, e = some node ∧
      (Scene.manyLights (MaxLights + 1)).GetLight node.sceneObjectRef = some pLight ∧
      lightNodeOk (Scene.manyLights (MaxLights + 1)) e = true ∧ pLight.guid = 42 := by
    intro e he
    have h := List.eq_of_mem_replicate he
    have hget : (Scene.manyLights (MaxLights + 1)).GetLight "lamp" = some SceneObjectLight.lamp := by
      simp [Scene.manyLights, Scene.GetLight, Scene.empty, List.lookup]
    refine ⟨{ calculatedTransform := identityMatrix, sceneObjectRef := "lamp" },
      SceneObjectLight.lamp, h, hget, ?_, rfl⟩
    rw [h]
    simp [lightNodeOk, hget, SceneObjectLight.lamp]
  obtain ⟨m', hrun, _, hcount, _, hnew⟩ := CalculateLights.loop_count env _ 42 _
    (m.setFrameContext { (m.m_Frames m.m_nFrameIndex).frameContext with numLights := 0 }) hall
  have h0 : (m.setFrameContext
      { (m.m_Frames m.m_nFrameIndex).frameContext with numLights := 0 }).numLights = 0 := by
    simp [Manager.numLights, Manager.setFrameContext, Manager.setFrame]
  have hlen : (Scene.manyLights (MaxLights + 1)).LightNodes.length = MaxLights + 1 := by
    simp [Scene.manyLights]
  rw [h0, hlen] at hcount hnew
  refine ⟨m', hrun, by omega, hnew MaxLights (by omega) (by omega)⟩


/-! ## The frame loop: theorems -/

theorem CalculateCameraMatrix_completes (env : Env) (scene : Scene) (m : Manager) :
    (CalculateCameraMatrix env scene m).completes = cameraOk scene := by
  unfold CalculateCameraMatrix cameraOk
  cases scene.GetFirstCameraNode with
  | none => rfl
  | some node =>
    simp only
    cases scene.GetCamera node.sceneObjectRef with
    | none => rfl
    | some cam =>
      by_cases hc : cam.perspective = true
      · simp [hc, Outcome.completes]
      · simp [hc, Outcome.completes]

theorem UpdateConstants.batch_keeps (env : Env) (m : Manager) (pDbc : Nat) :
    (UpdateConstants.batch env m pDbc).state.m_nFrameIndex = m.m_nFrameIndex ∧
    (UpdateConstants.batch env m pDbc).state.batchObjectCount = m.batchObjectCount := by
  unfold UpdateConstants.batch
  cases (m.batchObjects pDbc).node with
  | none => exact ⟨rfl, rfl⟩
  | some node =>
    simp only
    cases node.rigidBody <;> exact ⟨rfl, rfl⟩

theorem UpdateConstants.batches_keeps (env : Env) (m : Manager) :
    (UpdateConstants.batches env m).state.m_nFrameIndex = m.m_nFrameIndex ∧
    (UpdateConstants.batches env m).state.batchObjectCount = m.batchObjectCount := by
  unfold UpdateConstants.batches
  exact foldl_andThen_state_inv
    (fun m' => m'.m_nFrameIndex = m.m_nFrameIndex ∧ m'.batchObjectCount = m.batchObjectCount)
    (UpdateConstants.batch env)
    (fun m1 a h => ⟨(UpdateConstants.batch_keeps env m1 a).1.trans h.1,
      (UpdateConstants.batch_keeps env m1 a).2.trans h.2⟩) _ m ⟨rfl, rfl⟩

theorem UpdateConstants_index (env : Env) (scene : Scene) (m : Manager) :
    (UpdateConstants env scene m).state.m_nFrameIndex = m.m_nFrameIndex := by
  rw [UpdateConstants_def]
  cases hb : UpdateConstants.batches env m with
  | fault m1 =>
    have h := (UpdateConstants.batches_keeps env m).1
    rw [hb] at h
    exact h
  | done m1 =>
    have h := (UpdateConstants.batches_keeps env m).1
    rw [hb] at h
    exact (UpdateConstants_rest_sameBatches env scene m1).1.trans h

/-- On a well-formed state and a scene on which the camera and light
computations return, `UpdateConstants` returns and keeps the batches. -/
theorem UpdateConstants_done (env : Env) (scene : Scene) (m : Manager)
    (hwf : BatchesWF env.kMaxInFlightFrameCount m)
    (hi : m.m_nFrameIndex < env.kMaxInFlightFrameCount) (hcam : cameraOk scene = true)
    (hlights : scene.LightNodes.all (lightNodeOk scene) = true) :
    ∃ m', UpdateConstants env scene m = Outcome.done m' ∧
      BatchesWF env.kMaxInFlightFrameCount m' := by
  obtain ⟨m1, hrun, hidx, hfr, hnodes, _, _⟩ := UpdateConstants.batches_loop env
    (m.m_Frames m.m_nFrameIndex).batchContexts m (fun p hp => (hwf _ hi p hp).2)
  have hcount : m1.batchObjectCount = m.batchObjectCount := by
    have h := (UpdateConstants.batches_keeps env m).2
    unfold UpdateConstants.batches at h
    rw [hrun] at h
    exact h
  have hwf1 : BatchesWF env.kMaxInFlightFrameCount m1 := by
    intro i hi2 p hp
    rw [hfr] at hp
    rw [hcount, hnodes p]
    exact hwf i hi2 p hp
  obtain ⟨m2, h2⟩ := Outcome.completes_eq_true _
    ((CalculateCameraMatrix_completes env scene m1).trans hcam)
  have hs2 : SameBatches m2 m1 := by
    have h := CalculateCameraMatrix_sameBatches env scene m1
    rw [h2] at h
    exact h
  obtain ⟨m3, h3⟩ := CalculateLights.loop_done env scene scene.LightNodes
    (m2.setFrameContext { (m2.m_Frames m2.m_nFrameIndex).frameContext with numLights := 0 }) hlights
  have h3' : CalculateLights env scene m2 = Outcome.done m3 := h3
  have hs3 : SameBatches m3 m2 := by
    have h := CalculateLights_sameBatches env scene m2
    rw [h3'] at h
    exact h
  refine ⟨SetLightInfo (SetPerBatchConstants (SetPerFrameConstants m3)), ?_, ?_⟩
  · rw [UpdateConstants_def]; unfold UpdateConstants.batches
    rw [hrun]
    simp only [Outcome.andThen_done, h2, h3']
  · exact ((((SetLightInfo_sameBatches _).trans (SetPerBatchConstants_sameBatches _)).trans
      (SetPerFrameConstants_sameBatches _)).trans (hs3.trans hs2)).wf _ hwf1

theorem runDrawPass_sameBatches (m : Manager) (pass : Manager → Manager) :
    SameBatches (runDrawPass m pass) m := by
  refine ⟨rfl, rfl, rfl, fun i => ?_⟩
  by_cases hi : i = m.m_nFrameIndex
  · simp [runDrawPass, hi]
  · simp [runDrawPass, hi]

theorem Draw_sameBatches (env : Env) (m : Manager) : SameBatches (Draw env m) m := by
  rw [Draw_def]
  induction env.drawPasses generalizing m with
  | nil => exact SameBatches.refl m
  | cons pass l ih =>
    simp only [List.foldl_cons]
    exact (ih _).trans (runDrawPass_sameBatches m pass)

theorem EndScene_index (env : Env) (m : Manager) :
    (EndScene env m).m_nFrameIndex = m.m_nFrameIndex := by
  rw [EndScene_eq]
  rfl

/-- The scene rebuild of `Tick`: the state reached is well formed and has the
frame index of the start, and the rebuild returns on the scenes of `sceneBuilds`. -/
theorem rebuild_spec (env : Env) (scene : Scene) (m : Manager) :
    (BeginScene env scene (EndScene env m)).state.m_nFrameIndex = m.m_nFrameIndex ∧
    BatchesWF env.kMaxInFlightFrameCount (BeginScene env scene (EndScene env m)).state ∧
    (BeginScene env scene (EndScene env m)).completes = sceneBuilds scene := by
  obtain ⟨hb, hc⟩ := BeginScene_built env scene (EndScene env m)
    (BatchesWF.of_empty _ _ (EndScene_batchContexts env m))
  exact ⟨hb.1.trans (EndScene_index env m), hb.wellFormed, hc⟩


/-- What `Tick` does after the optional rebuild, started in state `m1`. -/
theorem Tick_after_rebuild (env : Env) (scene : Scene) (m1 : Manager) :
    (∀ m', ((UpdateConstants env scene m1).andThen (fun m =>
        Outcome.done { Draw env m with
          m_nFrameIndex := ((Draw env m).m_nFrameIndex + 1) % env.kMaxInFlightFrameCount })) =
          Outcome.done m' →
      m'.m_nFrameIndex = (m1.m_nFrameIndex + 1) % env.kMaxInFlightFrameCount) ∧
    (BatchesWF env.kMaxInFlightFrameCount m1 → m1.m_nFrameIndex < env.kMaxInFlightFrameCount →
      cameraOk scene = true → scene.LightNodes.all (lightNodeOk scene) = true →
      ∃ m', ((UpdateConstants env scene m1).andThen (fun m =>
        Outcome.done { Draw env m with
          m_nFrameIndex := ((Draw env m).m_nFrameIndex + 1) % env.kMaxInFlightFrameCount })) =
          Outcome.done m' ∧ BatchesWF env.kMaxInFlightFrameCount m') := by
  constructor
  · intro m' h
    have hidx := UpdateConstants_index env scene m1
    cases hU : UpdateConstants env scene m1 with
    | fault m2 =>
      rw [hU] at h
      exact absurd h (by simp)
    | done m2 =>
      rw [hU] at h hidx
      simp only [Outcome.andThen_done, Outcome.done.injEq] at h
      rw [← h]
      simp only [Outcome.state_done] at hidx
      show ((Draw env m2).m_nFrameIndex + 1) % env.kMaxInFlightFrameCount = _
      rw [(Draw_sameBatches env m2).1, hidx]
  · intro hwf hi hcam hlights
    obtain ⟨m2, hU, hwf2⟩ := UpdateConstants_done env scene m1 hwf hi hcam hlights
    refine ⟨_, by rw [hU]; rfl, ?_⟩
    exact (Draw_sameBatches env m2).wf _ hwf2

theorem Tick_eq (env : Env) (changed : Bool) (scene : Scene) (m : Manager) :
    Tick env changed scene m =
      (if changed then BeginScene env scene (EndScene env m) else Outcome.done m).andThen
        (fun m1 => (UpdateConstants env scene m1).andThen (fun m =>
          Outcome.done { Draw env m with
            m_nFrameIndex := ((Draw env m).m_nFrameIndex + 1) % env.kMaxInFlightFrameCount })) := by
  rw [Tick_def]
  cases changed with
  | false => rfl
  | true =>
    simp only [if_true]
    cases BeginScene env scene (EndScene env m) <;> rfl

/-- One `Tick` that returns has advanced the frame index by one, modulo the
number of slots. -/
theorem Tick_index (env : Env) (changed : Bool) (scene : Scene) (m m' : Manager)
    (h : Tick env changed scene m = Outcome.done m') :
    m'.m_nFrameIndex = (m.m_nFrameIndex + 1) % env.kMaxInFlightFrameCount := by
  rw [Tick_eq] at h
  cases changed with
  | false =>
    simp only [Bool.false_eq_true, if_false, Outcome.andThen_done] at h
    exact (Tick_after_rebuild env scene m).1 m' h
  | true =>
    simp only [if_true] at h
    have hr := (rebuild_spec env scene m).1
    cases hB : BeginScene env scene (EndScene env m) with
    | fault m1 =>
      rw [hB] at h
      exact absurd h (by simp)
    | done m1 =>
      rw [hB] at h hr
      simp only [Outcome.andThen_done] at h
      simp only [Outcome.state_done] at hr
      rw [← hr]
      exact (Tick_after_rebuild env scene m1).1 m' h

/-- One `Tick` returns when the state is well formed and the answers of the
scene manager satisfy `TickOk`; the state it returns is well formed. -/
theorem Tick_done (env : Env) (t : Bool × Scene) (m : Manager)
    (hwf : BatchesWF env.kMaxInFlightFrameCount m)
    (hi : m.m_nFrameIndex < env.kMaxInFlightFrameCount) (hok : TickOk t = true) :
    ∃ m', Tick env t.1 t.2 m = Outcome.done m' ∧ BatchesWF env.kMaxInFlightFrameCount m' := by
  simp only [TickOk, Bool.and_eq_true, Bool.or_eq_true, Bool.not_eq_true'] at hok
  obtain ⟨⟨hbuild, hcam⟩, hlights⟩ := hok
  rw [Tick_eq]
  cases hc : t.1 with
  | false =>
    simp only [Bool.false_eq_true, if_false, Outcome.andThen_done]
    exact (Tick_after_rebuild env t.2 m).2 hwf hi hcam hlights
  | true =>
    simp only [if_true]
    have hb : sceneBuilds t.2 = true := by
      cases hbuild with
      | inl h => rw [hc] at h; exact absurd h (by simp)
      | inr h => exact h
    obtain ⟨hidx, hwf1, hcomp⟩ := rebuild_spec env t.2 m
    obtain ⟨m1, hB⟩ := Outcome.completes_eq_true _ (hcomp.trans hb)
    rw [hB] at hidx hwf1 ⊢
    simp only [Outcome.state_done] at hidx hwf1
    simp only [Outcome.andThen_done]
    exact (Tick_after_rebuild env t.2 m1).2 hwf1 (by rw [hidx]; exact hi) hcam hlights

theorem runTicks_cons (env : Env) (t : Bool × Scene) (ticks : List (Bool × Scene)) (m : Manager) :
    runTicks env (t :: ticks) m =
      (Tick env t.1 t.2 m).andThen (runTicks env ticks) := by
  unfold runTicks
  simp only [List.foldl_cons, Outcome.andThen_done]
  cases Tick env t.1 t.2 m with
  | done m1 => rfl
  | fault m1 => simp [foldl_andThen_fault]

/-- Consecutive ticks that all return advance the frame index by their number,
modulo the number of slots. -/
theorem runTicks_index (env : Env) :
    ∀ (ticks : List (Bool × Scene)) (m m' : Manager),
      m.m_nFrameIndex < env.kMaxInFlightFrameCount → runTicks env ticks m = Outcome.done m' →
      m'.m_nFrameIndex = (m.m_nFrameIndex + ticks.length) % env.kMaxInFlightFrameCount := by
  intro ticks
  induction ticks with
  | nil =>
    intro m m' hi h
    have hm : m' = m := by
      simp only [runTicks, List.foldl_nil, Outcome.done.injEq] at h
      exact h.symm
    rw [hm, List.length_nil, Nat.add_zero, Nat.mod_eq_of_lt hi]
  | cons t ticks ih =>
    intro m m' hi h
    rw [runTicks_cons] at h
    cases hT : Tick env t.1 t.2 m with
    | fault m1 =>
      rw [hT] at h
      exact absurd h (by simp)
    | done m1 =>
      rw [hT] at h
      simp only [Outcome.andThen_done] at h
      have h1 := Tick_index env t.1 t.2 m m1 hT
      have hlt : m1.m_nFrameIndex < env.kMaxInFlightFrameCount := by
        rw [h1]
        exact Nat.mod_lt _ (Nat.lt_of_le_of_lt (Nat.zero_le _) hi)
      rw [ih m1 m' hlt h, h1, List.length_cons, Nat.mod_add_mod]
      congr 1
      omega

/-- Consecutive ticks all return when the state is well formed and every
answer of the scene manager satisfies `TickOk`. -/
theorem runTicks_done (env : Env) :
    ∀ (ticks : List (Bool × Scene)) (m : Manager),
      BatchesWF env.kMaxInFlightFrameCount m → m.m_nFrameIndex < env.kMaxInFlightFrameCount →
      (∀ t ∈ ticks, TickOk t = true) → (runTicks env ticks m).completes = true := by
  intro ticks
  induction ticks with
  | nil => intro m _ _ _; rfl
  | cons t ticks ih =>
    intro m hwf hi hok
    obtain ⟨m1, hT, hwf1⟩ := Tick_done env t m hwf hi (hok t (List.mem_cons_self t ticks))
    have h1 := Tick_index env t.1 t.2 m m1 hT
    have hlt : m1.m_nFrameIndex < env.kMaxInFlightFrameCount := by
      rw [h1]
      exact Nat.mod_lt _ (Nat.lt_of_le_of_lt (Nat.zero_le _) hi)
    rw [runTicks_cons, hT]
    exact ih m1 hwf1 hlt (fun t2 h2 => hok t2 (List.mem_cons_of_mem t h2))

/-- C1: ring invariant of `Tick`.  From every manager state whose frame index
is below N = kMaxInFlightFrameCount, N consecutive calls of `Tick` that return
leave the frame index where it was, whatever each tick saw of a scene change;
and the N calls do return when the batches of the starting state point to
their nodes and each scene answered can be built (if changed) and has
resolvable camera and lights. -/
theorem Tick_ring_invariant (env : Env) (m : Manager) (ticks : List (Bool × Scene))
    (hi : m.m_nFrameIndex < env.kMaxInFlightFrameCount)
    (hlen : ticks.length = env.kMaxInFlightFrameCount) :
    (∀ m', runTicks env ticks m = Outcome.done m' → m'.m_nFrameIndex = m.m_nFrameIndex) ∧
    (BatchesWF env.kMaxInFlightFrameCount m → (∀ t ∈ ticks, TickOk t = true) →
      ∃ m', runTicks env ticks m = Outcome.done m' ∧ m'.m_nFrameIndex = m.m_nFrameIndex) := by
  have hring : ∀ m', runTicks env ticks m = Outcome.done m' → m'.m_nFrameIndex = m.m_nFrameIndex := by
    intro m' h
    rw [runTicks_index env ticks m m' hi h, hlen, Nat.add_mod_right, Nat.mod_eq_of_lt hi]
  refine ⟨hring, fun hwf hok => ?_⟩
  obtain ⟨m', h⟩ := Outcome.completes_eq_true _ (runTicks_done env ticks m hwf hi hok)
  exact ⟨m', h, hring m' h⟩

/-- C1, on the viewer (two slots): a tick that sees a scene change to the
scene of the node "box" and a tick that sees none return and leave the frame
index at 0. -/
theorem Tick_ring_invariant_witness :
    Manager.fresh.m_nFrameIndex < Env.viewer.kMaxInFlightFrameCount ∧
    [(true, Scene.oneBox), (false, Scene.oneBox)].length = Env.viewer.kMaxInFlightFrameCount ∧
    BatchesWF Env.viewer.kMaxInFlightFrameCount Manager.fresh ∧
    (∀ t ∈ [(true, Scene.oneBox), (false, Scene.oneBox)], TickOk t = true) ∧
    ∃ m', runTicks Env.viewer [(true, Scene.oneBox), (false, Scene.oneBox)] Manager.fresh =
        Outcome.done m' ∧ m'.m_nFrameIndex = Manager.fresh.m_nFrameIndex :=
  ⟨by decide, rfl, BatchesWF.of_empty _ _ (fun _ _ => rfl), by decide,
   (Tick_ring_invariant Env.viewer Manager.fresh [(true, Scene.oneBox), (false, Scene.oneBox)]
      (by decide) rfl).2 (BatchesWF.of_empty _ _ (fun _ _ => rfl)) (by decide)⟩


/-! ## Scene teardown on an example -/

/-- C8 (the code on the failing input): the viewer loads a scene whose one
mesh has an index group of unsupported type, ticks twice, and calls
`EndScene`.  Seventeen objects were generated; `EndScene` deletes thirteen.
The index buffer 2 of the skipped index group, the vertex array 1 of the mesh
that yields no batch, and the two light-info buffers 9 and 12 of
`SetLightInfo` are never passed to a delete call. -/
theorem EndScene_leaks_handles :
    Manager.afterTwoTicks.gl.calls =
      [.glGenVertexArrays 1, .glGenBuffers 1, .glGenBuffers 2, .glGenVertexArrays 2,
       .glGenBuffers 3, .glGenBuffers 4, .glGenTextures 1, .glGenTextures 2,
       .glGenVertexArrays 3, .glGenBuffers 5, .glGenBuffers 6, .glGenBuffers 7, .glGenBuffers 8,
       .glGenBuffers 9, .glGenBuffers 10, .glGenBuffers 11, .glGenBuffers 12] ∧
    Manager.afterTeardown.gl.calls = Manager.afterTwoTicks.gl.calls ++
      [.glDeleteBuffers 7, .glDeleteBuffers 8, .glDeleteBuffers 10, .glDeleteBuffers 11,
       .glDeleteVertexArrays 2, .glDeleteVertexArrays 3, .glDeleteBuffers 1, .glDeleteBuffers 3,
       .glDeleteBuffers 4, .glDeleteBuffers 5, .glDeleteBuffers 6, .glDeleteTextures 1,
       .glDeleteTextures 2] ∧
    Manager.afterTwoTicks.m_uboLightInfo 0 = 9 ∧ Manager.afterTwoTicks.m_uboLightInfo 1 = 12 ∧
    GLCall.glDeleteBuffers 9 ∉ Manager.afterTeardown.gl.calls ∧
    GLCall.glDeleteBuffers 12 ∉ Manager.afterTeardown.gl.calls ∧
    GLCall.glDeleteBuffers 2 ∉ Manager.afterTeardown.gl.calls ∧
    GLCall.glDeleteVertexArrays 1 ∉ Manager.afterTeardown.gl.calls := by
  decide

/-- C9 (the code on the failing input): after two ticks and `EndScene` on the
viewer, with the frame index at 0, the handle fields still hold the names that
this `EndScene` released: the per-frame buffer 7 and the per-batch buffer 8 of
slot 0, the sky box texture 2 and the terrain texture 1 in the frame context,
the vertex arrays 3 and 2 of sky box and terrain.  A following
`SetPerFrameConstants` or `SetPerBatchConstants` generates nothing and binds
the released buffer. -/
theorem EndScene_leaves_released_handles :
    Manager.afterTeardown.m_nFrameIndex = 0 ∧
    (GLCall.glDeleteBuffers 7 ∈ Manager.afterTeardown.gl.calls ∧
      Manager.afterTeardown.m_uboDrawFrameConstant 0 = 7 ∧
      SetPerFrameConstants.bound Manager.afterTeardown = 7 ∧
      (SetPerFrameConstants Manager.afterTeardown).gl.calls = Manager.afterTeardown.gl.calls) ∧
    (GLCall.glDeleteBuffers 8 ∈ Manager.afterTeardown.gl.calls ∧
      Manager.afterTeardown.m_uboDrawBatchConstant 0 = 8 ∧
      SetPerBatchConstants.bound Manager.afterTeardown = 8 ∧
      (SetPerBatchConstants Manager.afterTeardown).gl.calls = Manager.afterTeardown.gl.calls) ∧
    (GLCall.glDeleteTextures 2 ∈ Manager.afterTeardown.gl.calls ∧
      (Manager.afterTeardown.m_Frames 0).frameContext.skybox = 2) ∧
    (GLCall.glDeleteTextures 1 ∈ Manager.afterTeardown.gl.calls ∧
      (Manager.afterTeardown.m_Frames 0).frameContext.terrainHeightMap = 1) ∧
    (GLCall.glDeleteVertexArrays 3 ∈ Manager.afterTeardown.gl.calls ∧
      Manager.afterTeardown.m_SkyBoxDrawBatchContext.vao = 3) ∧
    (GLCall.glDeleteVertexArrays 2 ∈ Manager.afterTeardown.gl.calls ∧
      Manager.afterTeardown.m_TerrainDrawBatchContext.vao = 2) := by
  decide

/-! ## Lights: what is passed to the builders -/

theorem CalculateLights.finish_light (env : Env) (m : Manager) (n : Nat) (light : Light)
    (view projection : Matrix4X4f) :
    (CalculateLights.finish env m n light view projection).lights n =
      { light with lightVP := env.MatrixMultiply view projection } := by
  simp [CalculateLights.finish, Manager.lights, Manager.setFrameContext, Manager.setLight,
    Manager.setFrame]

theorem CalculateLights.infinity_eq (env : Env) (m : Manager) (n : Nat) (light : Light)
    (nearClip farClip : Scalar) (target : Vector4f) :
    CalculateLights.infinity env m n light nearClip farClip target =
      CalculateLights.finish env m n
        { light with lightPosition :=
            Function.update (CalculateLights.infinityPosition target light.lightDirection farClip) 3 0 }
        (env.BuildViewRHMatrix
          (CalculateLights.infinityPosition target light.lightDirection farClip).xyz target.xyz
          (CalculateLights.infinityUp (light.lightDirection 0) (light.lightDirection 1)))
        (env.BuildOrthographicMatrix (- sm_half_dist farClip) (sm_half_dist farClip)
          (sm_half_dist farClip) (- sm_half_dist farClip) nearClip (farClip + sm_half_dist farClip)) :=
  rfl

/-- The view matrix of the branch of the spot, area and omni lights. -/
theorem CalculateLights.local_eq (env : Env) (m : Manager) (n : Nat) (light : Light)
    (type : SceneObjectLightType) :
    CalculateLights.local env m n light type =
      match type with
      | .kSceneObjectTypeLightSpot curve =>
        CalculateLights.finish env m n
          { light with
            lightType := .Spot
            lightAngleAttenCurveType := curve.type
            lightAngleAttenCurveParams := memcpyParams light.lightAngleAttenCurveParams curve.u }
          (env.BuildViewRHMatrix light.lightPosition.xyz
            (Vector4f.xyz (fun k => light.lightPosition k + light.lightDirection k))
            (CalculateLights.localUp (light.lightDirection 0) (light.lightDirection 1)))
          (env.BuildPerspectiveFovRHMatrix
            (memcpyParams light.lightAngleAttenCurveParams curve.u 1 * 2) 1 1 100)
      | .kSceneObjectTypeLightArea dimension =>
        CalculateLights.finish env m n { light with lightType := .Area, lightSize := dimension }
          (env.BuildViewRHMatrix light.lightPosition.xyz
            (Vector4f.xyz (fun k => light.lightPosition k + light.lightDirection k))
            (CalculateLights.localUp (light.lightDirection 0) (light.lightDirection 1)))
          env.BuildIdentityMatrix
      | _ =>
        CalculateLights.finish env m n { light with lightType := .Omni }
          (env.BuildViewRHMatrix light.lightPosition.xyz
            (Vector4f.xyz (fun k => light.lightPosition k + light.lightDirection k))
            (CalculateLights.localUp (light.lightDirection 0) (light.lightDirection 1)))
          (env.BuildPerspectiveFovRHMatrix (env.PI / 2) 1 1 100) := by
  cases type <;> rfl

theorem CalculateLights.node_local (env : Env) (scene : Scene) (m : Manager)
    (pLightNode : SceneLightNode) (pLight : SceneObjectLight)
    (hl : scene.GetLight pLightNode.sceneObjectRef = some pLight)
    (ht : pLight.type ≠ .kSceneObjectTypeLightInfi) :
    CalculateLights.node env scene m (some pLightNode) =
      Outcome.done (CalculateLights.local env m m.numLights
        (CalculateLights.copied env m pLightNode pLight) pLight.type) := by
  simp only [CalculateLights.node, hl]
  cases hty : pLight.type with
  | kSceneObjectTypeLightInfi => exact absurd hty ht
  | kSceneObjectTypeLightSpot curve => rfl
  | kSceneObjectTypeLightArea dimension => rfl
  | kSceneObjectTypeLightOmni => rfl

theorem CalculateLights.node_infinity_camera (env : Env) (scene : Scene) (m : Manager)
    (pLightNode : SceneLightNode) (pLight : SceneObjectLight) (pCameraNode : SceneCameraNode)
    (pCamera : SceneObjectCamera)
    (hl : scene.GetLight pLightNode.sceneObjectRef = some pLight)
    (ht : pLight.type = .kSceneObjectTypeLightInfi)
    (hn : scene.GetFirstCameraNode = some pCameraNode)
    (hc : scene.GetCamera pCameraNode.sceneObjectRef = some pCamera) :
    CalculateLights.node env scene m (some pLightNode) =
      Outcome.done (CalculateLights.infinity env m m.numLights
        { CalculateLights.copied env m pLightNode pLight with lightType := .Infinity }
        pCamera.nearClipDistance pCamera.farClipDistance
        (env.Transform
          ![0, 0, - (0.75 * pCamera.nearClipDistance + 0.25 * pCamera.farClipDistance), 1]
          pCameraNode.calculatedTransform)) := by
  simp only [CalculateLights.node, hl, ht, hn, hc]
  rfl

theorem CalculateLights.node_infinity_default (env : Env) (scene : Scene) (m : Manager)
    (pLightNode : SceneLightNode) (pLight : SceneObjectLight)
    (hl : scene.GetLight pLightNode.sceneObjectRef = some pLight)
    (ht : pLight.type = .kSceneObjectTypeLightInfi)
    (hn : scene.GetFirstCameraNode = none) :
    CalculateLights.node env scene m (some pLightNode) =
      Outcome.done (CalculateLights.infinity env m m.numLights
        { CalculateLights.copied env m pLightNode pLight with lightType := .Infinity }
        1 100 ![0, 0, 0, 1]) := by
  simp only [CalculateLights.node, hl, ht, hn]
  rfl

theorem CalculateLights_single (env : Env) (scene : Scene) (m : Manager)
    (entry : Option SceneLightNode) (h : scene.LightNodes = [entry]) :
    CalculateLights env scene m =
      CalculateLights.node env scene
        (m.setFrameContext { (m.m_Frames m.m_nFrameIndex).frameContext with numLights := 0 }) entry := by
  unfold CalculateLights
  rw [h]
  rfl


theorem CalculateLights.infinityUp_iff (dx dy : Scalar) :
    (CalculateLights.infinityUp dx dy = ![0.1, 0.1, 1] ↔
      (abs dx ≤ 13421773 / 67108864 ∧ abs dy ≤ 13421773 / 67108864)) ∧
    (CalculateLights.infinityUp dx dy = ![0, 0, 1] ↔
      ¬ (abs dx ≤ 13421773 / 67108864 ∧ abs dy ≤ 13421773 / 67108864)) := by
  have hne : (![0, 0, 1] : Fin 3 → Scalar) ≠ ![0.1, 0.1, 1] := by
    intro h
    have h0 := congrFun h 0
    norm_num at h0
  unfold CalculateLights.infinityUp
  by_cases hc : abs dx ≤ 13421773 / 67108864 ∧ abs dy ≤ 13421773 / 67108864
  · simp only [hc, and_self, if_true, true_iff, not_true_eq_false, iff_false]
    exact ⟨trivial, fun h => hne h.symm⟩
  · simp only [hc, if_false, iff_false, not_false_eq_true, iff_true]
    exact ⟨hne, trivial⟩

theorem CalculateLights.localUp_iff (dx dy : Scalar) :
    (CalculateLights.localUp dx dy = ![0, 0.707, 0.707] ↔
      (abs dx ≤ 13421773 / 134217728 ∧ abs dy ≤ 13421773 / 134217728)) ∧
    (CalculateLights.localUp dx dy = ![0, 0, 1] ↔
      ¬ (abs dx ≤ 13421773 / 134217728 ∧ abs dy ≤ 13421773 / 134217728)) := by
  have hne : (![0, 0, 1] : Fin 3 → Scalar) ≠ ![0, 0.707, 0.707] := by
    intro h
    have h0 := congrFun h 1
    norm_num at h0
  unfold CalculateLights.localUp
  by_cases hc : abs dx ≤ 13421773 / 134217728 ∧ abs dy ≤ 13421773 / 134217728
  · simp only [hc, and_self, if_true, true_iff, not_true_eq_false, iff_false]
    exact ⟨trivial, fun h => hne h.symm⟩
  · simp only [hc, if_false, iff_false, not_false_eq_true, iff_true]
    exact ⟨hne, trivial⟩

/-- C16: up-vector selection rule.  The directional branch of `CalculateLights`
builds its view with the up vector `infinityUp` of the light direction, and the
branch of the spot, area and omni lights with `localUp`.  `infinityUp` is
(0.1, 0.1, 1) exactly when |d.x| <= 0.2f and |d.y| <= 0.2f and (0, 0, 1)
otherwise; `localUp` is (0, 0.707, 0.707) exactly when |d.x| <= 0.1f and
|d.y| <= 0.1f and (0, 0, 1) otherwise.  The thresholds are the float literals
of the source: 0.2f = 13421773 / 2^26 and 0.1f = 13421773 / 2^27, which exceed
0.2 and 0.1 by less than 3 / 10^9.  The comparisons are inclusive: the
substitute is chosen at d.x = 0.2f, d.y = -0.2f and at d.x = -0.1f, d.y = 0.1f,
and (0, 0, 1) is kept at the next float above the threshold, 6710887 / 2^25
and 6710887 / 2^26. -/
theorem CalculateLights_up_vector_rule (env : Env) (m : Manager) (n : Nat) (light : Light)
    (nearClip farClip : Scalar) (target : Vector4f) (type : SceneObjectLightType) :
    CalculateLights.infinity env m n light nearClip farClip target =
        CalculateLights.finish env m n
          { light with lightPosition :=
              Function.update (CalculateLights.infinityPosition target light.lightDirection farClip) 3 0 }
          (env.BuildViewRHMatrix
            (CalculateLights.infinityPosition target light.lightDirection farClip).xyz target.xyz
            (CalculateLights.infinityUp (light.lightDirection 0) (light.lightDirection 1)))
          (env.BuildOrthographicMatrix (- sm_half_dist farClip) (sm_half_dist farClip)
            (sm_half_dist farClip) (- sm_half_dist farClip) nearClip
            (farClip + sm_half_dist farClip)) ∧
    (∃ light' projection,
      CalculateLights.local env m n light type =
        CalculateLights.finish env m n light'
          (env.BuildViewRHMatrix light.lightPosition.xyz
            (Vector4f.xyz (fun k => light.lightPosition k + light.lightDirection k))
            (CalculateLights.localUp (light.lightDirection 0) (light.lightDirection 1)))
          projection) ∧
    (∀ dx dy : Scalar,
      (CalculateLights.infinityUp dx dy = ![0.1, 0.1, 1] ↔
        (abs dx ≤ 13421773 / 67108864 ∧ abs dy ≤ 13421773 / 67108864)) ∧
      (CalculateLights.infinityUp dx dy = ![0, 0, 1] ↔
        ¬ (abs dx ≤ 13421773 / 67108864 ∧ abs dy ≤ 13421773 / 67108864)) ∧
      (CalculateLights.localUp dx dy = ![0, 0.707, 0.707] ↔
        (abs dx ≤ 13421773 / 134217728 ∧ abs dy ≤ 13421773 / 134217728)) ∧
      (CalculateLights.localUp dx dy = ![0, 0, 1] ↔
        ¬ (abs dx ≤ 13421773 / 134217728 ∧ abs dy ≤ 13421773 / 134217728))) ∧
    ((13421773 / 67108864 : Scalar) = 13421773 / 2 ^ 26 ∧
      (13421773 / 67108864 : Scalar) - 0.2 = 1 / 335544320 ∧
      (13421773 / 134217728 : Scalar) = 13421773 / 2 ^ 27 ∧
      (13421773 / 134217728 : Scalar) - 0.1 = 1 / 671088640) ∧
    CalculateLights.infinityUp (13421773 / 67108864 : Scalar) (-(13421773 / 67108864)) =
      ![0.1, 0.1, 1] ∧
    CalculateLights.infinityUp (6710887 / 33554432 : Scalar) 0 = ![0, 0, 1] ∧
    CalculateLights.localUp (-(13421773 / 134217728) : Scalar) (13421773 / 134217728) =
      ![0, 0.707, 0.707] ∧
    CalculateLights.localUp (0 : Scalar) (6710887 / 67108864) = ![0, 0, 1] := by
  refine ⟨CalculateLights.infinity_eq env m n light nearClip farClip target, ?_,
    fun dx dy => ⟨(CalculateLights.infinityUp_iff dx dy).1, (CalculateLights.infinityUp_iff dx dy).2,
      (CalculateLights.localUp_iff dx dy).1, (CalculateLights.localUp_iff dx dy).2⟩,
    ⟨by norm_num, by norm_num, by norm_num, by norm_num⟩, ?_, ?_, ?_, ?_⟩
  · rw [CalculateLights.local_eq]
    cases type <;> exact ⟨_, _, rfl⟩
  · exact (CalculateLights.infinityUp_iff _ _).1.2 (by norm_num [abs_le])
  · exact (CalculateLights.infinityUp_iff _ _).2.2 (by norm_num [abs_le])
  · exact (CalculateLights.localUp_iff _ _).1.2 (by norm_num [abs_le])
  · exact (CalculateLights.localUp_iff _ _).2.2 (by norm_num [abs_le])

/-- The light written by the directional branch. -/
theorem CalculateLights.infinity_light (env : Env) (m : Manager) (n : Nat) (light : Light)
    (nearClip farClip : Scalar) (target : Vector4f) :
    (CalculateLights.infinity env m n light nearClip farClip target).lights n =
      { light with
        lightPosition :=
          Function.update (CalculateLights.infinityPosition target light.lightDirection farClip) 3 0
        lightVP := env.MatrixMultiply
          (env.BuildViewRHMatrix
            (CalculateLights.infinityPosition target light.lightDirection farClip).xyz target.xyz
            (CalculateLights.infinityUp (light.lightDirection 0) (light.lightDirection 1)))
          (env.BuildOrthographicMatrix (- sm_half_dist farClip) (sm_half_dist farClip)
            (sm_half_dist farClip) (- sm_half_dist farClip) nearClip
            (farClip + sm_half_dist farClip)) } := by
  rw [CalculateLights.infinity_eq, CalculateLights.finish_light]

/-- The outcome of the loop body on a directional light whose camera lookup
succeeds: the branch runs with the clip distances and the target of
`cameraTarget`. -/
theorem CalculateLights.node_infinity (env : Env) (scene : Scene) (m : Manager)
    (pLightNode : SceneLightNode) (pLight : SceneObjectLight) (nearClip farClip : Scalar)
    (target : Vector4f)
    (hl : scene.GetLight pLightNode.sceneObjectRef = some pLight)
    (ht : pLight.type = .kSceneObjectTypeLightInfi)
    (hcam : CalculateLights.cameraTarget env scene = some (nearClip, farClip, target)) :
    CalculateLights.node env scene m (some pLightNode) =
      Outcome.done (CalculateLights.infinity env m m.numLights
        { CalculateLights.copied env m pLightNode pLight with lightType := .Infinity }
        nearClip farClip target) := by
  unfold CalculateLights.cameraTarget at hcam
  cases hn : scene.GetFirstCameraNode with
  | none =>
    simp only [hn, Option.some.injEq, Prod.mk.injEq] at hcam
    obtain ⟨h1, h2, h3⟩ := hcam
    rw [← h1, ← h2, ← h3]
    exact CalculateLights.node_infinity_default env scene m pLightNode pLight hl ht hn
  | some pCameraNode =>
    cases hc : scene.GetCamera pCameraNode.sceneObjectRef with
    | none =>
      simp [hn, hc] at hcam
    | some pCamera =>
      simp only [hn, hc, Option.some.injEq, Prod.mk.injEq] at hcam
      obtain ⟨h1, h2, h3⟩ := hcam
      rw [← h1, ← h2, ← h3]
      exact CalculateLights.node_infinity_camera env scene m pLightNode pLight pCameraNode pCamera
        hl ht hn hc

theorem CalculateLights.infinityPosition_entries (target d : Vector4f) (farClip : Scalar) :
    Function.update (CalculateLights.infinityPosition target d farClip) 3 0 =
        ![target 0 - d 0 * farClip, target 1 - d 1 * farClip, target 2 - d 2 * farClip, 0] ∧
    (CalculateLights.infinityPosition target d farClip).xyz =
        ![target 0 - d 0 * farClip, target 1 - d 1 * farClip, target 2 - d 2 * farClip] := by
  constructor
  · funext k
    fin_cases k <;> simp [CalculateLights.infinityPosition, Function.update]
  · rfl

/-- C17: directional-light position.  For a live light node whose light
resolves to a directional light, with d the normalized world direction of the
node, and (near, far, target) the clip distances and target of the scene
(those of `cameraTarget`: the camera's near and far and
(0, 0, -(0.75 near + 0.25 far), 1) transformed by the camera node's transform
when there is a camera, else 1, 100 and (0,0,0,1)), the loop body returns, the
stored `lightPosition` has xyz = target.xyz - d.xyz * far and w = 0, and
`lightVP` is the product of the look-at view built from that position towards
target.xyz and the projection. -/
theorem CalculateLights_directional_position (env : Env) (scene : Scene) (m : Manager)
    (pLightNode : SceneLightNode) (pLight : SceneObjectLight) (nearClip farClip : Scalar)
    (target d : Vector4f)
    (hl : scene.GetLight pLightNode.sceneObjectRef = some pLight)
    (ht : pLight.type = .kSceneObjectTypeLightInfi)
    (hcam : CalculateLights.cameraTarget env scene = some (nearClip, farClip, target))
    (hd : d = env.Normalize (env.Transform ![0, 0, -1, 0] pLightNode.calculatedTransform)) :
    ∃ m', CalculateLights.node env scene m (some pLightNode) = Outcome.done m' ∧
      (m'.lights m.numLights).lightPosition =
        ![target 0 - d 0 * farClip, target 1 - d 1 * farClip, target 2 - d 2 * farClip, 0] ∧
      (m'.lights m.numLights).lightVP = env.MatrixMultiply
        (env.BuildViewRHMatrix
          ![target 0 - d 0 * farClip, target 1 - d 1 * farClip, target 2 - d 2 * farClip]
          ![target 0, target 1, target 2] (CalculateLights.infinityUp (d 0) (d 1)))
        (env.BuildOrthographicMatrix (- sm_half_dist farClip) (sm_half_dist farClip)
          (sm_half_dist farClip) (- sm_half_dist farClip) nearClip
          (farClip + sm_half_dist farClip)) := by
  refine ⟨_, CalculateLights.node_infinity env scene m pLightNode pLight nearClip farClip target
    hl ht hcam, ?_, ?_⟩
  · rw [CalculateLights.infinity_light, hd]
    exact (CalculateLights.infinityPosition_entries _ _ _).1
  · rw [CalculateLights.infinity_light, hd]
    show env.MatrixMultiply (env.BuildViewRHMatrix (CalculateLights.infinityPosition target _ farClip).xyz
      target.xyz _) _ = _
    rw [(CalculateLights.infinityPosition_entries _ _ _).2]
    rfl

theorem sm_half_dist_eq (farClip : Scalar) :
    sm_half_dist farClip = if farClip ≤ 3200 then 0.25 * farClip else 800 := by
  unfold sm_half_dist
  by_cases h : farClip ≤ 3200
  · rw [if_pos h, min_eq_left (by linarith)]
    ring
  · rw [if_neg h, min_eq_right (by linarith)]

/-- C18: directional-light projection.  For a live light node whose light
resolves to a directional light, with (near, far) the clip distances of the
scene (the camera's when there is a camera, else 1 and 100), the loop body
returns and `lightVP` is the product of the view and the orthographic matrix
of left = -h, right = h, top = h, bottom = -h, near and far + h, where
h = min(0.25 far, 800); h is 0.25 far when far <= 3200 and 800 for every
larger far. -/
theorem CalculateLights_directional_projection (env : Env) (scene : Scene) (m : Manager)
    (pLightNode : SceneLightNode) (pLight : SceneObjectLight) (nearClip farClip h : Scalar)
    (target : Vector4f)
    (hl : scene.GetLight pLightNode.sceneObjectRef = some pLight)
    (ht : pLight.type = .kSceneObjectTypeLightInfi)
    (hcam : CalculateLights.cameraTarget env scene = some (nearClip, farClip, target))
    (hh : h = min (0.25 * farClip) 800) :
    (∃ m' view, CalculateLights.node env scene m (some pLightNode) = Outcome.done m' ∧
      (m'.lights m.numLights).lightVP = env.MatrixMultiply view
        (env.BuildOrthographicMatrix (- h) h h (- h) nearClip (farClip + h))) ∧
    h = (if farClip ≤ 3200 then 0.25 * farClip else 800) := by
  have hs : h = sm_half_dist farClip := by
    rw [hh, sm_half_dist, mul_comm]
  refine ⟨⟨_, env.BuildViewRHMatrix
      (CalculateLights.infinityPosition target
        (env.Normalize (env.Transform ![0, 0, -1, 0] pLightNode.calculatedTransform)) farClip).xyz
      target.xyz
      (CalculateLights.infinityUp
        (env.Normalize (env.Transform ![0, 0, -1, 0] pLightNode.calculatedTransform) 0)
        (env.Normalize (env.Transform ![0, 0, -1, 0] pLightNode.calculatedTransform) 1)),
    CalculateLights.node_infinity env scene m pLightNode pLight
      nearClip farClip target hl ht hcam, ?_⟩, ?_⟩
  · rw [CalculateLights.infinity_light, hs]
    rfl
  · rw [hs]
    exact sm_half_dist_eq farClip

theorem Scene.sunWithCamera_cameraTarget :
    CalculateLights.cameraTarget Env.viewer Scene.sunWithCamera =
      some (2, 500, ![1, 2, -247 / 2, 1]) := by
  have h : Env.viewer.Transform ![0, 0, - (0.75 * 2 + 0.25 * 500), 1] (translationMatrix 1 2 3) =
      ![1, 2, -247 / 2, 1] := by
    funext k
    fin_cases k <;> norm_num [Env.viewer, translationMatrix]
  rw [← h]
  rfl

theorem Scene.sunWithCamera_direction :
    (![0, 0, -1, 0] : Vector4f) =
      Env.viewer.Normalize (Env.viewer.Transform ![0, 0, -1, 0] identityMatrix) := by
  have hI : identityMatrix = ![![1, 0, 0, 0], ![0, 1, 0, 0], ![0, 0, 1, 0], ![0, 0, 0, 1]] := by
    funext r c
    fin_cases r <;> fin_cases c <;> rfl
  rw [hI]
  funext k
  fin_cases k <;> norm_num [Env.viewer]

/-- C17, on the viewer with a camera of clip distances 2 and 500 at (1, 2, 3)
and a directional light pointing along -z: the target is (1, 2, -123.5), and
the light is placed at (1, 2, 376.5) with w = 0. -/
theorem CalculateLights_directional_position_witness :
    CalculateLights.cameraTarget Env.viewer Scene.sunWithCamera =
      some (2, 500, ![1, 2, -247 / 2, 1]) ∧
    ∃ m', CalculateLights.node Env.viewer Scene.sunWithCamera Manager.fresh
        (some { calculatedTransform := identityMatrix, sceneObjectRef := "sun" }) = Outcome.done m' ∧
      (m'.lights 0).lightPosition = ![1, 2, 753 / 2, 0] := by
  obtain ⟨m', h1, h2, _⟩ := CalculateLights_directional_position Env.viewer Scene.sunWithCamera
    Manager.fresh { calculatedTransform := identityMatrix, sceneObjectRef := "sun" }
    SceneObjectLight.sun 2 500 ![1, 2, -247 / 2, 1] ![0, 0, -1, 0] rfl rfl
    Scene.sunWithCamera_cameraTarget Scene.sunWithCamera_direction
  refine ⟨Scene.sunWithCamera_cameraTarget, m', h1, ?_⟩
  have e : Manager.fresh.numLights = 0 := by decide
  rw [e] at h2
  rw [h2]
  funext k
  fin_cases k <;> norm_num

/-- C18, on the viewer with a camera of clip distances 2 and 500 and a
directional light: h = 125, and the orthographic matrix is built from
-125, 125, 125, -125, 2 and 625. -/
theorem CalculateLights_directional_projection_witness :
    (125 : Scalar) = min (0.25 * 500) 800 ∧
    ∃ m' view, CalculateLights.node Env.viewer Scene.sunWithCamera Manager.fresh
        (some { calculatedTransform := identityMatrix, sceneObjectRef := "sun" }) = Outcome.done m' ∧
      (m'.lights Manager.fresh.numLights).lightVP = Env.viewer.MatrixMultiply view
        (Env.viewer.BuildOrthographicMatrix (- 125) 125 125 (- 125) 2 (500 + 125)) :=
  ⟨by norm_num, (CalculateLights_directional_projection Env.viewer Scene.sunWithCamera
    Manager.fresh { calculatedTransform := identityMatrix, sceneObjectRef := "sun" }
    SceneObjectLight.sun 2 500 125 ![1, 2, -247 / 2, 1] rfl rfl
    Scene.sunWithCamera_cameraTarget (by norm_num)).1⟩

/-! ## Spot lights -/

theorem memcpyParams_second (params : Nat → Scalar) (a b : Scalar) (rest : List Scalar) :
    memcpyParams params (a :: b :: rest) 1 = b := rfl

/-- The loop body on a spot light: what reaches the perspective builder. -/
theorem CalculateLights.node_spot (env : Env) (scene : Scene) (m : Manager)
    (pLightNode : SceneLightNode) (pLight : SceneObjectLight) (curve : AttenCurve)
    (hl : scene.GetLight pLightNode.sceneObjectRef = some pLight)
    (ht : pLight.type = .kSceneObjectTypeLightSpot curve) :
    ∃ m', CalculateLights.node env scene m (some pLightNode) = Outcome.done m' ∧
      (m'.lights m.numLights).lightVP = env.MatrixMultiply
        (env.BuildViewRHMatrix (CalculateLights.copied env m pLightNode pLight).lightPosition.xyz
          (Vector4f.xyz (fun k => (CalculateLights.copied env m pLightNode pLight).lightPosition k +
            (CalculateLights.copied env m pLightNode pLight).lightDirection k))
          (CalculateLights.localUp ((CalculateLights.copied env m pLightNode pLight).lightDirection 0)
            ((CalculateLights.copied env m pLightNode pLight).lightDirection 1)))
        (env.BuildPerspectiveFovRHMatrix
          (memcpyParams (m.lights m.numLights).lightAngleAttenCurveParams curve.u 1 * 2) 1 1 100) := by
  have hne : pLight.type ≠ .kSceneObjectTypeLightInfi := by
    rw [ht]
    exact fun h => SceneObjectLightType.noConfusion h
  refine ⟨_, CalculateLights.node_local env scene m pLightNode pLight hl hne, ?_⟩
  rw [ht, CalculateLights.local_eq]
  simp only [CalculateLights.finish_light]
  rfl

/-- C12, as amended: for every live light node whose light resolves to a spot
light, the loop body of `CalculateLights` returns and `lightVP` is the product
of the view and the right-handed perspective matrix with aspect ratio 1 and
field of view 2 times `lightAngleAttenCurveParams[0][1]`, the second float b of
the parameters a, b, ... of the light's angle-attenuation curve. -/
theorem CalculateLights_spot_fov (env : Env) (scene : Scene) (m : Manager)
    (pLightNode : SceneLightNode) (pLight : SceneObjectLight) (curve : AttenCurve)
    (a b : Scalar) (rest : List Scalar)
    (hl : scene.GetLight pLightNode.sceneObjectRef = some pLight)
    (ht : pLight.type = .kSceneObjectTypeLightSpot curve)
    (hu : curve.u = a :: b :: rest) :
    ∃ m' view, CalculateLights.node env scene m (some pLightNode) = Outcome.done m' ∧
      (m'.lights m.numLights).lightVP =
        env.MatrixMultiply view (env.BuildPerspectiveFovRHMatrix (b * 2) 1 1 100) := by
  obtain ⟨m', h1, h2⟩ := CalculateLights.node_spot env scene m pLightNode pLight curve hl ht
  rw [hu, memcpyParams_second] at h2
  exact ⟨m', _, h1, h2⟩

/-- C12, on the spot light with parameters 30 and 45: the field of view is 90. -/
theorem CalculateLights_spot_fov_witness :
    ∃ m' view, CalculateLights.node Env.probe Scene.spotWithCamera Manager.fresh
        (some { calculatedTransform := identityMatrix, sceneObjectRef := "spot" }) = Outcome.done m' ∧
      (m'.lights Manager.fresh.numLights).lightVP =
        Env.probe.MatrixMultiply view (Env.probe.BuildPerspectiveFovRHMatrix (45 * 2) 1 1 100) :=
  CalculateLights_spot_fov Env.probe Scene.spotWithCamera Manager.fresh
    { calculatedTransform := identityMatrix, sceneObjectRef := "spot" } SceneObjectLight.spot
    { type := .kOther 1, u := [30, 45] } 30 45 [] rfl rfl rfl

/-- `CalculateLights` on the scene with the spot light of parameters 30 and 45
and the camera of clip distances 2 and 500, with the builders that record
their arguments: the perspective builder received 90, 1, 1 and 100. -/
theorem CalculateLights_spotWithCamera :
    ∃ m', CalculateLights Env.probe Scene.spotWithCamera Manager.fresh = Outcome.done m' ∧
      (m'.lights 0).lightVP = Env.probe.BuildPerspectiveFovRHMatrix 90 1 1 100 := by
  obtain ⟨m', h1, h2⟩ := CalculateLights.node_spot Env.probe Scene.spotWithCamera
    (Manager.fresh.setFrameContext
      { (Manager.fresh.m_Frames Manager.fresh.m_nFrameIndex).frameContext with numLights := 0 })
    { calculatedTransform := identityMatrix, sceneObjectRef := "spot" } SceneObjectLight.spot
    { type := .kOther 1, u := [30, 45] } rfl rfl
  refine ⟨m', ?_, ?_⟩
  · rw [CalculateLights_single Env.probe Scene.spotWithCamera Manager.fresh _ rfl]
    exact h1
  · have e : (Manager.fresh.setFrameContext
        { (Manager.fresh.m_Frames Manager.fresh.m_nFrameIndex).frameContext with
          numLights := 0 }).numLights = 0 := by decide
    rw [e] at h2
    rw [h2, memcpyParams_second]
    norm_num [Env.probe]

theorem Env.probe_perspective_injective (f a n r f' a' n' r' : Scalar)
    (h : Env.probe.BuildPerspectiveFovRHMatrix f a n r =
      Env.probe.BuildPerspectiveFovRHMatrix f' a' n' r') :
    f = f' ∧ a = a' ∧ n = n' ∧ r = r' := by
  have h0 := congrFun (congrFun h 0) 0
  have h1 := congrFun (congrFun h 0) 1
  have h2 := congrFun (congrFun h 0) 2
  have h3 := congrFun (congrFun h 0) 3
  exact ⟨h0, h1, h2, h3⟩

/-- C12 as stated fails: the spot light of the scene has the angle-attenuation
parameters 30 and 45, first parameter 30, and the perspective matrix that
`CalculateLights` stores is that of the field of view 90, which is not the
matrix of the field of view 2 * 30. -/
theorem CalculateLights_spot_fov_first_parameter_fails :
    Scene.spotWithCamera.GetLight "spot" = some SceneObjectLight.spot ∧
    SceneObjectLight.spot.type = .kSceneObjectTypeLightSpot { type := .kOther 1, u := [30, 45] } ∧
    ∃ m', CalculateLights Env.probe Scene.spotWithCamera Manager.fresh = Outcome.done m' ∧
      (m'.lights 0).lightVP = Env.probe.BuildPerspectiveFovRHMatrix 90 1 1 100 ∧
      (m'.lights 0).lightVP ≠ Env.probe.BuildPerspectiveFovRHMatrix (2 * 30) 1 1 100 := by
  obtain ⟨m', h1, h2⟩ := CalculateLights_spotWithCamera
  refine ⟨rfl, rfl, m', h1, h2, ?_⟩
  rw [h2]
  intro h
  have := (Env.probe_perspective_injective _ _ _ _ _ _ _ _ h).1
  norm_num at this

/-- C13, as amended: for every live light node whose light resolves to a spot
light, whatever the camera of the scene, the loop body of `CalculateLights`
returns and the near and far distances passed to the perspective builder are
the constants 1 and 100. -/
theorem CalculateLights_spot_clip_planes (env : Env) (scene : Scene) (m : Manager)
    (pLightNode : SceneLightNode) (pLight : SceneObjectLight) (curve : AttenCurve)
    (hl : scene.GetLight pLightNode.sceneObjectRef = some pLight)
    (ht : pLight.type = .kSceneObjectTypeLightSpot curve) :
    ∃ m' view fieldOfView, CalculateLights.node env scene m (some pLightNode) = Outcome.done m' ∧
      (m'.lights m.numLights).lightVP =
        env.MatrixMultiply view (env.BuildPerspectiveFovRHMatrix fieldOfView 1 1 100) := by
  obtain ⟨m', h1, h2⟩ := CalculateLights.node_spot env scene m pLightNode pLight curve hl ht
  exact ⟨m', _, _, h1, h2⟩

/-- C13, on the scene whose camera has the clip distances 2 and 500. -/
theorem CalculateLights_spot_clip_planes_witness :
    Scene.spotWithCamera.GetCamera "camera" =
      some { perspective := true, fov := 1, nearClipDistance := 2, farClipDistance := 500 } ∧
    ∃ m' view fieldOfView, CalculateLights.node Env.probe Scene.spotWithCamera Manager.fresh
        (some { calculatedTransform := identityMatrix, sceneObjectRef := "spot" }) = Outcome.done m' ∧
      (m'.lights Manager.fresh.numLights).lightVP =
        Env.probe.MatrixMultiply view (Env.probe.BuildPerspectiveFovRHMatrix fieldOfView 1 1 100) :=
  ⟨rfl, CalculateLights_spot_clip_planes Env.probe Scene.spotWithCamera Manager.fresh
    { calculatedTransform := identityMatrix, sceneObjectRef := "spot" } SceneObjectLight.spot
    { type := .kOther 1, u := [30, 45] } rfl rfl⟩

/-- C13 as stated fails: the scene has a camera node whose camera has the clip
distances 2 and 500 and a spot light, and the perspective matrix that
`CalculateLights` stores is that of near 1 and far 100, not that of near 2 and
far 500. -/
theorem CalculateLights_spot_camera_clip_fails :
    Scene.spotWithCamera.GetFirstCameraNode =
      some { calculatedTransform := identityMatrix, sceneObjectRef := "camera" } ∧
    Scene.spotWithCamera.GetCamera "camera" =
      some { perspective := true, fov := 1, nearClipDistance := 2, farClipDistance := 500 } ∧
    ∃ m', CalculateLights Env.probe Scene.spotWithCamera Manager.fresh = Outcome.done m' ∧
      (m'.lights 0).lightVP = Env.probe.BuildPerspectiveFovRHMatrix 90 1 1 100 ∧
      ∀ fieldOfView screenAspect : Scalar, (m'.lights 0).lightVP ≠
        Env.probe.BuildPerspectiveFovRHMatrix fieldOfView screenAspect 2 500 := by
  obtain ⟨m', h1, h2⟩ := CalculateLights_spotWithCamera
  refine ⟨rfl, rfl, m', h1, h2, fun f a => ?_⟩
  rw [h2]
  intro h
  have := (Env.probe_perspective_injective _ _ _ _ _ _ _ _ h).2.2.1
  norm_num at this

/-! ## Camera matrix: projection and camera position -/

theorem CalculateCameraMatrix.projection_proj (env : Env) (m : Manager) (f n r : Scalar) :
    (CalculateCameraMatrix.projection env m f n r).projectionMatrix =
      env.BuildPerspectiveFovRHMatrix f ((env.screenWidth : Scalar) / (env.screenHeight : Scalar)) n r := by
  simp [Manager.projectionMatrix, CalculateCameraMatrix.projection, Manager.setFrameContext,
    Manager.setFrame]

/-- The projection matrix where `CalculateCameraMatrix` returns.  When the scene
has no camera node, the projection matrix of the current slot is the
right-handed perspective matrix of (PI/3, aspect, 1, 100); when the first
camera node resolves to a perspective camera object, it is that of the
camera's (fov, aspect, near, far); in both cases aspect = screenWidth /
screenHeight of the application configuration, whatever the state of the
frame slot. -/
theorem CalculateCameraMatrix_projection_parameters (env : Env) (scene : Scene) (m : Manager) :
    match scene.GetFirstCameraNode with
    | none =>
      ∃ m', CalculateCameraMatrix env scene m = Outcome.done m' ∧
        m'.projectionMatrix = env.BuildPerspectiveFovRHMatrix (env.PI / 3)
          ((env.screenWidth : Scalar) / (env.screenHeight : Scalar)) 1 100
    | some pCameraNode =>
      ∀ pCamera, scene.GetCamera pCameraNode.sceneObjectRef = some pCamera →
        pCamera.perspective = true →
        ∃ m', CalculateCameraMatrix env scene m = Outcome.done m' ∧
          m'.projectionMatrix = env.BuildPerspectiveFovRHMatrix pCamera.fov
            ((env.screenWidth : Scalar) / (env.screenHeight : Scalar))
            pCamera.nearClipDistance pCamera.farClipDistance := by
  cases hn : scene.GetFirstCameraNode with
  | none =>
    refine ⟨CalculateCameraMatrix.projection env (CalculateCameraMatrix.view env scene m)
      (env.PI / 3) 1 100, ?_, CalculateCameraMatrix.projection_proj env _ _ _ _⟩
    simp only [CalculateCameraMatrix, hn]
  | some pCameraNode =>
    intro pCamera hc hp
    refine ⟨CalculateCameraMatrix.projection env (CalculateCameraMatrix.view env scene m)
      pCamera.fov pCamera.nearClipDistance pCamera.farClipDistance, ?_,
      CalculateCameraMatrix.projection_proj env _ _ _ _⟩
    simp only [CalculateCameraMatrix, hn, hc, hp, if_true]

/-- The projection matrix on the viewer (a 960 by 540 screen) with the camera of
field of view 1 and clip distances 2 and 500. -/
theorem CalculateCameraMatrix_projection_parameters_witness :
    Scene.sunWithCamera.GetCamera "camera" =
      some { perspective := true, fov := 1, nearClipDistance := 2, farClipDistance := 500 } ∧
    ∃ m', CalculateCameraMatrix Env.probe Scene.sunWithCamera Manager.fresh = Outcome.done m' ∧
      m'.projectionMatrix = Env.probe.BuildPerspectiveFovRHMatrix 1 ((960 : Scalar) / 540) 2 500 :=
  ⟨rfl, CalculateCameraMatrix_projection_parameters Env.probe Scene.sunWithCamera Manager.fresh
    { perspective := true, fov := 1, nearClipDistance := 2, farClipDistance := 500 } rfl rfl⟩

/-- C19 fails: the projection matrix is not always set.  On a scene whose first
camera node refers to a camera object that the scene does not have,
`GetCamera` yields null and `CalculateCameraMatrix` dereferences it
(`dynamic_pointer_cast<SceneObjectPerspectiveCamera>(pCamera)->GetFov()`): the
function does not return, `BuildPerspectiveFovRHMatrix` is not reached, and
the projection matrix of the slot is what it was, which is the perspective
matrix of no parameters (the builder here records its arguments in row 0 of an
identity matrix).  `UpdateConstants` and `Tick` stop there too.  The same
holds when the camera object exists and is not a perspective camera. -/
theorem CalculateCameraMatrix_projection_unset :
    Scene.sunDanglingCamera.GetFirstCameraNode =
      some { calculatedTransform := identityMatrix, sceneObjectRef := "camera" } ∧
    Scene.sunDanglingCamera.GetCamera "camera" = none ∧
    (CalculateCameraMatrix Env.probe Scene.sunDanglingCamera Manager.fresh).completes = false ∧
    (CalculateCameraMatrix Env.probe Scene.sunDanglingCamera Manager.fresh).state.projectionMatrix =
      Manager.fresh.projectionMatrix ∧
    (∀ fov aspect near far : Scalar,
      (CalculateCameraMatrix Env.probe Scene.sunDanglingCamera Manager.fresh).state.projectionMatrix ≠
        Env.probe.BuildPerspectiveFovRHMatrix fov aspect near far) ∧
    (UpdateConstants Env.probe Scene.sunDanglingCamera Manager.fresh).completes = false ∧
    (Tick Env.probe false Scene.sunDanglingCamera Manager.fresh).completes = false ∧
    (Tick Env.probe false Scene.sunDanglingCamera Manager.fresh).state.projectionMatrix =
      Manager.fresh.projectionMatrix ∧
    (Scene.orthoCamera.GetCamera "camera").map (fun pCamera => pCamera.perspective) = some false ∧
    (Tick Env.probe false Scene.orthoCamera Manager.fresh).completes = false ∧
    (Tick Env.probe false Scene.orthoCamera Manager.fresh).state.projectionMatrix =
      Manager.fresh.projectionMatrix := by
  have hp : (CalculateCameraMatrix Env.probe Scene.sunDanglingCamera
      Manager.fresh).state.projectionMatrix = Manager.fresh.projectionMatrix := by decide
  refine ⟨rfl, rfl, by decide, hp, ?_, by decide, by decide, by decide, rfl, by decide, by decide⟩
  intro fov aspect near far h
  rw [hp] at h
  have h11 := congrFun (congrFun h 1) 1
  have hz : Manager.fresh.projectionMatrix 1 1 = 0 := rfl
  rw [hz] at h11
  simp [Env.probe] at h11

theorem CalculateCameraMatrix.view_default_camPos (env : Env) (scene : Scene) (m : Manager)
    (h : scene.GetFirstCameraNode = none) :
    (CalculateCameraMatrix env scene m).state.camPos = m.camPos := by
  have hrun : CalculateCameraMatrix env scene m = Outcome.done
      (CalculateCameraMatrix.projection env (CalculateCameraMatrix.view env scene m) (env.PI / 3) 1 100) := by
    simp only [CalculateCameraMatrix, h]
  rw [hrun]
  simp only [Outcome.state_done, Manager.camPos]
  rw [(CalculateCameraMatrix.projection_view env _ _ _ _).2]
  simp [CalculateCameraMatrix.view, h, Manager.setFrameContext, Manager.setFrame]

/-- C20 fails: `CalculateCameraMatrix` on a scene with no camera node leaves
`camPos` of the current slot as it was.  After a call on the scene whose
camera is at (1, 2, 3), a call on the empty scene returns with the view matrix
of the default camera at (0, -5, 0) and `camPos` still (1, 2, 3); on the fresh
manager `camPos` stays (0, 0, 0). -/
theorem CalculateCameraMatrix_default_camPos_stale :
    Scene.empty.GetFirstCameraNode = none ∧
    (CalculateCameraMatrix Env.viewer Scene.withCamera Manager.fresh).state.camPos = ![1, 2, 3] ∧
    (CalculateCameraMatrix Env.viewer Scene.empty
      (CalculateCameraMatrix Env.viewer Scene.withCamera Manager.fresh).state).completes = true ∧
    (CalculateCameraMatrix Env.viewer Scene.empty
      (CalculateCameraMatrix Env.viewer Scene.withCamera Manager.fresh).state).state.camPos
        = ![1, 2, 3] ∧
    (CalculateCameraMatrix Env.viewer Scene.empty Manager.fresh).state.camPos = ![0, 0, 0] ∧
    (![1, 2, 3] : Vector3f) ≠ ![0, -5, 0] ∧ (![0, 0, 0] : Vector3f) ≠ ![0, -5, 0] := by
  refine ⟨rfl, by decide, by decide, ?_, ?_, by decide, by decide⟩
  · rw [CalculateCameraMatrix.view_default_camPos Env.viewer Scene.empty _ rfl]
    decide
  · rw [CalculateCameraMatrix.view_default_camPos Env.viewer Scene.empty _ rfl]
    decide

/-! ## Batch indices over the life of the manager: theorems -/

theorem UpdateConstants.batch_batchIndex (env : Env) (m : Manager) (pDbc : Nat) :
    (UpdateConstants.batch env m pDbc).state.m_Frames = m.m_Frames ∧
    ∀ q, ((UpdateConstants.batch env m pDbc).state.batchObjects q).batchIndex =
      (m.batchObjects q).batchIndex := by
  have hset : ∀ (trans : Matrix4X4f) (q : Nat),
      ((m.setModelMatrix pDbc trans).batchObjects q).batchIndex = (m.batchObjects q).batchIndex := by
    intro trans q
    by_cases hq : q = pDbc
    · subst hq; simp [Manager.setModelMatrix]
    · simp [Manager.setModelMatrix, Function.update, hq]
  unfold UpdateConstants.batch
  cases (m.batchObjects pDbc).node with
  | none => exact ⟨rfl, fun _ => rfl⟩
  | some node =>
    simp only
    cases node.rigidBody with
    | none => exact ⟨rfl, hset _⟩
    | some rigidBody => exact ⟨rfl, hset _⟩

theorem UpdateConstants.batches_batchIndex (env : Env) (m : Manager) :
    (UpdateConstants.batches env m).state.m_Frames = m.m_Frames ∧
    ∀ q, ((UpdateConstants.batches env m).state.batchObjects q).batchIndex =
      (m.batchObjects q).batchIndex := by
  unfold UpdateConstants.batches
  exact foldl_andThen_state_inv
    (fun m' => m'.m_Frames = m.m_Frames ∧
      ∀ q, (m'.batchObjects q).batchIndex = (m.batchObjects q).batchIndex)
    (UpdateConstants.batch env)
    (fun m1 a h => ⟨(UpdateConstants.batch_batchIndex env m1 a).1.trans h.1,
      fun q => ((UpdateConstants.batch_batchIndex env m1 a).2 q).trans (h.2 q)⟩) _ m
    ⟨rfl, fun _ => rfl⟩

/-- `UpdateConstants`, whether it returns or stops, leaves the batch indices of
every slot as they were. -/
theorem UpdateConstants_batchIndices (env : Env) (scene : Scene) (m : Manager) (i : Nat) :
    (UpdateConstants env scene m).state.batchIndices i = m.batchIndices i := by
  have hb := UpdateConstants.batches_batchIndex env m
  have hloop : (UpdateConstants.batches env m).state.batchIndices i = m.batchIndices i := by
    unfold Manager.batchIndices
    rw [hb.1]
    exact List.map_congr_left (fun q _ => hb.2 q)
  rw [UpdateConstants_def]
  cases hB : UpdateConstants.batches env m with
  | fault m1 =>
    rw [hB] at hloop
    exact hloop
  | done m1 =>
    rw [hB] at hloop
    exact ((UpdateConstants_rest_sameBatches env scene m1).batchIndices i).trans hloop

theorem ClearDebugBuffers_sameBatches (m : Manager) : SameBatches (ClearDebugBuffers m) m := by
  unfold ClearDebugBuffers
  simp only [foldl_glDeleteVertexArrays, foldl_glDeleteBuffers]
  exact ⟨rfl, rfl, rfl, fun _ => rfl⟩

/-- In every reachable state the frame index is a slot, and there is a number
`k` such that every slot carries the batch indices 0, 1, ..., k - 1 in this
order. -/
theorem Reachable.indices_consecutive (env : Env) (m : Manager) (h : Reachable env m) :
    m.m_nFrameIndex < env.kMaxInFlightFrameCount ∧
    ∃ k, ∀ i, i < env.kMaxInFlightFrameCount → m.batchIndices i = List.range' 0 k := by
  induction h with
  | start m h =>
    refine ⟨h, 0, fun i hi => ?_⟩
    simp [Initialize, Manager.batchIndices, clearSlots, hi]
  | finalize m _ ih =>
    refine ⟨?_, 0, fun i hi => ?_⟩
    · unfold Finalize
      rw [EndScene_index]
      split
      · rw [(ClearDebugBuffers_sameBatches m).1]
        exact ih.1
      · exact ih.1
    · unfold Finalize
      simp [Manager.batchIndices, EndScene_batchContexts env _ i hi]
  | tick m changed scene _ ih =>
    have hN : 0 < env.kMaxInFlightFrameCount := Nat.lt_of_le_of_lt (Nat.zero_le _) ih.1
    rw [Tick_eq]
    refine andThen_state_inv
      (fun m' => m'.m_nFrameIndex < env.kMaxInFlightFrameCount ∧
        ∃ k, ∀ i, i < env.kMaxInFlightFrameCount → m'.batchIndices i = List.range' 0 k) _ _ ?_ ?_
    · cases changed with
      | false => exact ih
      | true =>
        simp only [if_true]
        refine ⟨?_, _, fun i hi =>
          BeginScene_batchIndices_of_empty env scene (EndScene env m)
            (EndScene_batchContexts env m) i hi⟩
        rw [(rebuild_spec env scene m).1]
        exact ih.1
    · intro m1 h1
      refine andThen_state_inv
        (fun m' => m'.m_nFrameIndex < env.kMaxInFlightFrameCount ∧
          ∃ k, ∀ i, i < env.kMaxInFlightFrameCount → m'.batchIndices i = List.range' 0 k) _ _ ?_ ?_
      · obtain ⟨hidx, k, hk⟩ := h1
        refine ⟨?_, k, fun i hi => ?_⟩
        · rw [UpdateConstants_index]
          exact hidx
        · rw [UpdateConstants_batchIndices]
          exact hk i hi
      · intro m2 h2
        obtain ⟨_, k, hk⟩ := h2
        refine ⟨Nat.mod_lt _ hN, k, fun i hi => ?_⟩
        rw [← hk i hi, ← (Draw_sameBatches env m2).batchIndices i]
        rfl

/-- C11: batch-index invariant.  In every state reachable through
`Initialize`, `Tick` and `Finalize`, in every frame slot the j-th batch has
batch index j (the list of batch indices of the slot is 0, 1, ..., size - 1);
hence the batch indices of a slot are pairwise distinct, the N slots carry the
same list, every index is smaller than the batch count of its slot, and every
write of `SetPerBatchConstants`, of `kSizePerBatchConstantBuffer` bytes at
offset `batchIndex * kSizePerBatchConstantBuffer`, ends inside its buffer of
`kSizePerBatchConstantBuffer * batches.size()` bytes. -/
theorem Reachable_batchIndex_invariant (env : Env) (m : Manager) (h : Reachable env m) :
    (∀ i, i < env.kMaxInFlightFrameCount →
      m.batchIndices i = List.range (m.m_Frames i).batchContexts.length) ∧
    (∀ i, i < env.kMaxInFlightFrameCount → (m.batchIndices i).Nodup) ∧
    (∀ i j, i < env.kMaxInFlightFrameCount → j < env.kMaxInFlightFrameCount →
      m.batchIndices i = m.batchIndices j) ∧
    (∀ i, i < env.kMaxInFlightFrameCount →
      ∀ b ∈ m.batchIndices i, b < (m.m_Frames i).batchContexts.length) ∧
    (∀ kSizePerBatchConstantBuffer, ∀ w ∈ SetPerBatchConstants.writes kSizePerBatchConstantBuffer m,
      w.1 + w.2 ≤ SetPerBatchConstants.bufferSize kSizePerBatchConstantBuffer m) := by
  obtain ⟨hidx, k, hk⟩ := Reachable.indices_consecutive env m h
  have hrange : ∀ i, i < env.kMaxInFlightFrameCount →
      m.batchIndices i = List.range (m.m_Frames i).batchContexts.length := by
    intro i hi
    have hlen : (m.m_Frames i).batchContexts.length = k := by
      have := congrArg List.length (hk i hi)
      simpa [Manager.batchIndices] using this
    rw [hlen, hk i hi, List.range_eq_range']
  have hlt : ∀ i, i < env.kMaxInFlightFrameCount →
      ∀ b ∈ m.batchIndices i, b < (m.m_Frames i).batchContexts.length := by
    intro i hi b hb
    rw [hrange i hi] at hb
    exact List.mem_range.mp hb
  refine ⟨hrange, fun i hi => ?_, fun i j hi hj => (hk i hi).trans (hk j hj).symm, hlt, ?_⟩
  · rw [hrange i hi]
    exact List.nodup_range _
  · intro K w hw
    simp only [SetPerBatchConstants.writes, List.mem_map] at hw
    obtain ⟨p, hp, rfl⟩ := hw
    have hb : (m.batchObjects p).batchIndex < (m.m_Frames m.m_nFrameIndex).batchContexts.length :=
      hlt _ hidx _ (List.mem_map.mpr ⟨p, hp, rfl⟩)
    show (m.batchObjects p).batchIndex * K + K ≤
      K * (m.m_Frames m.m_nFrameIndex).batchContexts.length
    calc (m.batchObjects p).batchIndex * K + K = K * ((m.batchObjects p).batchIndex + 1) := by ring
      _ ≤ K * (m.m_Frames m.m_nFrameIndex).batchContexts.length := Nat.mul_le_mul_left K hb

/-- C11, on the viewer after `Initialize` and one `Tick` that loads the scene
with the node "box": slot 1 carries the batch indices 0, ..., size - 1. -/
theorem Reachable_batchIndex_invariant_witness :
    Reachable Env.viewer (Tick Env.viewer true Scene.oneBox (Initialize Env.viewer Manager.fresh)).state ∧
    (Tick Env.viewer true Scene.oneBox (Initialize Env.viewer Manager.fresh)).state.batchIndices 1 =
      List.range (((Tick Env.viewer true Scene.oneBox
        (Initialize Env.viewer Manager.fresh)).state.m_Frames 1).batchContexts.length) :=
  ⟨Reachable.tick _ true Scene.oneBox (Reachable.start Manager.fresh (by decide)),
   (Reachable_batchIndex_invariant Env.viewer _
      (Reachable.tick _ true Scene.oneBox (Reachable.start Manager.fresh (by decide)))).1 1
      (by decide)⟩

/-! ## The shadow pass: theorems -/

theorem List.finRange_six : List.finRange 6 = [0, 1, 2, 3, 4, 5] := rfl

/-- The six faces of the loop of `BeginShadowMap`. -/
theorem BeginShadowMap.faces (env : Env) (pos : Vector3f) (projection : Matrix4X4f)
    (constants : ShadowMapConstants) :
    (∀ i : Fin 6,
      ((List.finRange 6).foldl (BeginShadowMap.face env pos projection) constants).shadowMatrices i.val =
        env.MatrixMultiply
          (env.BuildViewRHMatrix pos (fun k => pos k + BeginShadowMap.direction i k) (BeginShadowMap.up i))
          projection) ∧
    (∀ j, 6 ≤ j →
      ((List.finRange 6).foldl (BeginShadowMap.face env pos projection) constants).shadowMatrices j =
        constants.shadowMatrices j) := by
  rw [List.finRange_six]
  have v0 : ((0 : Fin 6) : Nat) = 0 := rfl
  have v1 : ((1 : Fin 6) : Nat) = 1 := rfl
  have v2 : ((2 : Fin 6) : Nat) = 2 := rfl
  have v3 : ((3 : Fin 6) : Nat) = 3 := rfl
  have v4 : ((4 : Fin 6) : Nat) = 4 := rfl
  have v5 : ((5 : Fin 6) : Nat) = 5 := rfl
  simp only [List.foldl_cons, List.foldl_nil, BeginShadowMap.face, v0, v1, v2, v3, v4, v5]
  constructor
  · intro i
    fin_cases i <;> simp [Function.update, v0, v1, v2, v3, v4, v5]
  · intro j hj
    have h0 : j ≠ 0 := by omega
    have h1 : j ≠ 1 := by omega
    have h2 : j ≠ 2 := by omega
    have h3 : j ≠ 3 := by omega
    have h4 : j ≠ 4 := by omega
    have h5 : j ≠ 5 := by omega
    simp [Function.update, h0, h1, h2, h3, h4, h5]

/-- C14: omni shadow pass.  For an omni light at position p and every width
and height, the constants of `BeginShadowMap` hold
shadowMatrices[i] = lookAtRH(p, p + direction[i], up[i]) * P for i = 0..5,
with the one projection P of field of view PI/2 and aspect width / height, and
no other entry is written; direction and up are the tables in the order
+X, -X, +Y, -Y, +Z, -Z, the six pairs are pairwise distinct, and each up
vector is a unit vector orthogonal to its direction. -/
theorem BeginShadowMap_omni_matrices (env : Env) (light : Light) (width height : Nat)
    (layer_index : Int) (constants : ShadowMapConstants) (h : light.lightType = .Omni) :
    (∀ i : Fin 6,
      (BeginShadowMap.constants env light width height layer_index constants).shadowMatrices i.val =
        env.MatrixMultiply
          (env.BuildViewRHMatrix light.lightPosition.xyz
            (fun k => light.lightPosition.xyz k + BeginShadowMap.direction i k) (BeginShadowMap.up i))
          (env.BuildPerspectiveFovRHMatrix (env.PI / 2) ((width : Scalar) / (height : Scalar)) 0.1 10)) ∧
    (∀ j, 6 ≤ j →
      (BeginShadowMap.constants env light width height layer_index constants).shadowMatrices j =
        constants.shadowMatrices j) ∧
    BeginShadowMap.direction =
      ![![1, 0, 0], ![-1, 0, 0], ![0, 1, 0], ![0, -1, 0], ![0, 0, 1], ![0, 0, -1]] ∧
    BeginShadowMap.up =
      ![![0, -1, 0], ![0, -1, 0], ![0, 0, 1], ![0, 0, -1], ![0, -1, 0], ![0, -1, 0]] ∧
    (∀ i j : Fin 6, BeginShadowMap.direction i = BeginShadowMap.direction j →
      BeginShadowMap.up i = BeginShadowMap.up j → i = j) ∧
    (∀ i : Fin 6,
      BeginShadowMap.up i 0 ^ 2 + BeginShadowMap.up i 1 ^ 2 + BeginShadowMap.up i 2 ^ 2 = 1 ∧
      BeginShadowMap.up i 0 * BeginShadowMap.direction i 0 +
        BeginShadowMap.up i 1 * BeginShadowMap.direction i 1 +
        BeginShadowMap.up i 2 * BeginShadowMap.direction i 2 = 0) := by
  have hc : (BeginShadowMap.constants env light width height layer_index constants).shadowMatrices =
      ((List.finRange 6).foldl (BeginShadowMap.face env light.lightPosition.xyz
        (env.BuildPerspectiveFovRHMatrix (env.PI / 2) ((width : Scalar) / (height : Scalar)) 0.1 10))
        constants).shadowMatrices := by
    simp only [BeginShadowMap.constants, h, if_true]
    rfl
  rw [hc]
  refine ⟨(BeginShadowMap.faces env _ _ constants).1, (BeginShadowMap.faces env _ _ constants).2,
    rfl, rfl, ?_, ?_⟩
  · intro i j hd _
    have hinj : ∀ i j : Fin 6, BeginShadowMap.direction i = BeginShadowMap.direction j → i = j := by
      decide
    exact hinj i j hd
  · intro i
    fin_cases i <;> norm_num [BeginShadowMap.up, BeginShadowMap.direction]

/-- C14, on the omni light at (1, 2, 3) and a 512 by 512 shadow map. -/
theorem BeginShadowMap_omni_matrices_witness :
    Light.bulb.lightType = .Omni ∧
    (BeginShadowMap.constants Env.viewer Light.bulb 512 512 0 ShadowMapConstants.blank).shadowMatrices 3 =
      Env.viewer.MatrixMultiply
        (Env.viewer.BuildViewRHMatrix Light.bulb.lightPosition.xyz
          (fun k => Light.bulb.lightPosition.xyz k + BeginShadowMap.direction 3 k) (BeginShadowMap.up 3))
        (Env.viewer.BuildPerspectiveFovRHMatrix (Env.viewer.PI / 2) ((512 : Nat) / (512 : Nat)) 0.1 10) :=
  ⟨rfl, (BeginShadowMap_omni_matrices Env.viewer Light.bulb 512 512 0 ShadowMapConstants.blank rfl).1 3⟩

/-! ## The up vector of a directional light -/

/-- C21 fails: on a scene whose first camera node refers to a camera object
that is not a perspective camera, `CalculateCameraMatrix` does not return:
the result of the `dynamic_pointer_cast` is null and is dereferenced.  The
view matrix and `camPos` are written before, and the projection matrix of the
slot is left as it was. -/
theorem CalculateCameraMatrix_nonperspective_faults :
    Scene.orthoCamera.GetFirstCameraNode =
      some { calculatedTransform := translationMatrix 1 2 3, sceneObjectRef := "camera" } ∧
    (Scene.orthoCamera.GetCamera "camera").map (fun pCamera => pCamera.perspective) = some false ∧
    (CalculateCameraMatrix Env.viewer Scene.orthoCamera Manager.fresh).completes = false ∧
    (CalculateCameraMatrix Env.viewer Scene.orthoCamera Manager.fresh).state.projectionMatrix =
      Manager.fresh.projectionMatrix := by
  refine ⟨rfl, rfl, by decide, by decide⟩

theorem CalculateLights.loop_completes (env : Env) (scene : Scene) (hassert : env.NDEBUG = false) :
    ∀ (l : List (Option SceneLightNode)) (m : Manager),
      (l.foldl (fun (o : Outcome Manager) LightNode =>
        o.andThen (fun m => CalculateLights.node env scene m LightNode)) (Outcome.done m)).completes =
          l.all (lightNodeOk scene) := by
  intro l
  induction l with
  | nil => intro m; rfl
  | cons e l ih =>
    intro m0
    simp only [List.foldl_cons, Outcome.andThen_done, List.all_cons]
    have h := (CalculateLights.node_spec env scene m0 e).1 (Or.inl hassert)
    cases hn : CalculateLights.node env scene m0 e with
    | done m1 =>
      rw [hn] at h
      rw [← h, ih m1]
      rfl
    | fault m1 =>
      rw [hn] at h
      rw [← h, foldl_andThen_fault]
      rfl

/-- With `assert` active, `CalculateLights` returns exactly when the loop body
returns on every entry of `scene.LightNodes`. -/
theorem CalculateLights_completes (env : Env) (scene : Scene) (m : Manager)
    (hassert : env.NDEBUG = false) :
    (CalculateLights env scene m).completes = scene.LightNodes.all (lightNodeOk scene) :=
  CalculateLights.loop_completes env scene hassert scene.LightNodes _

/-- C22 fails in a build with `NDEBUG`.  The scene has one live light node,
whose light object does not resolve, and no camera node.  With `assert` active
`CalculateLights` stops at `assert(0)`, and on a scene whose one light node
has expired it returns, as claimed.  With `NDEBUG` defined, `assert(0)` is
nothing: `CalculateCameraMatrix` returns, `CalculateLights` returns with the
node skipped and `numLights = 0`, having written the position of the node to
`lights[0]`, and `UpdateConstants` and the whole `Tick` return. -/
theorem CalculateLights_skips_unresolved_light :
    Scene.danglingLight.LightNodes =
      [some { calculatedTransform := identityMatrix, sceneObjectRef := "lamp" }] ∧
    Scene.danglingLight.GetLight "lamp" = none ∧
    (CalculateLights Env.viewer Scene.expiredLight Manager.fresh).completes = true ∧
    (CalculateLights Env.viewer Scene.danglingLight Manager.fresh).completes = false ∧
    Env.release.NDEBUG = true ∧
    (CalculateCameraMatrix Env.release Scene.danglingLight Manager.fresh).completes = true ∧
    (CalculateLights Env.release Scene.danglingLight Manager.fresh).completes = true ∧
    (CalculateLights Env.release Scene.danglingLight Manager.fresh).state.numLights = 0 ∧
    ((CalculateLights Env.release Scene.danglingLight Manager.fresh).state.lights 0).lightPosition 3 ≠
      (Manager.fresh.lights 0).lightPosition 3 ∧
    (UpdateConstants Env.release Scene.danglingLight Manager.fresh).completes = true ∧
    (Tick Env.release false Scene.danglingLight Manager.fresh).completes = true := by
  refine ⟨rfl, rfl, by decide, by decide, rfl, by decide, by decide, by decide, ?_, by decide,
    by decide⟩
  have h : ((CalculateLights Env.release Scene.danglingLight Manager.fresh).state.lights 0).lightPosition
      = Env.release.Transform ![0, 0, 0, 1] identityMatrix := rfl
  rw [h]
  show Env.release.Transform ![0, 0, 0, 1] identityMatrix 3 ≠ 0
  norm_num [Env.release, Env.viewer, identityMatrix]

/-! ## The up vector of a local light -/

/-- C26: local-light view matrix is never degenerate.  Over every ordered
field, for every unit vector d the up vector of the branch of the spot, area
and omni lights, (0, 0.707, 0.707) when |d.x| <= 0.1f and |d.y| <= 0.1f and
(0, 0, 1) otherwise, is not parallel to d: cross(up, d) is not zero. -/
theorem CalculateLights_local_up_not_parallel {K : Type} [LinearOrderedField K] (d : Fin 3 → K)
    (hunit : d 0 ^ 2 + d 1 ^ 2 + d 2 ^ 2 = 1) :
    cross (CalculateLights.localUp (d 0) (d 1)) d ≠ 0 := by
  intro h
  have h0 := congrFun h 0
  have h1 := congrFun h 1
  unfold CalculateLights.localUp at h0 h1
  by_cases hg : abs (d 0) ≤ 13421773 / 134217728 ∧ abs (d 1) ≤ 13421773 / 134217728
  · rw [if_pos hg] at h0 h1
    simp only [cross, Matrix.cons_val_zero, Matrix.cons_val_one, Matrix.head_cons,
      Matrix.cons_val_two, Matrix.tail_cons, Pi.zero_apply] at h0 h1
    have hd0 : d 0 = 0 := by
      have : (0.707 : K) * d 0 = 0 := by linarith
      rcases mul_eq_zero.mp this with h707 | hd
      · norm_num at h707
      · exact hd
    have hd12 : d 2 = d 1 := by
      have : (0.707 : K) * (d 2 - d 1) = 0 := by linarith
      rcases mul_eq_zero.mp this with h707 | hd
      · norm_num at h707
      · linarith
    have hsq : d 1 ^ 2 ≤ (1 / 8) ^ 2 := by
      have := sq_abs (d 1)
      have habs : abs (d 1) ≤ 1 / 8 := le_trans hg.2 (by norm_num)
      have hnn := abs_nonneg (d 1)
      nlinarith
    rw [hd0, hd12] at hunit
    norm_num at hsq
    nlinarith
  · rw [if_neg hg] at h0 h1
    simp only [cross, Matrix.cons_val_zero, Matrix.cons_val_one, Matrix.head_cons,
      Matrix.cons_val_two, Matrix.tail_cons, Pi.zero_apply] at h0 h1
    have hd1 : d 1 = 0 := by linarith
    have hd0 : d 0 = 0 := by linarith
    apply hg
    rw [hd0, hd1]
    norm_num

/-- C26, at the direction (0, 0, -1) of a light node that is not rotated: the
substitute (0, 0.707, 0.707) is chosen and is not parallel to it. -/
theorem CalculateLights_local_up_not_parallel_witness :
    ((0 : Scalar) ^ 2 + 0 ^ 2 + (-1) ^ 2 = 1) ∧
    cross (CalculateLights.localUp (0 : Scalar) 0) ![0, 0, -1] ≠ 0 :=
  ⟨by norm_num, CalculateLights_local_up_not_parallel (![0, 0, -1] : Fin 3 → Scalar) (by norm_num)⟩

/-! ## Debug drawing: theorems -/

theorem DrawBox.points_corners (bbMin bbMax : Vector3f) :
    ∀ i k, DrawBox.points bbMin bbMax i k =
      if (![![false, true, true], ![false, false, true], ![true, false, true], ![true, true, true],
            ![false, true, false], ![false, false, false], ![true, false, false],
            ![true, true, false]] : Fin 8 → Fin 3 → Bool) i k
      then bbMax k else bbMin k := by
  intro i k
  fin_cases i <;> fin_cases k <;> rfl

/-- C30: `DrawBox` edge list.  For every bbMin and bbMax, `DrawBox` makes 12
edges over 8 points; the points are the 8 corners, each combination of
per-axis choices between bbMin and bbMax being taken by exactly one point; the
endpoints of every edge take bbMin's and bbMax's value on one axis and agree
on the two others; every point is an endpoint of exactly 3 edges; and
`DrawEdgeList` hands 24 points to `DrawLine`, first and second endpoint of
each edge in edge order. -/
theorem DrawBox_edge_list (bbMin bbMax : Vector3f) :
    DrawBox.edges.length = 12 ∧
    (∃ choice : Fin 8 → Fin 3 → Bool, Function.Bijective choice ∧
      ∀ i k, (DrawBox bbMin bbMax).1 i k = if choice i k then bbMax k else bbMin k) ∧
    (∀ edge ∈ DrawBox.edges, ∃ axis : Fin 3,
      (((DrawBox bbMin bbMax).1 edge.1 axis = bbMin axis ∧
          (DrawBox bbMin bbMax).1 edge.2 axis = bbMax axis) ∨
        ((DrawBox bbMin bbMax).1 edge.1 axis = bbMax axis ∧
          (DrawBox bbMin bbMax).1 edge.2 axis = bbMin axis)) ∧
      ∀ k, k ≠ axis → (DrawBox bbMin bbMax).1 edge.1 k = (DrawBox bbMin bbMax).1 edge.2 k) ∧
    (∀ i : Fin 8, (DrawBox.edges.filter (fun edge => edge.1 = i ∨ edge.2 = i)).length = 3) ∧
    (DrawBox bbMin bbMax).2.length = 24 ∧
    (DrawBox bbMin bbMax).2 =
      [0, 3, 3, 2, 2, 1, 1, 0, 4, 7, 7, 6, 6, 5, 5, 4, 0, 4, 1, 5, 2, 6, 3, 7] ∧
    ∀ (PointPtr : Type) (edges : List (PointPtr × PointPtr)),
      DrawEdgeList edges = edges.flatMap (fun edge => [edge.1, edge.2]) := by
  have hp := DrawBox.points_corners bbMin bbMax
  refine ⟨rfl, ⟨_, by decide, hp⟩, ?_, by decide, rfl, rfl, ?_⟩
  · have hc : ∀ edge ∈ DrawBox.edges, ∃ axis : Fin 3,
        (((![![false, true, true], ![false, false, true], ![true, false, true], ![true, true, true],
            ![false, true, false], ![false, false, false], ![true, false, false],
            ![true, true, false]] : Fin 8 → Fin 3 → Bool) edge.1 axis = false ∧
          (![![false, true, true], ![false, false, true], ![true, false, true], ![true, true, true],
            ![false, true, false], ![false, false, false], ![true, false, false],
            ![true, true, false]] : Fin 8 → Fin 3 → Bool) edge.2 axis = true) ∨
         ((![![false, true, true], ![false, false, true], ![true, false, true], ![true, true, true],
            ![false, true, false], ![false, false, false], ![true, false, false],
            ![true, true, false]] : Fin 8 → Fin 3 → Bool) edge.1 axis = true ∧
          (![![false, true, true], ![false, false, true], ![true, false, true], ![true, true, true],
            ![false, true, false], ![false, false, false], ![true, false, false],
            ![true, true, false]] : Fin 8 → Fin 3 → Bool) edge.2 axis = false)) ∧
        ∀ k, k ≠ axis →
          (![![false, true, true], ![false, false, true], ![true, false, true], ![true, true, true],
            ![false, true, false], ![false, false, false], ![true, false, false],
            ![true, true, false]] : Fin 8 → Fin 3 → Bool) edge.1 k =
          (![![false, true, true], ![false, false, true], ![true, false, true], ![true, true, true],
            ![false, true, false], ![false, false, false], ![true, false, false],
            ![true, true, false]] : Fin 8 → Fin 3 → Bool) edge.2 k := by
      decide
    intro edge he
    obtain ⟨axis, hax, hrest⟩ := hc edge he
    refine ⟨axis, ?_, fun k hk => ?_⟩
    · show (DrawBox.points bbMin bbMax edge.1 axis = _ ∧ DrawBox.points bbMin bbMax edge.2 axis = _) ∨
        (DrawBox.points bbMin bbMax edge.1 axis = _ ∧ DrawBox.points bbMin bbMax edge.2 axis = _)
      rcases hax with ⟨h1, h2⟩ | ⟨h1, h2⟩
      · left
        rw [hp, hp, h1, h2]
        exact ⟨rfl, rfl⟩
      · right
        rw [hp, hp, h1, h2]
        exact ⟨rfl, rfl⟩
    · show DrawBox.points bbMin bbMax edge.1 k = DrawBox.points bbMin bbMax edge.2 k
      rw [hp, hp, hrest k hk]
  · intro PointPtr edges
    unfold DrawEdgeList
    have hgen : ∀ (l : List (PointPtr × PointPtr)) (acc : List PointPtr),
        l.foldl (fun point_list edge => point_list ++ [edge.1, edge.2]) acc =
          acc ++ l.flatMap (fun edge => [edge.1, edge.2]) := by
      intro l
      induction l with
      | nil => intro acc; simp
      | cons e l ih =>
        intro acc
        simp only [List.foldl_cons, ih, List.flatMap_cons, List.append_assoc]
    simpa using hgen edges []

/-! ## The calls of one tick: theorems -/

theorem Outcome.eq_done_state (o : Outcome Manager) (h : o.completes = true) :
    o = Outcome.done o.state := by
  cases o with
  | done m => rfl
  | fault m => exact absurd h (by simp [Outcome.completes])

theorem Run.andThen_returns (r : Run) (f : Manager → Run) (m' : Manager)
    (h : (r.andThen f).outcome = Outcome.done m') :
    ∃ m, r.outcome = Outcome.done m ∧ (f m).outcome = Outcome.done m' ∧
      (r.andThen f).calls = r.calls ++ (f m).calls := by
  unfold Run.andThen at h ⊢
  cases hr : r.outcome with
  | done m =>
    rw [hr] at h
    exact ⟨m, rfl, h, rfl⟩
  | fault m =>
    rw [hr] at h
    simp only [hr] at h
    exact absurd h (by simp)

theorem Run.call_returns (r : Run) (c : Call) (f : Manager → Outcome Manager) (m' : Manager)
    (h : (r.call c f).outcome = Outcome.done m') :
    ∃ m, r.outcome = Outcome.done m ∧ f m = Outcome.done m' ∧
      (r.call c f).calls = r.calls ++ [c] :=
  Run.andThen_returns r (fun m => Run.step c (f m)) m' h

theorem Run.foldl_call_calls {α : Type} (c : α → Call) (f : α → Manager → Outcome Manager) :
    ∀ (l : List α) (r : Run) (m' : Manager),
      (l.foldl (fun (r : Run) x => r.call (c x) (f x)) r).outcome = Outcome.done m' →
      (∃ m, r.outcome = Outcome.done m) ∧
      (l.foldl (fun (r : Run) x => r.call (c x) (f x)) r).calls = r.calls ++ l.map c := by
  intro l
  induction l with
  | nil =>
    intro r m' h
    exact ⟨⟨m', h⟩, by simp⟩
  | cons x l ih =>
    intro r m' h
    simp only [List.foldl_cons] at h ⊢
    obtain ⟨⟨m1, h1⟩, h2⟩ := ih _ m' h
    obtain ⟨m0, h0, _, h3⟩ := Run.call_returns r (c x) (f x) m1 h1
    exact ⟨⟨m0, h0⟩, by rw [h2, h3, List.map_cons, List.append_assoc]; rfl⟩

/-- The calls of an `UpdateConstants` that returns. -/
theorem UpdateConstants.run_trace (env : Env) (scene : Scene) (m m' : Manager)
    (h : (UpdateConstants.run env scene m).outcome = Outcome.done m') :
    (UpdateConstants.run env scene m).calls =
      (m.m_Frames m.m_nFrameIndex).batchContexts.map Call.modelMatrix ++
        [.CalculateCameraMatrix, .CalculateLights, .SetPerFrameConstants, .SetPerBatchConstants,
         .SetLightInfo] := by
  unfold UpdateConstants.run at h ⊢
  simp only at h ⊢
  obtain ⟨m5, h5, _, c5⟩ := Run.call_returns _ _ _ _ h
  obtain ⟨m4, h4, _, c4⟩ := Run.call_returns _ _ _ _ h5
  obtain ⟨m3, h3, _, c3⟩ := Run.call_returns _ _ _ _ h4
  obtain ⟨m2, h2, _, c2⟩ := Run.call_returns _ _ _ _ h3
  obtain ⟨m1, h1, _, c1⟩ := Run.call_returns _ _ _ _ h2
  have c0 := (Run.foldl_call_calls (fun pDbc => Call.modelMatrix pDbc)
    (fun pDbc m => UpdateConstants.batch env m pDbc) _ _ m1 h1).2
  rw [c5, c4, c3, c2, c1, c0]
  simp [Run.start]

/-- The calls of `Draw`: for each pass, in the order of the list, `BeginPass`,
`Draw` on the slot of the frame index at entry, `EndPass`. -/
theorem Draw.run_calls (env : Env) (m : Manager) :
    (Draw.run env m).outcome = Outcome.done (Draw env m) ∧
    (Draw.run env m).calls = (List.range env.drawPasses.length).flatMap
      (fun pDrawPass => [Call.BeginPass, Call.Draw pDrawPass m.m_nFrameIndex, Call.EndPass]) := by
  have h := Draw.run_loop m.m_nFrameIndex env.drawPasses 0 (Run.start m) m rfl
  rw [Draw_def]
  unfold Draw.run
  simp only [List.enum]
  refine ⟨h.1, ?_⟩
  rw [h.2, List.range_eq_range']
  rfl

/-- The calls of the optional rebuild that opens `Tick`. -/
theorem Tick.rebuild_calls (env : Env) (changed : Bool) (scene : Scene) (m m1 : Manager)
    (h : (if changed then
        (((Run.start m).call .EndScene (fun m => .done (EndScene env m))).call .BeginScene
          (BeginScene env scene)).call .NotifySceneIsRenderingQueued (fun m => .done m)
      else Run.start m).outcome = Outcome.done m1) :
    (if changed then BeginScene env scene (EndScene env m) else Outcome.done m) = Outcome.done m1 ∧
    (if changed then
        (((Run.start m).call .EndScene (fun m => .done (EndScene env m))).call .BeginScene
          (BeginScene env scene)).call .NotifySceneIsRenderingQueued (fun m => .done m)
      else Run.start m).calls =
      (if changed then [Call.EndScene, Call.BeginScene, Call.NotifySceneIsRenderingQueued] else []) := by
  cases changed with
  | false => exact ⟨h, rfl⟩
  | true =>
    simp only [if_true] at h ⊢
    obtain ⟨m3, h3, e3, c3⟩ := Run.call_returns _ _ _ _ h
    obtain ⟨m2, h2, e2, c2⟩ := Run.call_returns _ _ _ _ h3
    obtain ⟨m0, h0, e0, c0⟩ := Run.call_returns _ _ _ _ h2
    have hm0 : m0 = m := by
      have : Outcome.done m = Outcome.done m0 := h0
      exact (Outcome.done.inj this).symm
    have hm2 : m2 = EndScene env m := by
      rw [hm0] at e0
      exact (Outcome.done.inj e0).symm
    have hm3 : m3 = m1 := Outcome.done.inj e3
    refine ⟨?_, ?_⟩
    · rw [← hm2, e2, hm3]
    · rw [c3, c2, c0]
      rfl

/-- C23: `Tick` call order.  The calls that one `Tick` makes when it returns
(the calls of the run that produces the returned state) are, when the scene
has changed, EndScene, BeginScene, NotifySceneIsRenderingQueued, and in every
case then: the model-matrix update of each batch of the current slot,
CalculateCameraMatrix, CalculateLights, the three constant uploads,
BeginFrame, for each registered draw pass in the order of `m_DrawPasses`
BeginPass, Draw on the slot of the frame index that the tick started with,
EndPass, then EndFrame, Present, and last the assignment of (index + 1) mod N
to the frame index, which is the index of the state returned.  No call before
BeginFrame is BeginFrame, and no call after it is EndScene or BeginScene.
`Initialize` registers ShadowMapPass at position 0 of `m_DrawPasses` and
ForwardGeometryPass at position 1. -/
theorem Tick_call_order (env : Env) (changed : Bool) (scene : Scene) (m m' : Manager)
    (h : Tick env changed scene m = Outcome.done m') :
    (Tick.run env changed scene m).outcome = Outcome.done m' ∧
    (Tick.run env changed scene m).calls =
      ((if changed then [.EndScene, .BeginScene, .NotifySceneIsRenderingQueued] else []) ++
        ((if changed then BeginScene env scene (EndScene env m)
          else Outcome.done m).state.m_Frames m.m_nFrameIndex).batchContexts.map Call.modelMatrix ++
        [.CalculateCameraMatrix, .CalculateLights, .SetPerFrameConstants, .SetPerBatchConstants,
         .SetLightInfo]) ++
      Call.BeginFrame ::
        ((List.range env.drawPasses.length).flatMap
            (fun pDrawPass => [Call.BeginPass, Call.Draw pDrawPass m.m_nFrameIndex, Call.EndPass]) ++
          [.EndFrame, .Present,
           .setFrameIndex ((m.m_nFrameIndex + 1) % env.kMaxInFlightFrameCount)]) ∧
    (∀ c ∈ (if changed then [Call.EndScene, Call.BeginScene, Call.NotifySceneIsRenderingQueued]
          else []) ++
        ((if changed then BeginScene env scene (EndScene env m)
          else Outcome.done m).state.m_Frames m.m_nFrameIndex).batchContexts.map Call.modelMatrix ++
        [.CalculateCameraMatrix, .CalculateLights, .SetPerFrameConstants, .SetPerBatchConstants,
         .SetLightInfo],
      c ≠ Call.BeginFrame) ∧
    (∀ c ∈ (List.range env.drawPasses.length).flatMap
          (fun pDrawPass => [Call.BeginPass, Call.Draw pDrawPass m.m_nFrameIndex, Call.EndPass]) ++
        [Call.EndFrame, Call.Present,
         Call.setFrameIndex ((m.m_nFrameIndex + 1) % env.kMaxInFlightFrameCount)],
      c ≠ Call.EndScene ∧ c ≠ Call.BeginScene ∧ c ≠ Call.BeginFrame) ∧
    m'.m_nFrameIndex = (m.m_nFrameIndex + 1) % env.kMaxInFlightFrameCount ∧
    Initialize.m_DrawPasses.enum = [(0, .ShadowMapPass), (1, .ForwardGeometryPass)] := by
  have hrun : (Tick.run env changed scene m).outcome = Outcome.done m' := h
  refine ⟨hrun, ?_, ?_, ?_, Tick_index env changed scene m m' h, rfl⟩
  · unfold Tick.run at hrun ⊢
    simp only at hrun ⊢
    obtain ⟨m6, h6, _, c6⟩ := Run.andThen_returns _ _ _ hrun
    obtain ⟨m5, h5, e5, c5⟩ := Run.call_returns _ _ _ _ h6
    obtain ⟨m4, h4, e4, c4⟩ := Run.call_returns _ _ _ _ h5
    obtain ⟨m3, h3, e3, c3⟩ := Run.andThen_returns _ _ _ h4
    obtain ⟨m2, h2, e2, c2⟩ := Run.call_returns _ _ _ _ h3
    obtain ⟨m1, h1, e1, c1⟩ := Run.andThen_returns _ _ _ h2
    obtain ⟨hre, c0⟩ := Tick.rebuild_calls env changed scene m m1 h1
    have hU := UpdateConstants.run_trace env scene m1 m2 e1
    have hD := Draw.run_calls env m3
    have i1 : m1.m_nFrameIndex = m.m_nFrameIndex := by
      have hs : m1 = (if changed then BeginScene env scene (EndScene env m)
          else Outcome.done m).state := by rw [hre]; rfl
      rw [hs]
      cases changed with
      | false => rfl
      | true => exact (rebuild_spec env scene m).1
    have hs1 : (if changed then BeginScene env scene (EndScene env m)
        else Outcome.done m).state = m1 := by rw [hre]; rfl
    have i2 : m2.m_nFrameIndex = m1.m_nFrameIndex := by
      have := UpdateConstants_index env scene m1
      rw [show UpdateConstants env scene m1 = Outcome.done m2 from e1] at this
      exact this
    have e23 : m3 = m2 := (Outcome.done.inj e2).symm
    have i4 : m4.m_nFrameIndex = m3.m_nFrameIndex := by
      rw [hD.1] at e3
      rw [← Outcome.done.inj e3]
      exact (Draw_sameBatches env m3).1
    have e45 : m5 = m4 := (Outcome.done.inj e4).symm
    have e56 : m6 = m5 := (Outcome.done.inj e5).symm
    have i6 : m6.m_nFrameIndex = m.m_nFrameIndex := by
      rw [e56, e45, i4, e23, i2, i1]
    have i3 : m3.m_nFrameIndex = m.m_nFrameIndex := by rw [e23, i2, i1]
    rw [c6, c5, c4, c3, c2, c1, c0, hU, hD.2, hs1, i1, i3]
    simp only [Run.step, i6, List.append_assoc, List.cons_append, List.nil_append,
      List.singleton_append]
  · intro c hc
    cases changed <;>
      simp only [Bool.false_eq_true, if_false, if_true, List.mem_append, List.mem_map,
        List.mem_cons, List.mem_singleton, List.not_mem_nil, or_false, false_or] at hc <;>
      rcases hc with hc | hc <;> intro hne <;> subst hne <;> simp at hc
  · intro c hc
    simp only [List.mem_append, List.mem_flatMap, List.mem_cons, List.mem_singleton,
      List.not_mem_nil, or_false] at hc
    rcases hc with ⟨p, _, hp | hp | hp⟩ | hc | hc | hc <;> subst_vars <;>
      exact ⟨fun hne => Call.noConfusion hne, fun hne => Call.noConfusion hne,
        fun hne => Call.noConfusion hne⟩

/-- C23, on the viewer with the two passes of `Initialize`: the tick that loads
the scene with the node "box" into the fresh manager returns with frame index
1, and these are its calls. -/
theorem Tick_call_order_witness :
    Tick Env.withPasses true Scene.oneBox Manager.fresh =
      Outcome.done (Tick Env.withPasses true Scene.oneBox Manager.fresh).state ∧
    (Tick.run Env.withPasses true Scene.oneBox Manager.fresh).calls =
      [.EndScene, .BeginScene, .NotifySceneIsRenderingQueued, .modelMatrix 0,
       .CalculateCameraMatrix, .CalculateLights, .SetPerFrameConstants, .SetPerBatchConstants,
       .SetLightInfo, .BeginFrame,
       .BeginPass, .Draw 0 0, .EndPass,
       .BeginPass, .Draw 1 0, .EndPass,
       .EndFrame, .Present, .setFrameIndex 1] ∧
    (Tick Env.withPasses true Scene.oneBox Manager.fresh).state.m_nFrameIndex = 1 := by
  have hret := Outcome.eq_done_state (Tick Env.withPasses true Scene.oneBox Manager.fresh)
    (by decide)
  have hb : ((BeginScene Env.withPasses Scene.oneBox
      (EndScene Env.withPasses Manager.fresh)).state.m_Frames 0).batchContexts = [0] := by decide
  have h := Tick_call_order Env.withPasses true Scene.oneBox Manager.fresh _ hret
  refine ⟨hret, ?_, h.2.2.2.2.1⟩
  rw [h.2.1]
  simp only [if_true]
  show (_ ++ List.map Call.modelMatrix
    ((BeginScene Env.withPasses Scene.oneBox (EndScene Env.withPasses Manager.fresh)).state.m_Frames
      0).batchContexts ++ _) ++ _ = _
  rw [hb]
  rfl

/-! ## Writes past the lights array -/

theorem uploads_frames (m : Manager) :
    (SetLightInfo (SetPerBatchConstants (SetPerFrameConstants m))).m_Frames = m.m_Frames := by
  have h1 : (SetPerFrameConstants m).m_Frames = m.m_Frames := by
    unfold SetPerFrameConstants
    split <;> rfl
  have h2 : ∀ a, (SetPerBatchConstants a).m_Frames = a.m_Frames := by
    intro a
    unfold SetPerBatchConstants
    split <;> rfl
  have h3 : ∀ a, (SetLightInfo a).m_Frames = a.m_Frames := by
    intro a
    unfold SetLightInfo
    split <;> rfl
  rw [h3, h2, h1]

/-- On a scene with `count + 1` live omni lights that resolve, `CalculateLights`
returns, keeps the frame index, and has counted and written all of them. -/
theorem CalculateLights.manyLights_run (env : Env) (m : Manager) (count : Nat) :
    ∃ m', CalculateLights env (Scene.manyLights (count + 1)) m = Outcome.done m' ∧
      m'.m_nFrameIndex = m.m_nFrameIndex ∧
      m'.numLights = count + 1 ∧ (m'.lights count).lightGuid = 42 := by
  have hall : ∀ e ∈ (Scene.manyLights (count + 1)).LightNodes, ∃ node pLight, e = some node ∧
      (Scene.manyLights (count + 1)).GetLight node.sceneObjectRef = some pLight ∧
      lightNodeOk (Scene.manyLights (count + 1)) e = true ∧ pLight.guid = 42 := by
    intro e he
    have h := List.eq_of_mem_replicate he
    have hget : (Scene.manyLights (count + 1)).GetLight "lamp" = some SceneObjectLight.lamp := by
      simp [Scene.manyLights, Scene.GetLight, Scene.empty, List.lookup]
    refine ⟨{ calculatedTransform := identityMatrix, sceneObjectRef := "lamp" },
      SceneObjectLight.lamp, h, hget, ?_, rfl⟩
    rw [h]
    simp [lightNodeOk, hget, SceneObjectLight.lamp]
  obtain ⟨m', hrun, hidx, hcount, _, hnew⟩ := CalculateLights.loop_count env _ 42 _
    (m.setFrameContext { (m.m_Frames m.m_nFrameIndex).frameContext with numLights := 0 }) hall
  have h0 : (m.setFrameContext
      { (m.m_Frames m.m_nFrameIndex).frameContext with numLights := 0 }).numLights = 0 := by
    simp [Manager.numLights, Manager.setFrameContext, Manager.setFrame]
  have hlen : (Scene.manyLights (count + 1)).LightNodes.length = count + 1 := by
    simp [Scene.manyLights]
  rw [h0, hlen] at hcount hnew
  exact ⟨m', hrun, hidx, by omega, hnew count (by omega) (by omega)⟩

/-- C24 fails above the capacity of the `lights` array.  Whatever the capacity
`MaxLights`, on the viewer a `Tick` without scene change, started at frame
index 0 on a scene with `MaxLights + 1` live lights that resolve, returns
after `UpdateConstants` has set `numLights` of slot 0 to `MaxLights + 1` and
written the last light (guid 42) through `lights[MaxLights]` of slot 0: one
element past the end of the array of that slot, memory that is not part of
the `lightInfo` of slot 0. -/
theorem Tick_writes_past_lights (MaxLights : Nat) :
    ∃ m', Tick Env.viewer false (Scene.manyLights (MaxLights + 1)) Manager.fresh =
        Outcome.done m' ∧
      Manager.fresh.m_nFrameIndex = 0 ∧
      (Scene.manyLights (MaxLights + 1)).LightNodes.length = MaxLights + 1 ∧
      (m'.m_Frames 0).frameContext.numLights = MaxLights + 1 ∧
      ((m'.m_Frames 0).lightInfo.lights MaxLights).lightGuid = 42 ∧
      ((Manager.fresh.m_Frames 0).lightInfo.lights MaxLights).lightGuid = 0 := by
  have hn : (Scene.manyLights (MaxLights + 1)).GetFirstCameraNode = none := rfl
  have hcam : CalculateCameraMatrix Env.viewer (Scene.manyLights (MaxLights + 1)) Manager.fresh =
      Outcome.done (CalculateCameraMatrix.projection Env.viewer
        (CalculateCameraMatrix.view Env.viewer (Scene.manyLights (MaxLights + 1)) Manager.fresh)
        (Env.viewer.PI / 3) 1 100) := by
    simp only [CalculateCameraMatrix, hn]
  obtain ⟨m3, hrun, hidx, hcount, hguid⟩ := CalculateLights.manyLights_run Env.viewer
    (CalculateCameraMatrix.projection Env.viewer
      (CalculateCameraMatrix.view Env.viewer (Scene.manyLights (MaxLights + 1)) Manager.fresh)
      (Env.viewer.PI / 3) 1 100) MaxLights
  have hidx0 : m3.m_nFrameIndex = 0 := by
    rw [hidx]
    simp only [CalculateCameraMatrix.projection, CalculateCameraMatrix.view, hn,
      Manager.setFrameContext, Manager.setFrame]
    rfl
  have hU : UpdateConstants Env.viewer (Scene.manyLights (MaxLights + 1)) Manager.fresh =
      Outcome.done (SetLightInfo (SetPerBatchConstants (SetPerFrameConstants m3))) := by
    rw [UpdateConstants_def]
    have hb : UpdateConstants.batches Env.viewer Manager.fresh = Outcome.done Manager.fresh := rfl
    rw [hb, Outcome.andThen_done, hcam, Outcome.andThen_done, hrun, Outcome.andThen_done]
  have hD : ∀ x, Draw Env.viewer x = x := by
    intro x
    rw [Draw_def]
    rfl
  refine ⟨{ SetLightInfo (SetPerBatchConstants (SetPerFrameConstants m3)) with
      m_nFrameIndex := ((SetLightInfo (SetPerBatchConstants (SetPerFrameConstants m3))).m_nFrameIndex
        + 1) % Env.viewer.kMaxInFlightFrameCount },
    ?_, rfl, by simp [Scene.manyLights], ?_, ?_, rfl⟩
  · rw [Tick_eq]
    simp only [Bool.false_eq_true, if_false, Outcome.andThen_done, hU, hD]
  · show ((SetLightInfo (SetPerBatchConstants (SetPerFrameConstants m3))).m_Frames
      0).frameContext.numLights = MaxLights + 1
    rw [uploads_frames, ← hcount, Manager.numLights, hidx0]
  · show (((SetLightInfo (SetPerBatchConstants (SetPerFrameConstants m3))).m_Frames
      0).lightInfo.lights MaxLights).lightGuid = 42
    rw [uploads_frames, ← hguid, Manager.lights, hidx0]

/-! ## Lights: the contents of the list -/

theorem CalculateLights.copied_filled (env : Env) (m : Manager) (pLightNode : SceneLightNode)
    (pLight : SceneObjectLight) (light : Light) (view projection : Matrix4X4f)
    (h1 : light.lightGuid = (CalculateLights.copied env m pLightNode pLight).lightGuid)
    (h2 : light.lightColor = (CalculateLights.copied env m pLightNode pLight).lightColor)
    (h3 : light.lightIntensity = (CalculateLights.copied env m pLightNode pLight).lightIntensity)
    (h4 : light.lightCastShadow = (CalculateLights.copied env m pLightNode pLight).lightCastShadow)
    (h5 : light.lightDistAttenCurveType =
      (CalculateLights.copied env m pLightNode pLight).lightDistAttenCurveType)
    (h6 : light.lightDistAttenCurveParams =
      (CalculateLights.copied env m pLightNode pLight).lightDistAttenCurveParams)
    (h7 : light.lightDirection = (CalculateLights.copied env m pLightNode pLight).lightDirection)
    (h8 : light.lightVP = env.MatrixMultiply view projection)
    (h9 : ∀ dimension, pLight.type = .kSceneObjectTypeLightArea dimension →
      projection = env.BuildIdentityMatrix) :
    CalculateLights.filled env pLightNode pLight light := by
  refine ⟨h1, h2, h3, h4, h5, ?_, h7, view, projection, h8, h9⟩
  intro i x hx
  rw [h6]
  show memcpyParams _ pLight.distanceAttenuation.u i = x
  simp [memcpyParams, List.getD_eq_getElem?_getD, hx]

/-- The loop body on a live node whose light resolves, where it returns: the
entry `lights[numLights]` is filled, the count grows by one, and no other entry
changes. -/
theorem CalculateLights.node_filled (env : Env) (scene : Scene) (m : Manager)
    (pLightNode : SceneLightNode) (pLight : SceneObjectLight)
    (hl : scene.GetLight pLightNode.sceneObjectRef = some pLight)
    (hok : lightNodeOk scene (some pLightNode) = true) :
    ∃ m', CalculateLights.node env scene m (some pLightNode) = Outcome.done m' ∧
      m'.m_nFrameIndex = m.m_nFrameIndex ∧ m'.numLights = m.numLights + 1 ∧
      (∀ j, j ≠ m.numLights → m'.lights j = m.lights j) ∧
      CalculateLights.filled env pLightNode pLight (m'.lights m.numLights) := by
  obtain ⟨m', hrun, hidx, hcount, _, hother⟩ :=
    (CalculateLights.node_spec env scene m (some pLightNode)).2 pLight hl hok
  refine ⟨m', hrun, hidx, hcount, hother, ?_⟩
  by_cases ht : pLight.type = .kSceneObjectTypeLightInfi
  · have hcam : ∃ nearClip farClip target,
        CalculateLights.cameraTarget env scene = some (nearClip, farClip, target) := by
      simp only [lightNodeOk, hl, ht] at hok
      unfold CalculateLights.cameraTarget
      cases hn : scene.GetFirstCameraNode with
      | none => exact ⟨_, _, _, rfl⟩
      | some pCameraNode =>
        rw [hn] at hok
        simp only at hok
        obtain ⟨pCamera, hc⟩ := Option.isSome_iff_exists.mp hok
        simp only [hc]
        exact ⟨_, _, _, rfl⟩
    obtain ⟨nearClip, farClip, target, hct⟩ := hcam
    have hrun2 := CalculateLights.node_infinity env scene m pLightNode pLight nearClip farClip
      target hl ht hct
    rw [hrun2] at hrun
    rw [← Outcome.done.inj hrun, CalculateLights.infinity_light]
    exact CalculateLights.copied_filled env m pLightNode pLight _ _ _ rfl rfl rfl rfl rfl rfl rfl rfl
      (fun dimension hd => absurd (ht.symm.trans hd) (fun h => SceneObjectLightType.noConfusion h))
  · have hrun2 := CalculateLights.node_local env scene m pLightNode pLight hl ht
    rw [hrun2] at hrun
    rw [← Outcome.done.inj hrun, CalculateLights.local_eq]
    cases hty : pLight.type with
    | kSceneObjectTypeLightInfi => exact absurd hty ht
    | kSceneObjectTypeLightSpot curve =>
      simp only [CalculateLights.finish_light]
      exact CalculateLights.copied_filled env m pLightNode pLight _ _ _ rfl rfl rfl rfl rfl rfl rfl
        rfl (fun dimension hd => absurd (hty.symm.trans hd)
          (fun h => SceneObjectLightType.noConfusion h))
    | kSceneObjectTypeLightArea dimension =>
      simp only [CalculateLights.finish_light]
      exact CalculateLights.copied_filled env m pLightNode pLight _ _ _ rfl rfl rfl rfl rfl rfl rfl
        rfl (fun _ _ => rfl)
    | kSceneObjectTypeLightOmni =>
      simp only [CalculateLights.finish_light]
      exact CalculateLights.copied_filled env m pLightNode pLight _ _ _ rfl rfl rfl rfl rfl rfl rfl
        rfl (fun dimension hd => absurd (hty.symm.trans hd)
          (fun h => SceneObjectLightType.noConfusion h))

/-- The light loop on entries on which the body returns: the count grows by
the number of live entries, the entries below the old count are kept, and the
k-th live entry fills `lights[count + k]`. -/
theorem CalculateLights.loop_filled (env : Env) (scene : Scene) :
    ∀ (l : List (Option SceneLightNode)) (m : Manager), l.all (lightNodeOk scene) = true →
      ∃ m', l.foldl (fun (o : Outcome Manager) LightNode =>
          o.andThen (fun m => CalculateLights.node env scene m LightNode)) (Outcome.done m) =
            Outcome.done m' ∧
        m'.m_nFrameIndex = m.m_nFrameIndex ∧
        m'.numLights = m.numLights + l.reduceOption.length ∧
        (∀ j, j < m.numLights → m'.lights j = m.lights j) ∧
        ∀ k pLightNode pLight, l.reduceOption[k]? = some pLightNode →
          scene.GetLight pLightNode.sceneObjectRef = some pLight →
          CalculateLights.filled env pLightNode pLight (m'.lights (m.numLights + k)) := by
  intro l
  induction l with
  | nil =>
    intro m _
    exact ⟨m, rfl, rfl, rfl, fun _ _ => rfl, fun k node pLight hk => by simp at hk⟩
  | cons e l ih =>
    intro m h
    simp only [List.all_cons, Bool.and_eq_true] at h
    cases e with
    | none =>
      obtain ⟨m2, hrun2, hidx2, hcount2, hlow2, hfill2⟩ := ih m h.2
      refine ⟨m2, ?_, hidx2, ?_, hlow2, ?_⟩
      · simp only [List.foldl_cons, Outcome.andThen_done]
        exact hrun2
      · rw [hcount2, List.reduceOption_cons_of_none]
      · intro k node pLight hk
        rw [List.reduceOption_cons_of_none] at hk
        exact hfill2 k node pLight hk
    | some pLightNode =>
      have hex : ∃ pLight, scene.GetLight pLightNode.sceneObjectRef = some pLight := by
        have h1 := h.1
        cases hg : scene.GetLight pLightNode.sceneObjectRef with
        | none => simp [lightNodeOk, hg] at h1
        | some pLight => exact ⟨pLight, rfl⟩
      obtain ⟨pLight, hl⟩ := hex
      obtain ⟨m1, hrun, hidx, hcount, hother, hfill⟩ :=
        CalculateLights.node_filled env scene m pLightNode pLight hl h.1
      obtain ⟨m2, hrun2, hidx2, hcount2, hlow2, hfill2⟩ := ih m1 h.2
      refine ⟨m2, ?_, hidx2.trans hidx, ?_, ?_, ?_⟩
      · simp only [List.foldl_cons, Outcome.andThen_done]
        rw [hrun]
        exact hrun2
      · rw [hcount2, hcount, List.reduceOption_cons_of_some, List.length_cons]
        omega
      · intro j hj
        rw [hlow2 j (by omega), hother j (by omega)]
      · intro k node pLight2 hk hl2
        rw [List.reduceOption_cons_of_some] at hk
        cases k with
        | zero =>
          simp only [List.getElem?_cons_zero, Option.some.injEq] at hk
          subst hk
          have he : pLight2 = pLight := Option.some.inj (hl2.symm.trans hl)
          subst he
          rw [Nat.add_zero, hlow2 m.numLights (by omega)]
          exact hfill
        | succ k =>
          simp only [List.getElem?_cons_succ] at hk
          have := hfill2 k node pLight2 hk hl2
          rw [hcount, Nat.add_assoc, Nat.add_comm 1 k] at this
          exact this

/-- C27: light list contents.  For every scene on whose light nodes the loop
body returns (the light object of every live node resolves, and so does the
camera object that a directional light looks up), `CalculateLights` returns
with `numLights` equal to the number of live light nodes, whatever the count
was before, and the k-th live light node, in the order of `scene.LightNodes`,
has filled `lights[k]`: guid, color, intensity, cast-shadow flag and
distance-attenuation type are those of its light object, the
distance-attenuation parameters are the floats of the object's curve, the
direction is the normalized image of (0, 0, -1, 0) under the node's transform,
and `lightVP` is the product of a view and a projection, the projection being
the identity matrix for an area light. -/
theorem CalculateLights_light_list (env : Env) (scene : Scene) (m : Manager)
    (hok : scene.LightNodes.all (lightNodeOk scene) = true) :
    ∃ m', CalculateLights env scene m = Outcome.done m' ∧
      m'.numLights = scene.LightNodes.reduceOption.length ∧
      ∀ k pLightNode pLight, scene.LightNodes.reduceOption[k]? = some pLightNode →
        scene.GetLight pLightNode.sceneObjectRef = some pLight →
        (m'.lights k).lightGuid = pLight.guid ∧ (m'.lights k).lightColor = pLight.color ∧
        (m'.lights k).lightIntensity = pLight.intensity ∧
        (m'.lights k).lightCastShadow = pLight.castShadow ∧
        (m'.lights k).lightDistAttenCurveType = pLight.distanceAttenuation.type ∧
        (∀ i x, pLight.distanceAttenuation.u[i]? = some x →
          (m'.lights k).lightDistAttenCurveParams i = x) ∧
        (m'.lights k).lightDirection =
          env.Normalize (env.Transform ![0, 0, -1, 0] pLightNode.calculatedTransform) ∧
        ∃ view projection, (m'.lights k).lightVP = env.MatrixMultiply view projection ∧
          ∀ dimension, pLight.type = .kSceneObjectTypeLightArea dimension →
            projection = env.BuildIdentityMatrix := by
  obtain ⟨m', hrun, _, hcount, _, hfill⟩ := CalculateLights.loop_filled env scene scene.LightNodes
    (m.setFrameContext { (m.m_Frames m.m_nFrameIndex).frameContext with numLights := 0 }) hok
  have h0 : (m.setFrameContext
      { (m.m_Frames m.m_nFrameIndex).frameContext with numLights := 0 }).numLights = 0 := by
    simp [Manager.numLights, Manager.setFrameContext, Manager.setFrame]
  rw [h0] at hcount hfill
  refine ⟨m', hrun, by omega, fun k node pLight hk hl => ?_⟩
  have := hfill k node pLight hk hl
  rw [Nat.zero_add] at this
  exact this

/-- C27, on the scene with a spot light, an expired node and a directional
light: two lights are counted, and `lights[1]` has the guid 9 of the
directional light. -/
theorem CalculateLights_light_list_witness :
    Scene.twoLights.LightNodes.all (lightNodeOk Scene.twoLights) = true ∧
    ∃ m', CalculateLights Env.viewer Scene.twoLights Manager.fresh = Outcome.done m' ∧
      m'.numLights = 2 ∧ (m'.lights 1).lightGuid = 9 := by
  have hok : Scene.twoLights.LightNodes.all (lightNodeOk Scene.twoLights) = true := by decide
  obtain ⟨m', hrun, hcount, hfill⟩ :=
    CalculateLights_light_list Env.viewer Scene.twoLights Manager.fresh hok
  exact ⟨hok, m', hrun, hcount,
    (hfill 1 { calculatedTransform := identityMatrix, sceneObjectRef := "sun" }
      SceneObjectLight.sun rfl rfl).1⟩

/-! ## Scene build: the batch objects -/

theorem Appended.of_same {N : Nat} {m m' : Manager} (h : SameBatches m' m) : Appended N m m' [] := by
  refine ⟨Nat.le_of_eq h.2.2.1.symm, fun p _ => by rw [h.2.1], [], fun i _ => ?_, ?_, rfl⟩
  · rw [h.2.2.2 i, List.append_nil]
  · intro p hp
    exact absurd hp (List.not_mem_nil p)

theorem Appended.append {N : Nat} {m m1 m2 : Manager}
    {a1 a2 : List (SceneGeometryNode × SceneObjectIndexArray)}
    (h1 : Appended N m m1 a1) (h2 : Appended N m1 m2 a2) : Appended N m m2 (a1 ++ a2) := by
  obtain ⟨hc1, ho1, p1, hs1, hp1, hi1⟩ := h1
  obtain ⟨hc2, ho2, p2, hs2, hp2, hi2⟩ := h2
  refine ⟨Nat.le_trans hc1 hc2, fun p hp => ?_, p1 ++ p2, fun i hi => ?_, fun p hp => ?_, ?_⟩
  · rw [ho2 p (Nat.lt_of_lt_of_le hp hc1), ho1 p hp]
  · rw [hs2 i hi, hs1 i hi, List.append_assoc]
  · rcases List.mem_append.mp hp with h | h
    · exact ⟨(hp1 p h).1, Nat.lt_of_lt_of_le (hp1 p h).2 hc2⟩
    · exact ⟨Nat.le_trans hc1 (hp2 p h).1, (hp2 p h).2⟩
  · rw [List.map_append, List.map_append, ← hi1, ← hi2]
    congr 1
    exact List.map_congr_left (fun p hp => by rw [ho2 p (hp1 p hp).2])

theorem Appended.pushed (N : Nat) (m : Manager) (dbc : OpenGLDrawBatchContext)
    (node : SceneGeometryNode) (ia : SceneObjectIndexArray)
    (hsrc : dbc.source = (some node, glIndexType ia.indexType, static_cast_int32 ia.indexCount)) :
    Appended N m (pushBatch N m.batchObjectCount (m.allocBatch dbc)) [(node, ia)] := by
  rw [pushBatch_eq]
  refine ⟨Nat.le_succ _, fun p hp => ?_, [m.batchObjectCount], fun i hi => ?_, fun p hp => ?_, ?_⟩
  · have hne : p ≠ m.batchObjectCount := Nat.ne_of_lt hp
    simp [appendSlots, Manager.allocBatch, Function.update, hne]
  · simp [appendSlots, Manager.allocBatch, hi]
  · rw [List.mem_singleton.mp hp]
    exact ⟨Nat.le_refl _, Nat.lt_succ_self _⟩
  · simp [appendSlots, Manager.allocBatch, hsrc]

theorem glIndexType_isSome (indexType : IndexDataType) :
    (glIndexType indexType).isSome = indexTypeSupported indexType := by
  cases indexType <;> rfl

theorem initializeGeometries.indexGroup_appended (env : Env) (scene : Scene)
    (node : SceneGeometryNode) (vao : Nat) (mode : GLMode) (st : Nat × Manager)
    (ia : SceneObjectIndexArray) :
    Appended env.kMaxInFlightFrameCount st.2
      (initializeGeometries.indexGroup env scene node vao mode st ia).2
      (([ia].filter (fun index_array => indexTypeSupported index_array.indexType)).map
        (fun index_array => (node, index_array))) := by
  have hsome := glIndexType_isSome ia.indexType
  unfold initializeGeometries.indexGroup
  cases ht : glIndexType ia.indexType with
  | none =>
    rw [ht] at hsome
    have hf : indexTypeSupported ia.indexType = false := hsome.symm
    simp only [List.filter_cons, hf, List.filter_nil, List.map_nil]
    exact Appended.of_same (glGenBuffers_sameBatches st.2)
  | some type =>
    rw [ht] at hsome
    have hf : indexTypeSupported ia.indexType = true := hsome.symm
    simp only [List.filter_cons, hf, if_true, List.filter_nil, List.map_cons, List.map_nil]
    have hs : SameBatches (initializeGeometries.material env scene node ia
        { st.2.glGenBuffers.2 with m_Buffers := st.2.glGenBuffers.2.m_Buffers ++ [st.2.glGenBuffers.1] }).2
        st.2 :=
      (initializeGeometries.material_sameBatches env scene node ia _).trans ⟨rfl, rfl, rfl, fun _ => rfl⟩
    have h2 := Appended.pushed env.kMaxInFlightFrameCount
      (initializeGeometries.material env scene node ia
        { st.2.glGenBuffers.2 with
          m_Buffers := st.2.glGenBuffers.2.m_Buffers ++ [st.2.glGenBuffers.1] }).2
      { (initializeGeometries.material env scene node ia
          { st.2.glGenBuffers.2 with
            m_Buffers := st.2.glGenBuffers.2.m_Buffers ++ [st.2.glGenBuffers.1] }).1 with
        batchIndex := st.1, vao := vao, mode := mode, type := type, count := static_cast_int32 ia.indexCount,
        node := some node } node ia (by rw [ht]; rfl)
    exact Appended.append (Appended.of_same hs) h2

theorem initializeGeometries.indexGroups_appended (env : Env) (scene : Scene)
    (node : SceneGeometryNode) (vao : Nat) (mode : GLMode) :
    ∀ (l : List SceneObjectIndexArray) (st : Nat × Manager),
      Appended env.kMaxInFlightFrameCount st.2
        (l.foldl (initializeGeometries.indexGroup env scene node vao mode) st).2
        ((l.filter (fun index_array => indexTypeSupported index_array.indexType)).map
          (fun index_array => (node, index_array))) := by
  intro l
  induction l with
  | nil =>
    intro st
    exact Appended.of_same (SameBatches.refl _)
  | cons ia l ih =>
    intro st
    have h1 := initializeGeometries.indexGroup_appended env scene node vao mode st ia
    have h2 := ih (initializeGeometries.indexGroup env scene node vao mode st ia)
    have h3 := Appended.append h1 h2
    rw [← List.map_append, ← List.filter_append] at h3
    exact h3

/-- One pass of the node loop, where it returns: it appends the batches that
the specification counts for the entry. -/
theorem initializeGeometries.node_appended (env : Env) (scene : Scene) (st : Nat × Manager)
    (entry : Option SceneGeometryNode) (k : Nat) (hk : nodeBatches scene entry = some k) :
    ∃ c m', initializeGeometries.node env scene st entry = Outcome.done (c, m') ∧
      Appended env.kMaxInFlightFrameCount st.2 m' (spec_nodeBatchList scene entry) := by
  have hrefl : Appended env.kMaxInFlightFrameCount st.2 st.2 [] :=
    Appended.of_same (SameBatches.refl _)
  unfold nodeBatches at hk
  unfold initializeGeometries.node
  cases entry with
  | none => exact ⟨st.1, st.2, rfl, hrefl⟩
  | some pGeometryNode =>
    by_cases hv : pGeometryNode.visible = true
    · simp only [hv, if_true] at hk ⊢
      cases hg : scene.GetGeometry pGeometryNode.sceneObjectRef with
      | none =>
        rw [hg] at hk
        exact absurd hk (by simp)
      | some pGeometry =>
        simp only
        cases hm : pGeometry.mesh with
        | none =>
          have hspec : spec_nodeBatchList scene (some pGeometryNode) = [] := by
            simp [spec_nodeBatchList, hv, hg, hm]
          rw [hspec]
          exact ⟨st.1, st.2, rfl, hrefl⟩
        | some pMesh =>
          simp only
          have hs : SameBatches (initializeGeometries.vertexBuffers pMesh.vertexProperties
              st.2.glGenVertexArrays.2) st.2 :=
            (initializeGeometries.vertexBuffers_sameBatches _ _).trans (glGenVertexArrays_sameBatches _)
          cases hmode : glMode pMesh.primitiveType with
          | none =>
            have hspec : spec_nodeBatchList scene (some pGeometryNode) = [] := by
              simp [spec_nodeBatchList, hv, hg, hm, hmode]
            rw [hspec]
            exact ⟨_, _, rfl, Appended.of_same hs⟩
          | some mode =>
            have hspec : spec_nodeBatchList scene (some pGeometryNode) =
                (pMesh.indexArrays.filter
                  (fun index_array => indexTypeSupported index_array.indexType)).map
                  (fun index_array => (pGeometryNode, index_array)) := by
              simp [spec_nodeBatchList, hv, hg, hm, hmode]
            rw [hspec]
            have h3 := initializeGeometries.indexGroups_appended env scene pGeometryNode
              st.2.glGenVertexArrays.1 mode pMesh.indexArrays
              (st.1, initializeGeometries.vertexBuffers pMesh.vertexProperties st.2.glGenVertexArrays.2)
            exact ⟨_, _, rfl, by simpa using Appended.append (Appended.of_same hs) h3⟩
    · have hspec : spec_nodeBatchList scene (some pGeometryNode) = [] := by
        simp [spec_nodeBatchList, hv]
      rw [hspec]
      simp only [hv]
      exact ⟨st.1, st.2, rfl, hrefl⟩

/-- The node loop, where it reaches the end of the list: it appends the
batches that the specification lists. -/
theorem initializeGeometries.nodes_appended (env : Env) (scene : Scene) :
    ∀ (l : List (Option SceneGeometryNode)) (st : Nat × Manager),
      (sceneBatches scene l).2 = true →
      ∃ c m', l.foldl (fun (o : Outcome (Nat × Manager)) entry =>
              o.andThen (fun st => initializeGeometries.node env scene st entry)) (Outcome.done st) =
            Outcome.done (c, m') ∧
        Appended env.kMaxInFlightFrameCount st.2 m' (l.flatMap (spec_nodeBatchList scene)) := by
  intro l
  induction l with
  | nil =>
    intro st _
    exact ⟨st.1, st.2, rfl, Appended.of_same (SameBatches.refl _)⟩
  | cons entry l ih =>
    intro st hflag
    simp only [sceneBatches] at hflag
    cases hk : nodeBatches scene entry with
    | none =>
      rw [hk] at hflag
      exact absurd hflag (by simp)
    | some k =>
      rw [hk] at hflag
      obtain ⟨c1, m1, hrun, ha⟩ := initializeGeometries.node_appended env scene st entry k hk
      obtain ⟨c2, m2, hrun2, ha2⟩ := ih (c1, m1) hflag
      refine ⟨c2, m2, ?_, ?_⟩
      · simp only [List.foldl_cons, Outcome.andThen_done]
        rw [hrun]
        exact hrun2
      · rw [List.flatMap_cons]
        exact Appended.append ha ha2

/-- A `BeginScene` that returns has appended to every slot the batches that the
specification lists for the scene. -/
theorem BeginScene_appended (env : Env) (scene : Scene) (m m' : Manager)
    (hwf : BatchesWF env.kMaxInFlightFrameCount m)
    (h : BeginScene env scene m = Outcome.done m') :
    Appended env.kMaxInFlightFrameCount m m' (spec_batchList scene) := by
  have hflag : (sceneBatches scene scene.GeometryNodes).2 = true := by
    have hc := (BeginScene_built env scene m hwf).2
    rw [h] at hc
    have hb : sceneBuilds scene = true := hc.symm
    unfold sceneBuilds at hb
    simp only [Bool.and_eq_true] at hb
    exact hb.1.1
  have h0 := GraphicsManager.BeginScene_sameBatches env m
  obtain ⟨c, m1, hrun, ha⟩ := initializeGeometries.nodes_appended env scene scene.GeometryNodes
    (0, GraphicsManager.BeginScene env m) hflag
  have hgeo : initializeGeometries env scene (GraphicsManager.BeginScene env m) = Outcome.done m1 := by
    unfold initializeGeometries
    rw [hrun]
    rfl
  have ha1 : Appended env.kMaxInFlightFrameCount m m1 (spec_batchList scene) := by
    have := Appended.append (Appended.of_same h0) ha
    simpa [spec_batchList] using this
  unfold BeginScene at h
  rw [hgeo] at h
  simp only [Outcome.andThen_done] at h
  have ht := (initializeTerrain_sameBatches env scene m1).1
  cases hT : initializeTerrain env scene m1 with
  | fault m2 =>
    rw [hT] at h
    exact absurd h (by simp)
  | done m2 =>
    rw [hT] at h ht
    simp only [Outcome.andThen_done] at h
    have hs := (initializeSkyBox_sameBatches env scene m2).1
    rw [h] at hs
    have := Appended.append ha1 (Appended.of_same (hs.trans ht))
    simpa using this

theorem static_cast_int32_of_lt (n : Nat) (h : n < 2147483648) : static_cast_int32 n = n := by
  unfold static_cast_int32
  have hmod : n % 4294967296 = n := Nat.mod_eq_of_lt (by omega)
  rw [hmod, if_pos h]

theorem spec_batchList_length (scene : Scene) :
    (spec_batchList scene).length = spec_batchCount scene := by
  unfold spec_batchList spec_batchCount
  induction scene.GeometryNodes with
  | nil => rfl
  | cons e l ih => simp only [List.flatMap_cons, List.length_append, List.map_cons, List.sum_cons, ih]

/-- C28: batch count.  After a `BeginScene` that returns, started with the
batch lists of the slots empty, every one of the N slots holds as many batches
as the specification counts: the sum, over the geometry nodes that are alive,
visible, have a mesh and a supported primitive type, of the number of index
groups of the mesh whose index type has 8, 16 or 32 bits; the batches are those
of the specification's list in its order (node order, then index-group
order), each carrying its node, its index type and its index count converted
by `static_cast<int32_t>` (the count itself when it is below 2^31), and their
batch indices are 0, 1, ..., count - 1. -/
theorem BeginScene_batch_count (env : Env) (scene : Scene) (m m' : Manager)
    (hm : ∀ i, i < env.kMaxInFlightFrameCount → (m.m_Frames i).batchContexts = [])
    (h : BeginScene env scene m = Outcome.done m') :
    ∀ i, i < env.kMaxInFlightFrameCount →
      (m'.m_Frames i).batchContexts.length = spec_batchCount scene ∧
      m'.batchSources i = (spec_batchList scene).map
        (fun x => (some x.1, glIndexType x.2.indexType, static_cast_int32 x.2.indexCount)) ∧
      m'.batchIndices i = List.range (spec_batchCount scene) ∧
      (∀ n : Nat, n < 2147483648 → static_cast_int32 n = n) := by
  intro i hi
  obtain ⟨_, _, ptrs, hs, _, hsrc⟩ :=
    BeginScene_appended env scene m m' (BatchesWF.of_empty _ m hm) h
  have hlist : (m'.m_Frames i).batchContexts = ptrs := by
    rw [hs i hi, hm i hi, List.nil_append]
  have hsources : m'.batchSources i = (spec_batchList scene).map
      (fun x => (some x.1, glIndexType x.2.indexType, static_cast_int32 x.2.indexCount)) := by
    unfold Manager.batchSources
    rw [hlist]
    exact hsrc
  have hlen : (m'.m_Frames i).batchContexts.length = spec_batchCount scene := by
    have := congrArg List.length hsources
    simpa [Manager.batchSources, spec_batchList_length] using this
  refine ⟨hlen, hsources, ?_, static_cast_int32_of_lt⟩
  have hidx := BeginScene_batchIndices_of_empty env scene m hm i hi
  rw [h] at hidx
  simp only [Outcome.state_done] at hidx
  have hk : (sceneBatches scene scene.GeometryNodes).1 = spec_batchCount scene := by
    have := congrArg List.length hidx
    simp only [Manager.batchIndices, List.length_map, List.length_range'] at this
    rw [← this, hlen]
  rw [hidx, hk, List.range_eq_range']

/-- C28, on the viewer with the scene of the node "box": slot 1 holds the one
batch that the specification counts. -/
theorem BeginScene_batch_count_witness :
    (∀ i, i < Env.viewer.kMaxInFlightFrameCount → (Manager.fresh.m_Frames i).batchContexts = []) ∧
    BeginScene Env.viewer Scene.oneBox Manager.fresh = Outcome.done Manager.oneBox ∧
    spec_batchCount Scene.oneBox = 1 ∧
    (Manager.oneBox.m_Frames 1).batchContexts.length = spec_batchCount Scene.oneBox :=
  ⟨fun _ _ => rfl,
   Outcome.eq_done_state (BeginScene Env.viewer Scene.oneBox Manager.fresh) (by decide),
   by decide,
   (BeginScene_batch_count Env.viewer Scene.oneBox Manager.fresh Manager.oneBox (fun _ _ => rfl)
     (Outcome.eq_done_state (BeginScene Env.viewer Scene.oneBox Manager.fresh) (by decide)) 1
     (by decide)).1⟩

/-! ## Batch objects are shared by the slots -/

/-- `UpdateConstants`, whether it returns or stops, leaves the batch list of
every slot as it was. -/
theorem UpdateConstants_batchContexts (env : Env) (scene : Scene) (m : Manager) (i : Nat) :
    ((UpdateConstants env scene m).state.m_Frames i).batchContexts =
      (m.m_Frames i).batchContexts := by
  have hb := (UpdateConstants.batches_batchIndex env m).1
  rw [UpdateConstants_def]
  cases hB : UpdateConstants.batches env m with
  | fault m1 =>
    rw [hB] at hb
    exact congrArg (fun f => (f i).batchContexts) hb
  | done m1 =>
    rw [hB] at hb
    exact ((UpdateConstants_rest_sameBatches env scene m1).2.2.2 i).trans
      (congrArg (fun f => (f i).batchContexts) hb)

/-- C25, as amended: after a `BeginScene` that returns, started with the batch
lists of the slots empty, the N frame slots hold the same batch objects: the
same pointers in the same order.  So after `UpdateConstants` has written the
model matrices of the batches of the current slot, every slot reads the same
model matrices. -/
theorem BeginScene_slots_share_batches (env : Env) (scene : Scene) (m m' : Manager)
    (hm : ∀ i, i < env.kMaxInFlightFrameCount → (m.m_Frames i).batchContexts = [])
    (h : BeginScene env scene m = Outcome.done m') :
    ∀ i j, i < env.kMaxInFlightFrameCount → j < env.kMaxInFlightFrameCount →
      (m'.m_Frames i).batchContexts = (m'.m_Frames j).batchContexts ∧
      (UpdateConstants env scene m').state.modelMatrices i =
        (UpdateConstants env scene m').state.modelMatrices j := by
  intro i j hi hj
  obtain ⟨_, _, ptrs, hs, _, _⟩ :=
    BeginScene_appended env scene m m' (BatchesWF.of_empty _ m hm) h
  have hij : (m'.m_Frames i).batchContexts = (m'.m_Frames j).batchContexts := by
    rw [hs i hi, hs j hj, hm i hi, hm j hj]
  refine ⟨hij, ?_⟩
  unfold Manager.modelMatrices
  rw [UpdateConstants_batchContexts, UpdateConstants_batchContexts, hij]

/-- C25, on the viewer with the scene of the node "box": slots 0 and 1 hold
the same batch list. -/
theorem BeginScene_slots_share_batches_witness :
    (∀ i, i < Env.viewer.kMaxInFlightFrameCount → (Manager.fresh.m_Frames i).batchContexts = []) ∧
    BeginScene Env.viewer Scene.oneBox Manager.fresh = Outcome.done Manager.oneBox ∧
    (Manager.oneBox.m_Frames 0).batchContexts = (Manager.oneBox.m_Frames 1).batchContexts :=
  ⟨fun _ _ => rfl,
   Outcome.eq_done_state (BeginScene Env.viewer Scene.oneBox Manager.fresh) (by decide),
   (BeginScene_slots_share_batches Env.viewer Scene.oneBox Manager.fresh Manager.oneBox
     (fun _ _ => rfl)
     (Outcome.eq_done_state (BeginScene Env.viewer Scene.oneBox Manager.fresh) (by decide)) 0 1
     (by decide) (by decide)).1⟩

/-- C25 as stated fails: after `BeginScene` on the viewer with the scene of the
node "box", the frame index is 0 and slots 0 and 1 both hold the pointer to
batch object 0; `UpdateConstants` returns, and the model matrix read through
slot 1 is no longer the one read through slot 1 before the call. -/
theorem UpdateConstants_writes_through_other_slot :
    Manager.oneBox.m_nFrameIndex = 0 ∧
    (Manager.oneBox.m_Frames 0).batchContexts = [0] ∧
    (Manager.oneBox.m_Frames 1).batchContexts = [0] ∧
    (UpdateConstants Env.viewer Scene.oneBox Manager.oneBox).completes = true ∧
    (UpdateConstants Env.viewer Scene.oneBox Manager.oneBox).state.modelMatrices 1 ≠
      Manager.oneBox.modelMatrices 1 := by
  decide

/-! ## Scene teardown: handles passed twice -/

/-- C29 fails: after `BeginScene` on the viewer (two slots) with the scene of
the node "box", both slots hold the one batch object, whose vertex array is 1.
`EndScene` passes the vertex array 1 to `glDeleteVertexArrays` twice, once for
each slot; and a second `EndScene` passes the vertex arrays 2 and 3 of terrain
and sky box, which the first one released, to `glDeleteVertexArrays` again. -/
theorem EndScene_deletes_twice :
    (Manager.oneBox.m_Frames 0).batchContexts = [0] ∧
    (Manager.oneBox.m_Frames 1).batchContexts = [0] ∧
    (Manager.oneBox.batchObjects 0).vao = 1 ∧
    (EndScene Env.viewer Manager.oneBox).gl.calls = Manager.oneBox.gl.calls ++
      [.glDeleteVertexArrays 1, .glDeleteVertexArrays 1, .glDeleteVertexArrays 2,
       .glDeleteVertexArrays 3, .glDeleteBuffers 1, .glDeleteBuffers 2, .glDeleteBuffers 3,
       .glDeleteBuffers 4, .glDeleteBuffers 5, .glDeleteBuffers 6, .glDeleteTextures 1,
       .glDeleteTextures 2] ∧
    (EndScene Env.viewer (EndScene Env.viewer Manager.oneBox)).gl.calls =
      (EndScene Env.viewer Manager.oneBox).gl.calls ++
        [.glDeleteVertexArrays 2, .glDeleteVertexArrays 3] := by
  decide

end My
